import Mathlib

/-!
# SWAY client scripts: validation, shop, species and events pages

A shallow embedding of `assets/js/validaciones.js`, `assets/js/tienda.js`,
`assets/js/mis-pedidos.js`, `assets/js/especies.js`, `assets/js/eventos.js` and of the
debounce of `assets/js/biblioteca.js`, followed by theorems about the embedded functions.

Conventions of the embedding

* A JavaScript string is a list of Unicode characters; its `length` is counted in
  UTF-16 code units (`jsLength`).
* A regular expression literal is a value of `RegExp`, written token by token after
  the literal in the source; `RegExp.test` decides whether the whole input matches
  (every pattern of the source is anchored with `^` and `$`, without flags).
* Module-level variables, the DOM and the browser storage become fields of an
  explicit state that each function takes and returns.
* A function that awaits a request takes the answer of the server as an argument, so
  that a request and its answer are one step.
* Host functions whose result the model does not compute (`Date.parse`, `toLowerCase`)
  are parameters; the theorems hold for every such function.
* Numbers that hold identifiers and quantities are integers, and a price is the
  rational that its field denotes. Where the code computes with them, in the totals of
  `getTotalCart` and `updateCartModal`, the values are IEEE-754 doubles (`Numero`): every
  product and every sum is rounded to the nearest double, ties to the even significand.
  `parseFloat` is computed by `parseFloatJS` with the same rounding.
* Dates are kept by their local calendar fields, with a fixed offset of the zone; time
  for timers is counted in milliseconds.
-/

namespace Sway

/-! ## Strings -/

/-- A JavaScript string, as the list of its characters. -/
abbrev JSString := List Char

/-- Number of UTF-16 code units that encode one character. -/
def utf16Units (c : Char) : Nat :=
  if c.toNat < 65536 then 1 else 2

/-- The `length` property of a JavaScript string. -/
def jsLength (s : JSString) : Nat :=
  (s.map utf16Units).sum

/-- Character class `\d` (also `[0-9]`). -/
def esDigito (c : Char) : Bool :=
  decide (48 ≤ c.toNat) && decide (c.toNat ≤ 57)

/-- Character class `\s`: ECMAScript white space and line terminators. -/
def esEspacio (c : Char) : Bool :=
  let n := c.toNat
  (decide (9 ≤ n) && decide (n ≤ 13)) || n == 32 || n == 160 || n == 5760 ||
  (decide (8192 ≤ n) && decide (n ≤ 8202)) || n == 8232 || n == 8233 || n == 8239 ||
  n == 8287 || n == 12288 || n == 65279

/-- The method `String.prototype.trim`: drops white space at both ends. -/
def trim (s : JSString) : JSString :=
  ((s.dropWhile esEspacio).reverse.dropWhile esEspacio).reverse

/-- Value of `parseInt(c, 10)` for a one-character string holding a decimal digit. -/
def valorDigito (c : Char) : Nat :=
  c.toNat - 48

/-- Value of `parseInt(s)` for a string of decimal digits. -/
def parseIntDigitos (s : JSString) : Nat :=
  s.foldl (fun n c => 10 * n + valorDigito c) 0

/-! ## Regular expressions -/

/-- Anchored regular expressions over characters. -/
inductive RegExp where
  | empty : RegExp
  | eps : RegExp
  | cls (p : Char → Bool) : RegExp
  | seq (a b : RegExp) : RegExp
  | alt (a b : RegExp) : RegExp
  | star (a : RegExp) : RegExp

namespace RegExp

/-- The literal character `ch`. -/
def lit (ch : Char) : RegExp := cls (fun c => c == ch)

/-- The quantifier `+`. -/
def plus (r : RegExp) : RegExp := seq r (star r)

/-- The quantifier `?`. -/
def opt (r : RegExp) : RegExp := alt r eps

/-- Does the expression accept the empty string? -/
def nullable : RegExp → Bool
  | empty => false
  | eps => true
  | cls _ => false
  | seq a b => nullable a && nullable b
  | alt a b => nullable a || nullable b
  | star _ => true

/-- Residual of an expression after reading the character `c`. -/
def deriv (c : Char) : RegExp → RegExp
  | empty => empty
  | eps => empty
  | cls p => if p c then eps else empty
  | seq a b => if nullable a then alt (seq (deriv c a) b) (deriv c b) else seq (deriv c a) b
  | alt a b => alt (deriv c a) (deriv c b)
  | star a => seq (deriv c a) (star a)

/-- The method `RegExp.prototype.test` for a pattern anchored at both ends. -/
def test (r : RegExp) (s : JSString) : Bool :=
  nullable (s.foldl (fun q c => deriv c q) r)

/-- Denotation of an expression: the strings it accepts. -/
inductive Matches : RegExp → JSString → Prop where
  | eps : Matches RegExp.eps []
  | cls (p : Char → Bool) (c : Char) (h : p c = true) : Matches (RegExp.cls p) [c]
  | seq (a b : RegExp) (s t : JSString) (ha : Matches a s) (hb : Matches b t) :
      Matches (RegExp.seq a b) (s ++ t)
  | altL (a b : RegExp) (s : JSString) (ha : Matches a s) : Matches (RegExp.alt a b) s
  | altR (a b : RegExp) (s : JSString) (hb : Matches b s) : Matches (RegExp.alt a b) s
  | starNil (a : RegExp) : Matches (RegExp.star a) []
  | starCons (a : RegExp) (s t : JSString) (ha : Matches a s) (ht : Matches (RegExp.star a) t) :
      Matches (RegExp.star a) (s ++ t)

end RegExp

/-! ## validaciones.js -/

/-- Pattern `patrones.soloNumeros`, also the inline literal of `validarTarjeta`: `^\d+$`. -/
def patronSoloNumeros : RegExp :=
  RegExp.plus (RegExp.cls esDigito)

/-- One round of the loop of `validarTarjeta`, on the character at index `i`. -/
def pasoLuhn (c : Char) (estado : Nat × Bool) : Nat × Bool :=
  let digito := valorDigito c
  let digito := if estado.2 then (if digito * 2 > 9 then (digito * 2) % 10 + 1 else digito * 2) else digito
  (estado.1 + digito, !estado.2)

/-- The method `validarTarjeta`. -/
def validarTarjeta (numero : JSString) : Bool :=
  let numeroLimpio := numero.filter (fun c => !(esEspacio c || c == '-'))
  if jsLength numeroLimpio < 13 ∨ jsLength numeroLimpio > 19 then false
  else if !(RegExp.test patronSoloNumeros numeroLimpio) then false
  else
    let final := numeroLimpio.foldr pasoLuhn (0, false)
    final.1 % 10 == 0

/-! ### Dates

`new Date(year, monthIndex)` and `new Date()` are compared through their time values.
Time values are kept on the local clock (milliseconds since local 1970-01-01T00:00),
which orders instants as UTC does as long as the offset of the zone is fixed. -/

/-- Milliseconds per day. -/
def msPerDay : Int := 86400000

/-- ECMAScript `DayFromYear`: day number of the first day of year `y`. -/
def dayFromYear (y : Int) : Int :=
  365 * (y - 1970) + (y - 1969) / 4 - (y - 1901) / 100 + (y - 1601) / 400

/-- ECMAScript `InLeapYear`, as a day count (1 in a leap year, else 0). -/
def inLeapYear (y : Int) : Int :=
  if (y % 4 = 0 ∧ y % 100 ≠ 0) ∨ y % 400 = 0 then 1 else 0

/-- Days of year `y` before the month with index `m` (0 = January). -/
def diasAntesDeMes (y : Int) (m : Int) : Int :=
  if m = 0 then 0
  else if m = 1 then 31
  else if m = 2 then 59 + inLeapYear y
  else if m = 3 then 90 + inLeapYear y
  else if m = 4 then 120 + inLeapYear y
  else if m = 5 then 151 + inLeapYear y
  else if m = 6 then 181 + inLeapYear y
  else if m = 7 then 212 + inLeapYear y
  else if m = 8 then 243 + inLeapYear y
  else if m = 9 then 273 + inLeapYear y
  else if m = 10 then 304 + inLeapYear y
  else 334 + inLeapYear y

/-- ECMAScript `MakeDay(year, month, date)`: months beyond 0..11 carry into the year. -/
def makeDay (year month date : Int) : Int :=
  let ym := year + month / 12
  let mn := month % 12
  dayFromYear ym + diasAntesDeMes ym mn + date - 1

/-- Time value of `new Date(year, monthIndex)`: local midnight of the first of the month. -/
def nuevaFecha (year monthIndex : Int) : Int :=
  makeDay year monthIndex 1 * msPerDay

/-- Number of days of month `mes` (1 = January) of year `anio`. -/
def diasEnMes (anio : Int) (mes : Nat) : Nat :=
  if mes = 2 then (if inLeapYear anio = 1 then 29 else 28)
  else if mes = 4 ∨ mes = 6 ∨ mes = 9 ∨ mes = 11 then 30
  else 31

/-- An instant of the host clock, by its local calendar fields; `mes` counts from 1. -/
structure Instante where
  anio : Int
  mes : Nat
  dia : Nat
  msDelDia : Nat
  deriving DecidableEq, Repr

/-- The fields of an instant denote a real date and time of day. -/
def Instante.valido (t : Instante) : Prop :=
  1 ≤ t.mes ∧ t.mes ≤ 12 ∧ 1 ≤ t.dia ∧ t.dia ≤ diasEnMes t.anio t.mes ∧ (t.msDelDia : Int) < msPerDay

instance (t : Instante) : Decidable t.valido := by
  unfold Instante.valido; infer_instance

/-- Time value of an instant, as `new Date()` holds it. -/
def timeValue (t : Instante) : Int :=
  makeDay t.anio ((t.mes : Int) - 1) t.dia * msPerDay + t.msDelDia

/-- The method `String.prototype.split` with a one-character separator. -/
def split (sep : Char) : JSString → List JSString
  | [] => [[]]
  | c :: cs =>
    if c = sep then [] :: split sep cs
    else match split sep cs with
      | [] => [[c]]
      | p :: ps => (c :: p) :: ps

/-- Pattern `patrones.fechaVencimiento`: `^(0[1-9]|1[0-2])\/\d{2}$`. -/
def patronFechaVencimiento : RegExp :=
  RegExp.seq
    (RegExp.alt
      (RegExp.seq (RegExp.lit '0') (RegExp.cls (fun c => decide (49 ≤ c.toNat) && decide (c.toNat ≤ 57))))
      (RegExp.seq (RegExp.lit '1') (RegExp.cls (fun c => decide (48 ≤ c.toNat) && decide (c.toNat ≤ 50)))))
    (RegExp.seq (RegExp.lit '/') (RegExp.seq (RegExp.cls esDigito) (RegExp.cls esDigito)))

/-- The method `validarFechaVencimiento`; `ahora` is the value of `new Date()`. -/
def validarFechaVencimiento (ahora : Instante) (fecha : JSString) : Bool :=
  if !(RegExp.test patronFechaVencimiento fecha) then false
  else
    let partes := split '/' fecha
    let mes := partes.getD 0 []
    let anio := partes.getD 1 []
    let fechaCompleta := nuevaFecha (2000 + (parseIntDigitos anio : Int)) ((parseIntDigitos mes : Int) - 1)
    let fechaActual := timeValue ahora
    decide (fechaCompleta > fechaActual)

/-! ### Patterns of `this.patrones` used by `validarCampo` -/

/-- Character class `[a-zA-ZÀ-ÿñÑ\s]`. -/
def esLetraOEspacio (c : Char) : Bool :=
  let n := c.toNat
  (decide (97 ≤ n) && decide (n ≤ 122)) || (decide (65 ≤ n) && decide (n ≤ 90)) ||
  (decide (192 ≤ n) && decide (n ≤ 255)) || n == 241 || n == 209 || esEspacio c

/-- Pattern `patrones.soloTexto`: `^[a-zA-ZÀ-ÿñÑ\s]+$`. -/
def patronSoloTexto : RegExp :=
  RegExp.plus (RegExp.cls esLetraOEspacio)

/-- Pattern `patrones.numerosDecimales`: `^\d+(\.\d{1,2})?$`. -/
def patronNumerosDecimales : RegExp :=
  RegExp.seq (RegExp.plus (RegExp.cls esDigito))
    (RegExp.opt (RegExp.seq (RegExp.lit '.')
      (RegExp.seq (RegExp.cls esDigito) (RegExp.opt (RegExp.cls esDigito)))))

/-- Pattern `patrones.coordenadas`: `^-?\d*\.?\d+$`. -/
def patronCoordenadas : RegExp :=
  RegExp.seq (RegExp.opt (RegExp.lit '-'))
    (RegExp.seq (RegExp.star (RegExp.cls esDigito))
      (RegExp.seq (RegExp.opt (RegExp.lit '.')) (RegExp.plus (RegExp.cls esDigito))))

/-- Character class `[^\s@]`. -/
def noEspacioNiArroba (c : Char) : Bool :=
  !(esEspacio c || c == '@')

/-- Pattern `patrones.email`: `^[^\s@]+@[^\s@]+\.[^\s@]+$`. -/
def patronEmail : RegExp :=
  RegExp.seq (RegExp.plus (RegExp.cls noEspacioNiArroba))
    (RegExp.seq (RegExp.lit '@')
      (RegExp.seq (RegExp.plus (RegExp.cls noEspacioNiArroba))
        (RegExp.seq (RegExp.lit '.') (RegExp.plus (RegExp.cls noEspacioNiArroba)))))

/-- Character class `[\d\s\-\(\)]`. -/
def esCaracterTelefono (c : Char) : Bool :=
  esDigito c || esEspacio c || c == '-' || c == '(' || c == ')'

/-- Pattern `patrones.telefono`: `^[\+]?[\d\s\-\(\)]+$`. -/
def patronTelefono : RegExp :=
  RegExp.seq (RegExp.opt (RegExp.lit '+')) (RegExp.plus (RegExp.cls esCaracterTelefono))

/-- Pattern `patrones.urlFlexible`: `^[^\s]+$`. -/
def patronUrlFlexible : RegExp :=
  RegExp.plus (RegExp.cls (fun c => !esEspacio c))

/-- Pattern `patrones.cvv`: `^\d{3,4}$`. -/
def patronCvv : RegExp :=
  RegExp.seq (RegExp.cls esDigito)
    (RegExp.seq (RegExp.cls esDigito)
      (RegExp.seq (RegExp.cls esDigito) (RegExp.opt (RegExp.cls esDigito))))

/-! ### Host functions and computed checks -/

/-- What the checks read from the browser: the clock, the parser of `new Date(string)`
(a time value on the local clock, nothing for an invalid date) and `parseFloat`
(nothing for `NaN` and the infinities, which fail every range check). -/
structure Host where
  ahora : Instante
  dateParse : JSString → Option Int
  parseFloat : JSString → Option ℚ

/-- The method `validarFechaFutura`: today at local midnight or later. -/
def validarFechaFutura (h : Host) (fecha : JSString) : Bool :=
  let fechaActual := timeValue ⟨h.ahora.anio, h.ahora.mes, h.ahora.dia, 0⟩
  match h.dateParse fecha with
  | some fechaSeleccionada => decide (fechaSeleccionada ≥ fechaActual)
  | none => false

/-- The method `validarFechaPasada`. -/
def validarFechaPasada (h : Host) (fecha : JSString) : Bool :=
  let fechaActual := timeValue h.ahora
  match h.dateParse fecha with
  | some fechaSeleccionada => decide (fechaSeleccionada ≤ fechaActual)
  | none => false

/-- The method `validarLatitud`. -/
def validarLatitud (h : Host) (valor : JSString) : Bool :=
  if !(RegExp.test patronCoordenadas valor) then false
  else match h.parseFloat valor with
    | some lat => decide (lat ≥ -90) && decide (lat ≤ 90)
    | none => false

/-- The method `validarLongitud`. -/
def validarLongitud (h : Host) (valor : JSString) : Bool :=
  if !(RegExp.test patronCoordenadas valor) then false
  else match h.parseFloat valor with
    | some lng => decide (lng ≥ -180) && decide (lng ≤ 180)
    | none => false

/-! ### Numbers read by `parseFloat`

`parseFloat` returns the Number value of the decimal numeral it reads: the IEEE-754 binary64
value nearest to the numeral, a tie going to the value with an even significand. Values are
kept as the rationals they denote. -/

/-- The nearest integer of a rational, a tie going to the even integer. -/
def redondearAPar (x : ℚ) : Int :=
  if x - (⌊x⌋ : ℚ) < 1 / 2 then ⌊x⌋
  else if x - (⌊x⌋ : ℚ) > 1 / 2 then ⌊x⌋ + 1
  else if ⌊x⌋ % 2 = 0 then ⌊x⌋ else ⌊x⌋ + 1

/-- The Number value for a rational `q`: with `2^e ≤ |q| < 2^(e+1)`, the magnitude is rounded
to a multiple of `2^(e-52)` (53 significant bits), or of `2^(-1074)` below the normal range;
a magnitude that rounds to `2^1024` or more is infinite, for which there is no result. -/
def numberValue (q : ℚ) : Option ℚ :=
  if q = 0 then some 0
  else
    let e : ℤ := Int.log 2 |q|
    let t : ℤ := max e (-1022) - 52
    let r : ℚ := (redondearAPar (|q| / (2 : ℚ) ^ t) : ℚ) * (2 : ℚ) ^ t
    if r ≥ (2 : ℚ) ^ (1024 : ℤ) then none
    else some (if q < 0 then -r else r)

/-- The parts of a numeral of the form `-?\d*\.?\d+`: whether it starts with a minus sign,
the number that its digits denote with the point left out, and how many digits follow the
point. -/
def digitosDecimal (s : JSString) : Bool × Nat × Nat :=
  let menos := s.head? == some '-'
  let cuerpo := if menos then s.tail else s
  let partes := split '.' cuerpo
  let entera := partes.getD 0 []
  let fraccion := partes.getD 1 []
  (menos, parseIntDigitos (entera ++ fraccion), fraccion.length)

/-- The mathematical value of a numeral of the form `-?\d*\.?\d+`. -/
def valorDecimal (s : JSString) : ℚ :=
  let d := digitosDecimal s
  (if d.1 then -1 else 1) * (d.2.1 : ℚ) / (10 : ℚ) ^ d.2.2

/-- The function `parseFloat` on the strings that the coordinate checks pass to it, those
matching `patrones.coordenadas`: the Number value of the numeral. Other strings are outside
the model (no result). -/
def parseFloatJS (s : JSString) : Option ℚ :=
  if RegExp.test patronCoordenadas s then numberValue (valorDecimal s) else none

/-! ### Numbers and their arithmetic

A number of the page is an IEEE-754 binary64 value. The sum and the product of two finite
numbers are the number nearest to the exact result (`numberValue`), or an infinity when
that lies beyond the finite range. -/

/-- A JavaScript number: a finite binary64 value by the rational it denotes, an infinity, or
`NaN`. The sign of a zero is not kept. -/
inductive Numero where
  | finito (valor : ℚ) : Numero
  | infinito (negativo : Bool) : Numero
  | nan : Numero
  deriving DecidableEq, Repr

/-- The number nearest to a rational, which is the number that a field holding this value
holds; beyond the finite range it is the infinity of the sign of the rational. -/
def redondear (q : ℚ) : Numero :=
  match numberValue q with
  | some r => Numero.finito r
  | none => Numero.infinito (decide (q < 0))

/-- The operator `*` on numbers. -/
def Numero.mul : Numero → Numero → Numero
  | Numero.finito a, Numero.finito b => redondear (a * b)
  | Numero.finito a, Numero.infinito n =>
    if a = 0 then Numero.nan else Numero.infinito (n != decide (a < 0))
  | Numero.infinito n, Numero.finito b =>
    if b = 0 then Numero.nan else Numero.infinito (n != decide (b < 0))
  | Numero.infinito n, Numero.infinito m => Numero.infinito (n != m)
  | Numero.nan, _ => Numero.nan
  | _, Numero.nan => Numero.nan

/-- The operator `+` on numbers. -/
def Numero.add : Numero → Numero → Numero
  | Numero.finito a, Numero.finito b => redondear (a + b)
  | Numero.finito _, Numero.infinito n => Numero.infinito n
  | Numero.infinito n, Numero.finito _ => Numero.infinito n
  | Numero.infinito n, Numero.infinito m => if n = m then Numero.infinito n else Numero.nan
  | Numero.nan, _ => Numero.nan
  | _, Numero.nan => Numero.nan

/-- The operand `x || 0` on a number: zero stands in for the falsy numbers 0 and `NaN`. -/
def Numero.oCero : Numero → Numero
  | Numero.finito a => Numero.finito a
  | Numero.infinito n => Numero.infinito n
  | Numero.nan => Numero.finito 0

/-- The first digit of the text of a number `m` of `10^21` or more, which `ToString` writes
with an exponent, as one digit, a point and further digits: the text is the shortest numeral
that denotes `m`, so its first digit is the digit `d` of a numeral `d` times a power of ten
that denotes `m`, if there is one, and else the first digit of the decimal expansion of
`m`. -/
def primerDigito (m : ℚ) : ℚ :=
  let n := (Nat.digits 10 ⌊m⌋.toNat).length
  match (List.range 9).find?
      (fun (d : Nat) => numberValue (((d : ℚ) + 1) * 10 ^ (n - 1)) == some m) with
  | some d => (d : ℚ) + 1
  | none =>
    if numberValue ((10 : ℚ) ^ n) == some m then 1
    else ((⌊m⌋.toNat / 10 ^ (n - 1) : Nat) : ℚ)

/-- The call `parseInt(x)` on the number `x` that a field with the integer value `q` holds.
The number is turned into its text first: below `10^21` the text is the decimal numeral of
the number, which `parseInt` reads back; from `10^21` on the text has an exponent and
`parseInt` reads the digits before the point, that is the first digit; the text `Infinity`
gives `NaN`. -/
def parseIntEntero (q : Int) : Numero :=
  match redondear (q : ℚ) with
  | Numero.finito v =>
    if |v| < 10 ^ 21 then Numero.finito v
    else Numero.finito ((if v < 0 then -1 else 1) * primerDigito |v|)
  | Numero.infinito _ => Numero.nan
  | Numero.nan => Numero.nan

/-! ### Fields and their annotation -/

/-- A message element below the container of a field: its class and its content. -/
structure Mensaje where
  className : String
  contenido : String
  deriving DecidableEq, Repr

/-- A form field: its value, whether it carries the attribute `required`, its class list,
and the `.mensaje-error` and `.mensaje-exito` elements below its parent node. -/
structure Campo where
  value : JSString
  required : Bool
  classList : List String
  mensajes : List Mensaje
  deriving DecidableEq, Repr

/-- The argument `opciones` of `validarCampo`: `requerido` by its truthiness, and the
referenced password field when there is one. -/
structure Opciones where
  requerido : Bool
  passwordField : Option Campo
  deriving DecidableEq, Repr

/-- The method `DOMTokenList.add` for one token. -/
def classListAdd (token : String) (clases : List String) : List String :=
  if clases.contains token then clases else clases ++ [token]

/-- The method `DOMTokenList.remove` for one token. -/
def classListRemove (token : String) (clases : List String) : List String :=
  clases.filter (fun t => t != token)

/-- The method `limpiarValidacion`. -/
def limpiarValidacion (campo : Campo) : Campo :=
  { campo with
    classList := classListRemove "campo-valido" (classListRemove "campo-error" campo.classList)
    mensajes := [] }

/-- The method `mostrarError`. -/
def mostrarError (campo : Campo) (mensaje : String) : Campo :=
  let campo := limpiarValidacion campo
  { campo with
    classList := classListRemove "campo-valido" (classListAdd "campo-error" campo.classList)
    mensajes := campo.mensajes ++ [⟨"mensaje-error", mensaje⟩] }

/-- The method `mostrarExito`. -/
def mostrarExito (campo : Campo) : Campo :=
  let campo := limpiarValidacion campo
  { campo with
    classList := classListRemove "campo-error" (classListAdd "campo-valido" campo.classList)
    mensajes := campo.mensajes ++ [⟨"mensaje-exito", "<i class=\"bi bi-check-circle\"></i>"⟩] }

/-- Table `this.mensajes`, by key. -/
def mensajes (clave : String) : String :=
  if clave = "soloTexto" then "Este campo solo debe contener letras y espacios"
  else if clave = "soloNumeros" then "Este campo solo debe contener números"
  else if clave = "numerosDecimales" then "Ingrese un número válido (ej: 123.45)"
  else if clave = "latitud" then "Latitud debe estar entre -90 y 90 grados"
  else if clave = "longitud" then "Longitud debe estar entre -180 y 180 grados"
  else if clave = "email" then "Ingrese un email válido"
  else if clave = "telefono" then "Ingrese un teléfono válido"
  else if clave = "urlFlexible" then "Ingrese un enlace válido (no puede contener espacios)"
  else if clave = "fechaVencimiento" then "Formato válido: MM/YY"
  else if clave = "cvv" then "CVV debe tener 3 o 4 dígitos"
  else if clave = "tarjeta" then "Número de tarjeta inválido"
  else if clave = "fechaFutura" then "La fecha debe ser futura"
  else if clave = "fechaPasada" then "La fecha debe ser pasada"
  else if clave = "requerido" then "Este campo es obligatorio"
  else if clave = "passwordCorta" then "La contraseña debe tener al menos 6 caracteres"
  else ""

/-- The `switch` of `validarCampo`: the pair `(esValido, mensajeError)` for a rule type. -/
def reglaPorTipo (h : Host) (tipoValidacion : String) (opciones : Opciones) (valor : JSString) :
    Bool × String :=
  if tipoValidacion = "soloTexto" then
    (RegExp.test patronSoloTexto valor, mensajes "soloTexto")
  else if tipoValidacion = "urlFlexible" then
    (RegExp.test patronUrlFlexible valor, mensajes "urlFlexible")
  else if tipoValidacion = "soloNumeros" then
    (RegExp.test patronSoloNumeros valor, mensajes "soloNumeros")
  else if tipoValidacion = "numerosDecimales" then
    (RegExp.test patronNumerosDecimales valor, mensajes "numerosDecimales")
  else if tipoValidacion = "email" then
    (RegExp.test patronEmail valor, mensajes "email")
  else if tipoValidacion = "telefono" then
    (RegExp.test patronTelefono valor && decide (jsLength valor ≥ 10), mensajes "telefono")
  else if tipoValidacion = "tarjeta" then
    (validarTarjeta valor, mensajes "tarjeta")
  else if tipoValidacion = "fechaVencimiento" then
    (validarFechaVencimiento h.ahora valor, mensajes "fechaVencimiento")
  else if tipoValidacion = "cvv" then
    (RegExp.test patronCvv valor, mensajes "cvv")
  else if tipoValidacion = "fechaFutura" then
    (validarFechaFutura h valor, mensajes "fechaFutura")
  else if tipoValidacion = "fechaPasada" then
    (validarFechaPasada h valor, mensajes "fechaPasada")
  else if tipoValidacion = "latitud" then
    (validarLatitud h valor, mensajes "latitud")
  else if tipoValidacion = "longitud" then
    (validarLongitud h valor, mensajes "longitud")
  else if tipoValidacion = "password" then
    (decide (jsLength valor ≥ 6), mensajes "passwordCorta")
  else if tipoValidacion = "confirmPassword" then
    match opciones.passwordField with
    | some passwordField =>
      let passwordValue := passwordField.value
      (decide (valor = passwordValue) && decide (jsLength valor ≥ 6),
        if valor ≠ passwordValue then "Las contraseñas no coinciden" else mensajes "passwordCorta")
    | none => (decide (jsLength valor ≥ 6), mensajes "passwordCorta")
  else (true, "")

/-- The method `validarCampo`: the returned boolean and the field as it is left. -/
def validarCampo (h : Host) (campo : Campo) (tipoValidacion : String) (opciones : Opciones) :
    Bool × Campo :=
  let valor := trim campo.value
  let esRequerido := campo.required || opciones.requerido
  let campo := limpiarValidacion campo
  if esRequerido && valor.isEmpty then
    (false, mostrarError campo (mensajes "requerido"))
  else if valor.isEmpty && !esRequerido then
    (true, campo)
  else
    let regla := reglaPorTipo h tipoValidacion opciones valor
    if regla.1 then (true, mostrarExito campo)
    else (false, mostrarError campo regla.2)

/-! ### Whole forms -/

/-- One entry of a form configuration: the key (name or id of the field), the rule type
`config.tipo`, and `config.opciones` when the entry has it. -/
structure ConfigCampo where
  nombre : String
  tipo : String
  opciones : Option Opciones
  deriving DecidableEq, Repr

/-- The fields of a form, each under the name (or id) by which the configuration finds it. -/
abbrev Formulario := List (String × Campo)

/-- The lookup `formulario.querySelector('[name="…"], #…')`: the first such field, if any. -/
def buscarCampo (nombre : String) (formulario : Formulario) : Option Campo :=
  (formulario.find? (fun kv => kv.1 == nombre)).map (fun kv => kv.2)

/-- The field found by `buscarCampo`, replaced by its state after validation. -/
def ponerCampo (nombre : String) (campo : Campo) : Formulario → Formulario
  | [] => []
  | kv :: resto =>
    if kv.1 == nombre then (kv.1, campo) :: resto
    else kv :: ponerCampo nombre campo resto

/-- The expression `config.opciones || {}`. -/
def opcionesDe (config : ConfigCampo) : Opciones :=
  match config.opciones with
  | some o => o
  | none => ⟨false, none⟩

/-- Body of the `forEach` over `Object.keys(configuracion)`, the same in
`validarFormularioCompleto` and in the submit handler: the flag `formularioValido` and
the form, before and after one key. -/
def pasoFormulario (h : Host) (estado : Bool × Formulario) (config : ConfigCampo) :
    Bool × Formulario :=
  match buscarCampo config.nombre estado.2 with
  | none => estado
  | some campo =>
    let r := validarCampo h campo config.tipo (opcionesDe config)
    (if !r.1 then false else estado.1, ponerCampo config.nombre r.2 estado.2)

/-- The method `validarFormularioCompleto`: the returned boolean and the form as it is left. -/
def validarFormularioCompleto (h : Host) (formulario : Formulario)
    (configuracion : List ConfigCampo) : Bool × Formulario :=
  configuracion.foldl (pasoFormulario h) (true, formulario)

/-- What the submit handler leaves: whether `preventDefault` was called, the form, the
banner shown at the top of the form, and the field that received the focus. -/
structure ResultadoSubmit where
  defaultPrevented : Bool
  formulario : Formulario
  mensajeFormulario : Option String
  foco : Option String
  deriving DecidableEq, Repr

/-- The submit handler that `configurarFormulario` installs. -/
def submitHandler (h : Host) (formulario : Formulario) (configuracion : List ConfigCampo) :
    ResultadoSubmit :=
  let r := configuracion.foldl (pasoFormulario h) (true, formulario)
  if !r.1 then
    { defaultPrevented := true
      formulario := r.2
      mensajeFormulario := some "Por favor, corrige los errores antes de continuar."
      foco := (r.2.find? (fun kv => kv.2.classList.contains "campo-error")).map (fun kv => kv.1) }
  else
    { defaultPrevented := false, formulario := r.2, mensajeFormulario := none, foco := none }

/-! ### Formatting while typing -/

/-- The matches of `/.{1,4}/g` on a string without line terminators: the quantifier is
greedy, so each match takes four characters while four remain and the last one takes the
rest. -/
def trozosDeCuatro : JSString → List JSString
  | a :: b :: c :: d :: resto => [a, b, c, d] :: trozosDeCuatro resto
  | [] => []
  | s => [s]

/-- The method `Array.prototype.join` with the separator `' '`. -/
def joinEspacio : List JSString → JSString
  | [] => []
  | [s] => s
  | s :: t :: resto => s ++ ' ' :: joinEspacio (t :: resto)

/-- The call `valor.match(/.{1,4}/g)`: `null` when nothing matches, which is the case of
the empty string alone. -/
def matchTrozos (valor : JSString) : Option (List JSString) :=
  if valor.isEmpty then none else some (trozosDeCuatro valor)

/-- The method `formatearTarjeta`. -/
def formatearTarjeta (campo : Campo) : Campo :=
  let valor := (campo.value.filter (fun c => !esEspacio c)).filter (fun c => esDigito c)
  let valorFormateado :=
    match (matchTrozos valor).map joinEspacio with
    | some unido => if unido.isEmpty then valor else unido
    | none => valor
  if valorFormateado != campo.value then { campo with value := valorFormateado } else campo

/-! ## tienda.js: the cart -/

/-- A catalog product, as `/api/productos` delivers it. The description may be missing
(`null` or no such property), as `renderProducts` provides for with
`product.description || product.descripcion || ''`. The name is a string on every product of
the model; the search handler reads both fields without such a guard. -/
structure Product where
  id : Int
  name : String
  price : ℚ
  image_url : String
  stock : Int
  description : Option String
  deriving DecidableEq, Repr

/-- A line of the cart. -/
structure CartItem where
  id : Int
  name : String
  price : ℚ
  image_url : String
  quantity : Int
  deriving DecidableEq, Repr

/-- The logged-in user object. -/
structure Usuario where
  id : Int
  nombre : String
  email : String
  deriving DecidableEq, Repr

/-- A value of the browser storage: a plain string, or the JSON text of a cart, kept as
the cart it encodes (`JSON.stringify` and `JSON.parse` are inverse on carts). -/
inductive Valor where
  | texto (s : String) : Valor
  | carritoJSON (items : List CartItem) : Valor
  deriving DecidableEq, Repr

/-- A storage area (`localStorage` or `sessionStorage`): keys with their values. -/
abbrev Storage := List (String × Valor)

/-- The method `Storage.getItem`. -/
def getItem (clave : String) (st : Storage) : Option Valor :=
  (st.find? (fun kv => kv.1 == clave)).map (fun kv => kv.2)

/-- The method `Storage.setItem`. -/
def setItem (clave : String) (v : Valor) (st : Storage) : Storage :=
  (clave, v) :: st.filter (fun kv => kv.1 != clave)

/-- A child of the element `.productos-grid`: a block of plain markup, or the card of a
product, which carries the index of the product within its page (its animation delay). -/
inductive NodoGrid where
  | html (marcado : String) : NodoGrid
  | tarjeta (product : Product) (index : Nat) : NodoGrid
  deriving DecidableEq, Repr

/-- The property `direccion` of the order that the checkout form sends. -/
structure Direccion where
  id_calle : JSString
  nombre_destinatario : JSString
  telefono_contacto : JSString
  deriving DecidableEq, Repr

/-- The property `pago` of the order that the checkout form sends. -/
structure Pago where
  numero_tarjeta : JSString
  fecha_expiracion : JSString
  cvv : JSString
  nombre_tarjeta : JSString
  tipo_tarjeta : JSString
  deriving DecidableEq, Repr

/-- The object `formData` of `handleCheckoutSubmit`, the body of the order request. -/
structure FormData where
  user_id : Int
  productos : List CartItem
  direccion : Direccion
  pago : Pago
  deriving DecidableEq, Repr

/-- State of the shop page: the module variables of `tienda.js`, the storage areas, and
what the page has shown and requested so far. `menuSesion` tells whether the user menu shows
the options of a logged-in user, `urlLogout` whether the address carries `logout=true`, and
`eventos` lists the custom events dispatched on the window. `productGrid` holds the children
of the product grid, `botonMostrarMas` the text of the load-more button while it is
displayed, `alertas` the messages of `alert`, and `pedidos` the bodies of the requests sent to
`/api/pedidos/crear`. -/
structure Tienda where
  productos : List Product
  carrito : List CartItem
  currentUser : Option Usuario
  localStorage : Storage
  sessionStorage : Storage
  notificaciones : List String
  peticiones : List String
  modalesAbiertos : List String
  contadorCarrito : Int
  flotanteVisible : Bool
  cartTotal : Numero
  currentPaymentAmount : Option Numero
  temporizadores : List (Nat × String)
  menuSesion : Bool := false
  urlLogout : Bool := false
  eventos : List String := []
  filteredProducts : List Product := []
  currentPage : Int := 1
  productGrid : List NodoGrid := []
  botonMostrarMas : Option String := none
  alertas : List String := []
  pedidos : List FormData := []
  deriving DecidableEq, Repr

/-- The function `showNotification`: one more notice on the page. -/
def showNotification (message : String) (s : Tienda) : Tienda :=
  { s with notificaciones := s.notificaciones ++ [message] }

/-- The function `openModal`. -/
def openModal (modalId : String) (s : Tienda) : Tienda :=
  { s with modalesAbiertos := if s.modalesAbiertos.contains modalId then s.modalesAbiertos
                              else s.modalesAbiertos ++ [modalId] }

/-- The function `closeModal`. -/
def closeModal (modalId : String) (s : Tienda) : Tienda :=
  { s with modalesAbiertos := s.modalesAbiertos.filter (fun m => m != modalId) }

/-- The function `closeQuickView`. -/
def closeQuickView (s : Tienda) : Tienda :=
  { s with modalesAbiertos := s.modalesAbiertos.filter (fun m => m != "modal-overlay") }

/-- The function `updateCartCounter` (the later of the two declarations, which is the one
in force): the counter text and the visibility of the floating cart. -/
def updateCartCounter (s : Tienda) : Tienda :=
  let totalItems := s.carrito.foldl (fun sum item => sum + item.quantity) 0
  { s with contadorCarrito := totalItems, flotanteVisible := decide (totalItems > 0) }

/-- The function `updateCartModal`: the total shown in the cart modal, which is the number
that `toFixed(2)` then writes. The products of the lines are added from left to right. -/
def updateCartModal (s : Tienda) : Tienda :=
  if s.carrito.length = 0 then { s with cartTotal := Numero.finito 0 }
  else
    let total := s.carrito.foldl (fun total item =>
      let subtotal := (redondear item.price).mul (redondear item.quantity)
      total.add subtotal) (Numero.finito 0)
    { s with cartTotal := total }

/-- The function `updateCartUI`. -/
def updateCartUI (s : Tienda) : Tienda :=
  let s := { s with localStorage := setItem "carrito" (Valor.carritoJSON s.carrito) s.localStorage }
  updateCartModal (updateCartCounter s)

/-- The statement `existingItem.quantity += quantity` on the line that `find` returns:
the first line with the given id. -/
def sumarCantidad (productId : Int) (quantity : Int) : List CartItem → List CartItem
  | [] => []
  | item :: resto =>
    if item.id = productId then { item with quantity := item.quantity + quantity } :: resto
    else item :: sumarCantidad productId quantity resto

/-- The statement `item.quantity = quantity` on the line that `find` returns. -/
def fijarCantidad (productId : Int) (quantity : Int) : List CartItem → List CartItem
  | [] => []
  | item :: resto =>
    if item.id = productId then { item with quantity := quantity } :: resto
    else item :: fijarCantidad productId quantity resto

/-- The function `addToCart`. -/
def addToCart (productId : Int) (quantity : Int) (s : Tienda) : Tienda :=
  match s.productos.find? (fun p => p.id == productId) with
  | none => s
  | some product =>
    let carrito :=
      match s.carrito.find? (fun item => item.id == productId) with
      | some _ => sumarCantidad productId quantity s.carrito
      | none => s.carrito ++ [⟨product.id, product.name, product.price, product.image_url, quantity⟩]
    showNotification "Producto agregado al carrito" (updateCartUI { s with carrito := carrito })

/-- The function `removeFromCart`. -/
def removeFromCart (productId : Int) (s : Tienda) : Tienda :=
  let s := { s with carrito := s.carrito.filter (fun item => item.id != productId) }
  showNotification "Producto eliminado del carrito" (updateCartUI s)

/-- The function `updateCartQuantity`. -/
def updateCartQuantity (productId : Int) (quantity : Int) (s : Tienda) : Tienda :=
  match s.carrito.find? (fun item => item.id == productId) with
  | some _ =>
    if quantity ≤ 0 then removeFromCart productId s
    else updateCartUI { s with carrito := fijarCantidad productId quantity s.carrito }
  | none => s

/-- The function `clearCart`. -/
def clearCart (s : Tienda) : Tienda :=
  showNotification "Carrito vaciado" (updateCartUI { s with carrito := [] })

/-- The function `addToCartFromModal`; `entrada` is `parseInt(quantityInput.value)` when the
input holds an integer. -/
def addToCartFromModal (productId : Int) (entrada : Int) (s : Tienda) : Tienda :=
  let quantity := entrada
  let s := addToCart productId quantity s
  let s := closeQuickView s
  showNotification
    (if quantity = 1 then "Producto agregado al carrito (1 unidad)"
     else "Producto agregado al carrito (" ++ toString quantity ++ " unidades)") s

/-- The operand `x || 0` on a number: zero stands in for a falsy number. -/
def oCero {α : Type} [Zero α] [DecidableEq α] (x : α) : α :=
  if x = 0 then 0 else x

/-- The function `getTotalCart`. The field `price` of a line holds a number, on which
`parseFloat` returns the number itself, and the field `quantity` an integer number; each
call is followed by its `|| 0`, and the products are added from left to right. -/
def getTotalCart (carrito : List CartItem) : Numero :=
  carrito.foldl (fun total item =>
    let precio := (redondear item.price).oCero
    let cantidad := (parseIntEntero item.quantity).oCero
    total.add (precio.mul cantidad)) (Numero.finito 0)

/-- The function `updatePaymentAmounts`: the amount kept in `window.currentPaymentAmount`. -/
def updatePaymentAmounts (amount : Numero) (s : Tienda) : Tienda :=
  { s with currentPaymentAmount := some amount }

/-- The function `loadCheckoutData`, up to its first `await`: the request for the states. -/
def loadCheckoutData (s : Tienda) : Tienda :=
  { s with peticiones := s.peticiones ++ ["/api/direcciones/estados"] }

/-- The function `proceedToCheckout`. -/
def proceedToCheckout (s : Tienda) : Tienda :=
  match s.currentUser with
  | none =>
    let s := closeModal "cart-modal" s
    let s := { s with sessionStorage := setItem "pendingCheckout" (Valor.texto "true") s.sessionStorage }
    let s := showNotification "Debes iniciar sesión para realizar una compra" s
    openModal "login-modal" s
  | some _ =>
    if s.carrito.length = 0 then showNotification "Tu carrito está vacío" s
    else
      let s := loadCheckoutData s
      let cartTotal := getTotalCart s.carrito
      let s := updatePaymentAmounts cartTotal s
      let s := closeModal "cart-modal" s
      let s := openModal "payment-modal" s
      { s with temporizadores := s.temporizadores ++ [(100, "initializeShippingInPaymentModal")] }

/-! ## tienda.js: the product list

The grid `.productos-grid` and the button `load-more-btn` are taken to be on the page. -/

/-- The variable `productsPerPage`, which is never reassigned. -/
def productsPerPage : Int := 6

/-- The method `Array.prototype.slice(start, end)`: a negative index counts from the end. -/
def slice {α : Type} (l : List α) (start fin : Int) : List α :=
  let len : Int := l.length
  let k := if start < 0 then max (len + start) 0 else min start len
  let f := if fin < 0 then max (len + fin) 0 else min fin len
  (l.drop k.toNat).take (f - k).toNat

/-- The empty-state block that `renderProducts` writes into the grid. -/
def marcadoSinProductos : String :=
  "<div class=\"col-12 text-center\"><p>No se encontraron productos.</p></div>"

/-- The constant `totalPages` of `updateShowMoreButton`: `Math.ceil` of the quotient of the
number of filtered products by `productsPerPage`. -/
def totalPages (s : Tienda) : Int :=
  ((s.filteredProducts.length : Int) + productsPerPage - 1) / productsPerPage

/-- The function `updateShowMoreButton` (the later of the two declarations). -/
def updateShowMoreButton (s : Tienda) : Tienda :=
  let hasMoreProducts := decide (s.currentPage < totalPages s)
  if hasMoreProducts then
    { s with botonMostrarMas := some ("Mostrar más productos (" ++
        toString ((s.filteredProducts.length : Int) - s.currentPage * productsPerPage) ++
        " restantes)") }
  else { s with botonMostrarMas := none }

/-- The constant `productsToShow` of `renderProducts`: the products of the current page. -/
def productsToShow (s : Tienda) : List Product :=
  let startIndex := (s.currentPage - 1) * productsPerPage
  let endIndex := startIndex + productsPerPage
  slice s.filteredProducts startIndex endIndex

/-- The function `renderProducts`. -/
def renderProducts (s : Tienda) : Tienda :=
  if s.filteredProducts.length = 0 then
    updateShowMoreButton { s with productGrid := [NodoGrid.html marcadoSinProductos] }
  else
    let grid := if s.currentPage = 1 then [] else s.productGrid
    let tarjetas := (productsToShow s).enum.map (fun ip => NodoGrid.tarjeta ip.2 ip.1)
    updateShowMoreButton { s with productGrid := grid ++ tarjetas }

/-- The string `s` starts with the string `t`. -/
def empiezaCon : List Char → List Char → Bool
  | _, [] => true
  | [], _ :: _ => false
  | c :: cs, d :: ds => c == d && empiezaCon cs ds

/-- The string `t` occurs in the string `s`, both as lists of characters. -/
def incluye : List Char → List Char → Bool
  | [], t => t.isEmpty
  | c :: cs, t => empiezaCon (c :: cs) t || incluye cs t

/-- The method `String.prototype.includes`. -/
def includes (s t : String) : Bool :=
  incluye s.data t.data

/-- The callback of `productos.filter` in the search handler: whether the product matches
the term, or nothing when the callback throws. The right operand of `||` is evaluated when
the name does not match, and `product.description.toLowerCase()` then throws a `TypeError`
on a description that is missing. -/
def coincideConBusqueda (toLowerCase : String → String) (searchTerm : String)
    (product : Product) : Option Bool :=
  if includes (toLowerCase product.name) searchTerm then some true
  else
    match product.description with
    | some description => some (includes (toLowerCase description) searchTerm)
    | none => none

/-- The method `Array.prototype.filter` with a callback that may throw: the elements kept,
or nothing when the callback throws on one of the elements. -/
def filtrarSiPuede {α : Type} (f : α → Option Bool) : List α → Option (List α)
  | [] => some []
  | a :: resto =>
    match f a with
    | none => none
    | some b =>
      match filtrarSiPuede f resto with
      | none => none
      | some l => some (if b then a :: l else l)

/-- The listener of `input` on the search box; `valor` is `e.target.value`, and
`toLowerCase` the host method `String.prototype.toLowerCase`. An exception thrown by the
callback of the filter leaves the listener before any assignment, so that the page stays as
it is. -/
def alBuscar (toLowerCase : String → String) (valor : String) (s : Tienda) : Tienda :=
  let searchTerm := toLowerCase valor
  let filtrados :=
    if searchTerm = "" then some s.productos
    else filtrarSiPuede (coincideConBusqueda toLowerCase searchTerm) s.productos
  match filtrados with
  | none => s
  | some filteredProducts =>
    let s := { s with filteredProducts := filteredProducts, currentPage := 1 }
    updateShowMoreButton (renderProducts s)

/-- The listener of `click` on the load-more button. -/
def alMostrarMas (s : Tienda) : Tienda :=
  updateShowMoreButton (renderProducts { s with currentPage := s.currentPage + 1 })

/-! ## tienda.js: the checkout form -/

/-- The function `showError`: the message goes to `alert`. -/
def showError (message : String) (s : Tienda) : Tienda :=
  { s with alertas := s.alertas ++ [message] }

/-- The values of the inputs of the checkout form that `handleCheckoutSubmit` reads. -/
structure FormularioCheckout where
  shippingCalle : JSString
  shippingName : JSString
  shippingPhone : JSString
  cardNumber : JSString
  cardExpiry : JSString
  cardCvv : JSString
  cardName : JSString
  cardType : JSString
  deriving DecidableEq, Repr

/-- The function `validateCheckoutForm`: the returned boolean and the page after the
message, if any. The literal `expiryRegex` is the pattern `patrones.fechaVencimiento`. -/
def validateCheckoutForm (formData : FormData) (s : Tienda) : Bool × Tienda :=
  if formData.direccion.id_calle.isEmpty || formData.direccion.nombre_destinatario.isEmpty ||
      formData.direccion.telefono_contacto.isEmpty then
    (false, showError "Por favor completa toda la información de envío" s)
  else if formData.pago.numero_tarjeta.isEmpty || formData.pago.fecha_expiracion.isEmpty ||
      formData.pago.cvv.isEmpty || formData.pago.nombre_tarjeta.isEmpty ||
      formData.pago.tipo_tarjeta.isEmpty then
    (false, showError "Por favor completa toda la información de pago" s)
  else if jsLength formData.pago.numero_tarjeta < 13 ∨ jsLength formData.pago.numero_tarjeta > 19 then
    (false, showError "Número de tarjeta inválido" s)
  else if jsLength formData.pago.cvv < 3 ∨ jsLength formData.pago.cvv > 4 then
    (false, showError "CVV inválido" s)
  else if !(RegExp.test patronFechaVencimiento formData.pago.fecha_expiracion) then
    (false, showError "Fecha de expiración inválida (formato: MM/YY)" s)
  else (true, s)

/-- What becomes of the request to `/api/pedidos/crear`: it fails or its body is no JSON, or
it delivers a result with `success`, `pedido_id` (as the text that the notice shows) and
`error`. -/
inductive RespuestaPedido where
  | falla : RespuestaPedido
  | resultado (success : Bool) (pedido_id : String) (error : Option String) : RespuestaPedido
  deriving DecidableEq, Repr

/-- The function `handleCheckoutSubmit`, with the answer of the server to the request it
may send. The label and the `disabled` flag of the submit button, which the `finally` block
restores, are left out. -/
def handleCheckoutSubmit (form : FormularioCheckout) (respuesta : RespuestaPedido)
    (s : Tienda) : Tienda :=
  match s.currentUser with
  | none => showNotification "Debes iniciar sesión para completar la compra" s
  | some currentUser =>
    let formData : FormData :=
      { user_id := currentUser.id
        productos := s.carrito
        direccion := ⟨form.shippingCalle, form.shippingName, form.shippingPhone⟩
        pago := ⟨form.cardNumber.filter (fun c => !esEspacio c), form.cardExpiry, form.cardCvv,
                 form.cardName, form.cardType⟩ }
    let v := validateCheckoutForm formData s
    if !v.1 then v.2
    else
      let s := { v.2 with peticiones := v.2.peticiones ++ ["/api/pedidos/crear"]
                          pedidos := v.2.pedidos ++ [formData] }
      match respuesta with
      | RespuestaPedido.resultado true pedido_id _ =>
        showNotification ("¡Pedido creado exitosamente! ID: " ++ pedido_id)
          (closeModal "checkout-modal" (clearCart s))
      | RespuestaPedido.resultado false _ error =>
        showError (match error with
          | some e => if e = "" then "Error al procesar el pedido" else e
          | none => "Error al procesar el pedido") s
      | RespuestaPedido.falla => showError "Error de conexión al procesar el pedido" s

/-! ## tienda.js: the session -/

/-- The method `Storage.removeItem`. -/
def removeItem (clave : String) (st : Storage) : Storage :=
  st.filter (fun kv => kv.1 != clave)

/-- The comparison `localStorage.getItem(clave) === texto`. -/
def itemEs (clave : String) (texto : String) (st : Storage) : Bool :=
  getItem clave st == some (Valor.texto texto)

/-- Truthiness of a value read from the storage: a string that is not empty. -/
def esVerdadero : Option Valor → Bool
  | none => false
  | some (Valor.texto s) => s != ""
  | some (Valor.carritoJSON _) => true

/-- Value of a character as a digit in the given radix (10 or 16), if it is one. -/
def valorEnBase (radix : Nat) (c : Char) : Option Nat :=
  let n := c.toNat
  if 48 ≤ n ∧ n ≤ 57 then some (n - 48)
  else if radix = 16 ∧ 97 ≤ n ∧ n ≤ 102 then some (n - 87)
  else if radix = 16 ∧ 65 ≤ n ∧ n ≤ 70 then some (n - 55)
  else none

/-- The function `parseInt(string)` without a radix: leading white space, an optional sign,
an optional `0x`, then the longest run of digits; nothing stands for `NaN`. -/
def parseIntJS (s : JSString) : Option Int :=
  let s := s.dropWhile esEspacio
  let signo : Int × JSString :=
    match s with
    | '-' :: r => (-1, r)
    | '+' :: r => (1, r)
    | _ => (1, s)
  let base : Nat × JSString :=
    match signo.2 with
    | '0' :: 'x' :: r => (16, r)
    | '0' :: 'X' :: r => (16, r)
    | _ => (10, signo.2)
  let digitos := base.2.takeWhile (fun c => (valorEnBase base.1 c).isSome)
  if digitos.isEmpty then none
  else some (signo.1 * (digitos.foldl (fun n c => base.1 * n + (valorEnBase base.1 c).getD 0) 0 : Nat))

/-- The expression `parseInt(v)` on a value read from the storage. -/
def parseIntValor : Valor → Option Int
  | Valor.texto s => parseIntJS s.toList
  | Valor.carritoJSON _ => none

/-- The call `localStorage.setItem(clave, texto)` on the shop page. -/
def localSet (clave : String) (texto : String) (s : Tienda) : Tienda :=
  { s with localStorage := setItem clave (Valor.texto texto) s.localStorage }

/-- The call `localStorage.removeItem(clave)` on the shop page. -/
def localRemove (clave : String) (s : Tienda) : Tienda :=
  { s with localStorage := removeItem clave s.localStorage }

/-- The four `removeItem` calls that drop the session data of both storage areas. -/
def limpiarDatosSesion (s : Tienda) : Tienda :=
  { s with
    localStorage := removeItem "carrito-sway" (removeItem "usuario-sway" s.localStorage)
    sessionStorage := removeItem "carrito-sway" (removeItem "usuario-sway" s.sessionStorage) }

/-- The function `updateUserDropdown`. -/
def updateUserDropdown (isLoggedIn : Bool) (s : Tienda) : Tienda :=
  { s with menuSesion := isLoggedIn && s.currentUser.isSome }

/-- The pair of statements `currentUser = null; updateUserDropdown(false);`. -/
def sesionAnonima (s : Tienda) : Tienda :=
  updateUserDropdown false { s with currentUser := none }

/-- What the request to `/api/user/status` ends in: the request or the parsing of the body
fails, the response is not `ok` (with its status), or the body is read. -/
inductive RespuestaEstado where
  | error : RespuestaEstado
  | http (status : Nat) : RespuestaEstado
  | datos (success : Bool) (user : Option Usuario) : RespuestaEstado
  deriving DecidableEq, Repr

/-- The function `checkUserStatus` from the request on: the request is issued and its
outcome handled. -/
def consultarEstado (respuesta : RespuestaEstado) (s : Tienda) : Tienda :=
  let s := { s with peticiones := s.peticiones ++ ["/api/user/status"] }
  match respuesta with
  | RespuestaEstado.error => sesionAnonima s
  | RespuestaEstado.http _ => sesionAnonima s
  | RespuestaEstado.datos success user =>
    if itemEs "manual-logout" "true" s.localStorage then sesionAnonima s
    else
      match success, user with
      | true, some u => updateUserDropdown true { s with currentUser := some u }
      | _, _ => sesionAnonima s

/-- The function `checkUserStatus` after the two tests of the storage: the test of the
address, then the request. -/
def verificarUrlYServidor (ahora : Int) (respuesta : RespuestaEstado) (s : Tienda) : Tienda :=
  if s.urlLogout then
    let s := limpiarDatosSesion s
    let s := localSet "manual-logout" "true" s
    let s := localSet "manual-logout-time" (toString ahora) s
    let s := { s with urlLogout := false }
    showNotification "Sesión cerrada exitosamente" (sesionAnonima s)
  else consultarEstado respuesta s

/-- The function `checkUserStatus`; `ahora` is the value of `Date.now()` and `respuesta` what
the status request ends in, if the run comes to issue it. -/
def checkUserStatus (ahora : Int) (respuesta : RespuestaEstado) (s : Tienda) : Tienda :=
  if esVerdadero (getItem "logout-flag" s.localStorage) then
    let s := localRemove "logout-flag" s
    let s := limpiarDatosSesion s
    showNotification "Sesión cerrada exitosamente" (sesionAnonima s)
  else if itemEs "manual-logout" "true" s.localStorage then
    match getItem "manual-logout-time" s.localStorage with
    | some logoutTime =>
      if esVerdadero (some logoutTime) then
        let vencido : Bool :=
          match parseIntValor logoutTime with
          | some t => decide (ahora - t > 30 * 60 * 1000)
          | none => false
        if vencido then
          verificarUrlYServidor ahora respuesta
            (localRemove "manual-logout-time" (localRemove "manual-logout" s))
        else sesionAnonima s
      else
        verificarUrlYServidor ahora respuesta (localRemove "manual-logout" s)
    | none => verificarUrlYServidor ahora respuesta (localRemove "manual-logout" s)
  else verificarUrlYServidor ahora respuesta s

/-- The listener of the custom event `sway-logout` of `tienda.js`. -/
def alEventoLogout (s : Tienda) : Tienda :=
  showNotification "Sesión cerrada en otra pestaña" (sesionAnonima s)

/-- The call `window.dispatchEvent(new CustomEvent('sway-logout', …))`: the event is
recorded and the listener of the page runs. -/
def dispatchLogout (s : Tienda) : Tienda :=
  alEventoLogout { s with eventos := s.eventos ++ ["sway-logout"] }

/-- The function `logout` of `tienda.js`; `falla` tells whether the request to
`/api/logout` fails, which leads to the `catch` branch. Clearing of cookies is not modelled. -/
def logout (ahora : Int) (falla : Bool) (s : Tienda) : Tienda :=
  let s := { s with peticiones := s.peticiones ++ ["/api/logout"] }
  if falla then
    let s := limpiarDatosSesion { s with currentUser := none }
    let s := localSet "manual-logout" "true" s
    let s := localSet "logout-flag" (toString ahora) s
    let s := dispatchLogout s
    showNotification "Sesión cerrada correctamente" (updateUserDropdown false s)
  else
    let s := limpiarDatosSesion { s with currentUser := none }
    let s := localSet "manual-logout" "true" s
    let s := localSet "manual-logout-time" (toString ahora) s
    let s := localSet "logout-flag" (toString ahora) s
    let s := dispatchLogout s
    showNotification "Sesión cerrada correctamente" (updateUserDropdown false s)

/-- The function `setManualLogout`. -/
def setManualLogout (ahora : Int) (s : Tienda) : Tienda :=
  localSet "logout-flag" (toString ahora) (localSet "manual-logout" "true" s)

/-- The callback of `setInterval` and the listeners of `focus` and `popstate`, which are the
same: the status is checked unless the manual-logout marker is set. -/
def reverificar (ahora : Int) (respuesta : RespuestaEstado) (s : Tienda) : Tienda :=
  if !(itemEs "manual-logout" "true" s.localStorage) then checkUserStatus ahora respuesta s
  else s

/-- The listener of `storage` events of `tienda.js`; `key` and `newValue` are the fields of
the event. -/
def alCambioDeStorage (key : String) (newValue : Option String) (ahora : Int)
    (respuesta : RespuestaEstado) (s : Tienda) : Tienda :=
  let s := if key = "logout-flag" then checkUserStatus ahora respuesta s else s
  if key = "manual-logout" ∧ newValue = some "true" then sesionAnonima s else s

/-! ## mis-pedidos.js: reordering -/

/-- A product of an order, as `/api/pedidos/reordenar` delivers it. -/
structure ProductoPedido where
  id : Int
  nombre : String
  precio : ℚ
  imagen_url : String
  cantidad : Int
  deriving DecidableEq, Repr

/-- One round of the `forEach` of `agregarProductosAlCarrito`. -/
def agregarUno (carrito : List CartItem) (producto : ProductoPedido) : List CartItem :=
  match carrito.find? (fun item => item.id == producto.id) with
  | some _ => sumarCantidad producto.id producto.cantidad carrito
  | none => carrito ++ [⟨producto.id, producto.nombre, producto.precio, producto.imagen_url, producto.cantidad⟩]

/-- The expression `JSON.parse(localStorage.getItem('carrito')) || []`; a stored string
that is not the JSON text of a cart is outside the model (no result). -/
def leerCarrito (st : Storage) : Option (List CartItem) :=
  match getItem "carrito" st with
  | none => some []
  | some (Valor.carritoJSON items) => some items
  | some (Valor.texto _) => none

/-- The method `agregarProductosAlCarrito`, on the local storage. -/
def agregarProductosAlCarrito (productos : List ProductoPedido) (st : Storage) : Storage :=
  match leerCarrito st with
  | none => st
  | some carrito => setItem "carrito" (Valor.carritoJSON (productos.foldl agregarUno carrito)) st

/-! ## mis-pedidos.js: the session -/

/-- State of the orders page: the property `usuario` of the object `window.misPedidos`, the
storage areas, and what the page has shown, requested and scheduled. -/
structure MisPedidos where
  usuario : Option Usuario := none
  menuSesion : Bool := false
  localStorage : Storage := []
  sessionStorage : Storage := []
  notificaciones : List String := []
  peticiones : List String := []
  eventos : List String := []
  temporizadores : List (Nat × String) := []
  deriving DecidableEq, Repr

/-- The call `localStorage.setItem(clave, texto)` on the orders page. -/
def MisPedidos.localSet (clave : String) (texto : String) (p : MisPedidos) : MisPedidos :=
  { p with localStorage := setItem clave (Valor.texto texto) p.localStorage }

/-- The method `updateUserDropdown` of `MisPedidos`. -/
def MisPedidos.updateUserDropdown (isLoggedIn : Bool) (p : MisPedidos) : MisPedidos :=
  { p with menuSesion := isLoggedIn && p.usuario.isSome }

/-- The listener of the custom event `sway-logout` of `mis-pedidos.js`, with
`window.misPedidos` set. -/
def MisPedidos.alEventoLogout (p : MisPedidos) : MisPedidos :=
  let p := MisPedidos.updateUserDropdown false { p with usuario := none }
  let p := { p with notificaciones := p.notificaciones ++ ["Sesión cerrada en otra pestaña"] }
  { p with temporizadores := p.temporizadores ++ [(2000, "/tienda")] }

/-- The method `logout` of `MisPedidos`; `falla` tells whether the request to `/api/logout`
fails, which leads to the `catch` branch. -/
def MisPedidos.logout (ahora : Int) (falla : Bool) (p : MisPedidos) : MisPedidos :=
  let p := { p with peticiones := p.peticiones ++ ["/api/logout"] }
  let p := { p with
    localStorage := removeItem "carrito-sway" (removeItem "usuario-sway" p.localStorage)
    sessionStorage := removeItem "carrito-sway" (removeItem "usuario-sway" p.sessionStorage) }
  let p := MisPedidos.localSet "manual-logout" "true" p
  let p := MisPedidos.localSet "logout-flag" (toString ahora) p
  let p := MisPedidos.alEventoLogout { p with eventos := p.eventos ++ ["sway-logout"] }
  let p := { p with notificaciones := p.notificaciones ++
    [if falla then "Sesión cerrada" else "Sesión cerrada exitosamente"] }
  { p with temporizadores := p.temporizadores ++ [(1000, "/tienda")] }

/-- The listener of `storage` events of `mis-pedidos.js`; the page is absent while
`window.misPedidos` is not set. -/
def MisPedidos.alCambioDeStorage (key : String) (newValue : Option String)
    (pagina : Option MisPedidos) : Option MisPedidos :=
  if key = "manual-logout" ∧ newValue = some "true" then
    match pagina with
    | some p => some (MisPedidos.updateUserDropdown false { p with usuario := none })
    | none => none
  else pagina

/-! ## especies.js: filters and pages -/

/-- The object `activeFilters`; a property that is missing reads as `undefined`. -/
structure ActiveFilters where
  search : Option JSString := none
  habitat : Option JSString := none
  conservation : Option JSString := none
  sort : Option JSString := none
  deriving DecidableEq, Repr

/-- The query of a request to `/api/especies`: the parameters that were appended. -/
structure ConsultaEspecies where
  search : Option JSString
  habitat : Option JSString
  conservation : Option JSString
  sort : Option JSString
  page : Int
  limit : Int
  deriving DecidableEq, Repr

/-- A species as `/api/especies` delivers it: the fields that the loader, the map and the
filters read. -/
structure Especie where
  id : Int
  nombre : JSString
  nombre_cientifico : JSString
  estado_conservacion : JSString
  habitat : JSString
  ubicacion : Option String
  imagen : Option String
  deriving DecidableEq, Repr

/-- A species on the map, as `convertEspeciesToMapData` builds it. -/
structure MapSpecies where
  id : String
  species_id : Int
  nombre : JSString
  nombre_cientifico : JSString
  estado_conservacion : JSString
  x : Int
  y : Int
  ubicacion : String
  imagen : String
  deriving DecidableEq, Repr

/-- State of the species page, with the initial values of the module variables: the
pagination, the loading flag, the filters last applied, the values of the search box and of
the three selects, and the requests to `/api/especies` issued so far. Then the catalog
(`especiesData`, `filteredEspecies`), the message of `showErrorMessage`, the text of the
species counter and the number of requests for the statistics; the storage, the view buttons
by their `data-vista` and those among them that are active, the display and the classes of
the grid, the display of the map section, the resize events dispatched; and the map: the
flag `window.mapInitialized`, the loading layer, the timers set, `mapSpeciesData`,
`visibleConservationStates`, the markers drawn, the two statistics and the counts of the
legend. -/
structure Especies where
  currentPage : Int := 1
  totalPages : Int := 0
  isLoading : Bool := false
  activeFilters : ActiveFilters := {}
  searchInput : JSString := []
  habitatSelect : JSString := []
  conservationSelect : JSString := []
  sortSelect : JSString := []
  peticiones : List ConsultaEspecies := []
  especiesData : List Especie := []
  filteredEspecies : List Especie := []
  mensajeError : Option String := none
  contador : Option Int := none
  estadisticasPedidas : Nat := 0
  localStorage : Storage := []
  botonesVista : List String := ["grid", "list", "mapa"]
  botonesActivos : List String := []
  gridDisplay : String := ""
  gridClases : List String := []
  mapaDisplay : String := ""
  resizes : Nat := 0
  mapInitialized : Bool := false
  mapLoading : Bool := false
  temporizadores : List (Nat × String) := []
  mapSpeciesData : List MapSpecies := []
  visibleConservationStates : List JSString :=
    ["extincion-critica".toList, "peligro".toList, "vulnerable".toList,
     "casi-amenazada".toList, "preocupacion-menor".toList]
  marcadores : List MapSpecies := []
  visibleSpeciesCount : Nat := 0
  totalLocations : Nat := 0
  conteosLeyenda : List (JSString × Nat) := []
  deriving DecidableEq, Repr

/-- The constant `itemsPerPage`. -/
def itemsPerPage : Int := 12

/-- An optional parameter of the query: appended when the value is not empty. -/
def siNoVacio (v : JSString) : Option JSString :=
  if v.isEmpty then none else some v

/-- The function `applyFilters` up to its request: the guard on `isLoading`, the reset of
the page, the new `activeFilters`, and the query that is sent. -/
def applyFilters (s : Especies) : Especies :=
  if s.isLoading then s
  else
    let s := { s with isLoading := true }
    let searchTerm := trim s.searchInput
    let habitatFilter := s.habitatSelect
    let conservationFilter := s.conservationSelect
    let sortBy := s.sortSelect
    let hasActiveFilter := !searchTerm.isEmpty || !habitatFilter.isEmpty || !conservationFilter.isEmpty
    let s :=
      if hasActiveFilter && (s.activeFilters.search != some searchTerm ||
          s.activeFilters.habitat != some habitatFilter ||
          s.activeFilters.conservation != some conservationFilter) then
        { s with currentPage := 1 }
      else s
    let s := { s with activeFilters :=
      ⟨some searchTerm, some habitatFilter, some conservationFilter, some sortBy⟩ }
    { s with peticiones := s.peticiones ++
      [⟨siNoVacio searchTerm, siNoVacio habitatFilter, siNoVacio conservationFilter,
        siNoVacio sortBy, s.currentPage, itemsPerPage⟩] }

/-- The three filters that `removeFilter` knows. -/
inductive FilterType where
  | search : FilterType
  | habitat : FilterType
  | conservation : FilterType
  deriving DecidableEq, Repr

/-- The function `removeFilter`, for one of the three filter types. -/
def removeFilter (filterType : FilterType) (s : Especies) : Especies :=
  let s :=
    match filterType with
    | FilterType.search =>
      { s with searchInput := [], activeFilters := { s.activeFilters with search := none } }
    | FilterType.habitat =>
      { s with habitatSelect := [], activeFilters := { s.activeFilters with habitat := none } }
    | FilterType.conservation =>
      { s with conservationSelect := [],
               activeFilters := { s.activeFilters with conservation := none } }
  applyFilters { s with currentPage := 1 }

/-- The function `clearAllFilters`. -/
def clearAllFilters (s : Especies) : Especies :=
  let s := { s with searchInput := [], habitatSelect := [], conservationSelect := [],
                    sortSelect := "nombre".toList }
  applyFilters { s with activeFilters := {}, currentPage := 1 }

/-- The function `handleSortChange`. -/
def handleSortChange (s : Especies) : Especies :=
  applyFilters { s with currentPage := 1 }

/-! ## especies.js: the catalog, the views and the map

The storage is taken to be accessible, and the elements that the functions look up to be on
the page. `toLowerCase` is the host method `String.prototype.toLowerCase`. -/

/-- The operand `v || d` on a string that may be missing. -/
def oTexto (v : Option String) (d : String) : String :=
  match v with
  | some x => if x = "" then d else x
  | none => d

/-- Table `locationCoords` of `convertEspeciesToMapData`. -/
def locationCoords (ubicacion : String) : Option (Int × Int) :=
  if ubicacion = "Océanos tropicales" then some (250, 200)
  else if ubicacion = "Todos los océanos" then some (400, 200)
  else if ubicacion = "Mar Caribe" then some (220, 180)
  else if ubicacion = "Mediterráneo" then some (500, 150)
  else if ubicacion = "Océano Índico" then some (600, 200)
  else if ubicacion = "Caribe" then some (200, 210)
  else if ubicacion = "Antártida" then some (500, 420)
  else if ubicacion = "Océano Atlántico" then some (400, 160)
  else if ubicacion = "Pacífico Norte" then some (150, 120)
  else if ubicacion = "Pacífico Tropical" then some (180, 220)
  else if ubicacion = "Océano Ártico" then some (400, 80)
  else if ubicacion = "Pacífico Sur" then some (80, 280)
  else if ubicacion = "Global" then some (400, 200)
  else if ubicacion = "No disponible" then some (300, 180)
  else none

/-- The image that stands in for a species without one. -/
def imagenPorDefecto : String :=
  "data:image/svg+xml;base64,PHN2ZyB3aWR0aD0iNDAwIiBoZWlnaHQ9IjMwMCIgdmlld0JveD0iMCAwIDQwMCAzMDAiIGZpbGw9Im5vbmUiIHhtbG5zPSJodHRwOi8vd3d3LnczLm9yZy8yMDAwL3N2ZyI+CjxyZWN0IHdpZHRoPSI0MDAiIGhlaWdodD0iMzAwIiBmaWxsPSIjZjBmMGYwIi8+Cjx0ZXh0IHg9IjIwMCIgeT0iMTUwIiB0ZXh0LWFuY2hvcj0ibWlkZGxlIiBmaWxsPSIjOTk5IiBmb250LWZhbWlseT0iQXJpYWwiIGZvbnQtc2l6ZT0iMTgiPkVzcGVjaWUgTWFyaW5hPC90ZXh0Pgo8L3N2Zz4K"

/-- The function `convertEspeciesToMapData`. -/
def convertEspeciesToMapData (especies : List Especie) : List MapSpecies :=
  especies.enum.map (fun ie =>
    let index : Int := ie.1
    let especie := ie.2
    let ubicacion := oTexto especie.ubicacion "Global"
    let coords := match locationCoords ubicacion with
      | some c => c
      | none => (200 + (index * 50) % 500, 150 + (index * 30) % 200)
    { id := toString especie.id ++ "-1"
      species_id := especie.id
      nombre := especie.nombre
      nombre_cientifico := especie.nombre_cientifico
      estado_conservacion := especie.estado_conservacion
      x := coords.1
      y := coords.2
      ubicacion := ubicacion
      imagen := oTexto especie.imagen imagenPorDefecto })

/-- The function `renderMapMarkers`: one marker for each species of a visible state. -/
def renderMapMarkers (s : Especies) : Especies :=
  { s with marcadores := s.mapSpeciesData.filter (fun species =>
      s.visibleConservationStates.contains species.estado_conservacion) }

/-- The function `updateMapStats`. -/
def updateMapStats (s : Especies) : Especies :=
  let visibleSpecies := s.mapSpeciesData.filter (fun species =>
    s.visibleConservationStates.contains species.estado_conservacion)
  { s with visibleSpeciesCount := visibleSpecies.length
           totalLocations := (visibleSpecies.map (fun sp => sp.ubicacion)).dedup.length }

/-- The function `updateLegendCounts`. -/
def updateLegendCounts (s : Especies) : Especies :=
  { s with conteosLeyenda :=
      ["extincion-critica".toList, "peligro".toList, "vulnerable".toList,
       "casi-amenazada".toList, "preocupacion-menor".toList].map (fun state =>
        (state, (s.mapSpeciesData.filter (fun species =>
          species.estado_conservacion == state)).length)) }

/-- The function `applyMapFilters`. -/
def applyMapFilters (toLowerCase : JSString → JSString) (s : Especies) : Especies :=
  let habitatFilter := s.habitatSelect
  let conservationFilter := s.conservationSelect
  let searchTerm := toLowerCase s.searchInput
  let filteredMapData := s.mapSpeciesData
  let filteredMapData :=
    if !searchTerm.isEmpty then
      filteredMapData.filter (fun species =>
        incluye (toLowerCase species.nombre) searchTerm ||
        incluye (toLowerCase species.nombre_cientifico) searchTerm)
    else filteredMapData
  let filteredMapData :=
    if !conservationFilter.isEmpty then
      filteredMapData.filter (fun species => species.estado_conservacion == conservationFilter)
    else filteredMapData
  let filteredMapData :=
    if !habitatFilter.isEmpty then
      filteredMapData.filter (fun species =>
        match s.especiesData.find? (fun e => e.id == species.species_id) with
        | some especieCompleta => especieCompleta.habitat == habitatFilter
        | none => false)
    else filteredMapData
  updateLegendCounts (updateMapStats (renderMapMarkers { s with mapSpeciesData := filteredMapData }))

/-- The function `syncMapWithMainFilters`. -/
def syncMapWithMainFilters (toLowerCase : JSString → JSString) (s : Especies) : Especies :=
  if s.mapInitialized then applyMapFilters toLowerCase s else s

/-- The function `initializeMap` up to its timer: the loading layer and the timer of 1000 ms. -/
def initializeMap (s : Especies) : Especies :=
  { s with mapLoading := true, temporizadores := s.temporizadores ++ [(1000, "initializeMap")] }

/-- The callback of the timer of `initializeMap`: the map data are built again from the
catalog, the filters are applied and the loading layer is hidden. -/
def initializeMapDiferido (toLowerCase : JSString → JSString) (s : Especies) : Especies :=
  let s :=
    if s.especiesData.length > 0 then
      { s with mapSpeciesData := convertEspeciesToMapData s.especiesData }
    else { s with mapSpeciesData := [] }
  { applyMapFilters toLowerCase s with mapLoading := false }

/-- What becomes of a request to `/api/especies`: it fails, it answers with a status that is
not 2xx, or it delivers a body with the properties `error`, `especies`, `total_pages` and
`total`, each of which may be missing. -/
inductive RespuestaEspecies where
  | falla : RespuestaEspecies
  | http (status : Nat) : RespuestaEspecies
  | cuerpo (error : Option String) (especies : Option (List Especie))
      (total_pages : Option Int) (total : Option Int) : RespuestaEspecies
  deriving DecidableEq, Repr

/-- The `catch` block of `cargarEspecies`, followed by its `finally` block. -/
def cargarEspeciesFallida (s : Especies) : Especies :=
  { s with
    mensajeError := some "Error al conectar con la base de datos. Por favor, intenta recargar la página."
    especiesData := []
    filteredEspecies := []
    totalPages := 0
    contador := some 0
    isLoading := false }

/-- The function `cargarEspecies`, with the answer of the server to its request. The grid is
drawn by `renderEspecies` from `filteredEspecies`: an empty list shows the block of no
results. -/
def cargarEspecies (toLowerCase : JSString → JSString) (respuesta : RespuestaEspecies)
    (s : Especies) : Especies :=
  let s := { s with isLoading := true }
  let s := { s with peticiones := s.peticiones ++
    [⟨none, none, none, some "nombre".toList, s.currentPage, itemsPerPage⟩] }
  match respuesta with
  | RespuestaEspecies.falla => cargarEspeciesFallida s
  | RespuestaEspecies.http _ => cargarEspeciesFallida s
  | RespuestaEspecies.cuerpo error especies total_pages total =>
    if esVerdadero (error.map Valor.texto) then cargarEspeciesFallida s
    else
      let especiesData := especies.getD []
      let total0 : Int := oCero (total.getD 0)
      let totalPages : Int :=
        if oCero (total_pages.getD 0) = 0 then (total0 + itemsPerPage - 1) / itemsPerPage
        else total_pages.getD 0
      let s := { s with especiesData := especiesData, filteredEspecies := especiesData,
                        totalPages := totalPages }
      let s := { s with contador := some (if total0 = 0 then (especiesData.length : Int) else total0) }
      let s := { s with estadisticasPedidas := s.estadisticasPedidas + 1 }
      let s :=
        if s.mapInitialized then
          applyMapFilters toLowerCase
            { s with mapSpeciesData := convertEspeciesToMapData s.especiesData }
        else s
      { s with isLoading := false }

/-- The function `actualizarBotonesVista`: the active buttons are those of the given view. -/
def actualizarBotonesVista (vistaActiva : String) (s : Especies) : Especies :=
  { s with botonesActivos := s.botonesVista.filter (fun v => v == vistaActiva) }

/-- The case `'grid'` of `aplicarVista`, with the resize event that follows the `switch`. -/
def aplicarVistaGrid (s : Especies) : Especies :=
  { s with
    gridDisplay := "grid"
    gridClases := classListRemove "list-view"
      (classListRemove "vista-mapa" (classListRemove "vista-lista" s.gridClases))
    mapaDisplay := "none"
    resizes := s.resizes + 1 }

/-- The function `aplicarVista`; a view that is none of the three is applied as `'grid'`. -/
def aplicarVista (toLowerCase : JSString → JSString) (vista : String) (s : Especies) :
    Especies :=
  let clases := classListRemove "vista-mapa" (classListRemove "vista-lista" s.gridClases)
  if vista = "grid" then aplicarVistaGrid s
  else if vista = "list" then
    { s with
      gridDisplay := "block"
      gridClases := classListAdd "list-view" (classListAdd "vista-lista" clases)
      mapaDisplay := "none"
      resizes := s.resizes + 1 }
  else if vista = "mapa" then
    let s := { s with gridDisplay := "none", gridClases := classListAdd "vista-mapa" clases,
                      mapaDisplay := "block" }
    let s :=
      if !s.mapInitialized then { initializeMap s with mapInitialized := true }
      else syncMapWithMainFilters toLowerCase s
    { s with resizes := s.resizes + 1 }
  else aplicarVistaGrid s

/-- The function `guardarPreferenciaVista`. -/
def guardarPreferenciaVista (vista : String) (s : Especies) : Especies :=
  { s with localStorage :=
      setItem "sway-especies-vista-preferida" (Valor.texto vista) s.localStorage }

/-- The function `cambiarVista`, for a click on the button with the given `data-vista`. -/
def cambiarVista (toLowerCase : JSString → JSString) (vista : String) (s : Especies) :
    Especies :=
  guardarPreferenciaVista vista (aplicarVista toLowerCase vista (actualizarBotonesVista vista s))

/-- The function `cargarPreferenciaVista`. -/
def cargarPreferenciaVista (toLowerCase : JSString → JSString) (s : Especies) : Especies :=
  let vistaGuardada := getItem "sway-especies-vista-preferida" s.localStorage
  match vistaGuardada with
  | some (Valor.texto v) =>
    if v != "" && ["grid", "list", "mapa"].contains v then
      aplicarVista toLowerCase v (actualizarBotonesVista v s)
    else aplicarVista toLowerCase "grid" (actualizarBotonesVista "grid" s)
  | _ => aplicarVista toLowerCase "grid" (actualizarBotonesVista "grid" s)

/-- The function `obtenerVistaActual`: the stored value, or `'grid'` in its place when it is
missing or empty. -/
def obtenerVistaActual (s : Especies) : Valor :=
  let vistaGuardada := getItem "sway-especies-vista-preferida" s.localStorage
  if esVerdadero vistaGuardada then vistaGuardada.getD (Valor.texto "grid")
  else Valor.texto "grid"

/-! ## eventos.js: the events and the calendar -/

/-- The identifier of an event: a number from the server, a text in the sample events. -/
inductive IdEvento where
  | numero (n : Int) : IdEvento
  | texto (s : String) : IdEvento
  deriving DecidableEq, Repr

/-- An event as `/api/eventos` delivers it: the properties that `cargarEventos` reads. -/
structure EventoServidor where
  id : Int
  titulo : String
  tipo_evento : String
  fecha_evento : String
  hora_inicio : String
  hora_fin : String
  modalidad : String
  direccion : Option String
  descripcion : Option String
  capacidad_maxima : Option Int
  es_gratuito : Bool
  costo : Option ℚ
  organizador : Option String
  url_evento : Option String
  estatus : String
  deriving DecidableEq, Repr

/-- An event in the format of the page; the properties after `region` are those that the
sample events do not have. -/
structure Evento where
  id : IdEvento
  titulo : String
  tipo : String
  fecha : String
  hora : String
  modalidad : String
  ubicacion : String
  descripcion : String
  capacidad : Int
  inscritos : Int
  costo : String
  organizador : String
  region : String
  fecha_evento : Option String := none
  hora_inicio : Option String := none
  hora_fin : Option String := none
  costo_numerico : Option ℚ := none
  url_evento : Option String := none
  estatus : Option String := none
  deriving DecidableEq, Repr

/-- State of the events page: the module variables `currentDate`, `currentView`,
`eventosData`, `filteredEventos` and `datosFormularioCargados`, the month that the calendar
grid shows (year and month index) and the title above it. -/
structure Eventos where
  currentDate : Instante
  currentView : String := "mes"
  eventosData : List Evento := []
  filteredEventos : List Evento := []
  datosFormularioCargados : Bool := false
  mesDelCalendario : Option (Int × Int) := none
  tituloMes : Option String := none
  deriving DecidableEq, Repr

/-- The function `transformarTipoEvento`. -/
def transformarTipoEvento (tipoEvento : String) : String :=
  if tipoEvento = "Conferencia" then "conferencia"
  else if tipoEvento = "Taller" then "taller"
  else if tipoEvento = "Limpieza de Playa" then "limpieza"
  else if tipoEvento = "Webinar" then "webinar"
  else if tipoEvento = "Expedición" then "campana"
  else "conferencia"

/-- The function `transformarModalidad`. -/
def transformarModalidad (modalidad : String) : String :=
  if modalidad = "Presencial" then "presencial"
  else if modalidad = "Virtual" then "virtual"
  else if modalidad = "Híbrido" then "hibrido"
  else "presencial"

/-- The callback of `data.eventos.map` in `cargarEventos`. -/
def transformarEvento (evento : EventoServidor) : Evento :=
  let porDefecto := if evento.modalidad = "Virtual" then "Virtual" else "Por definir"
  { id := IdEvento.numero evento.id
    titulo := evento.titulo
    tipo := transformarTipoEvento evento.tipo_evento
    fecha := evento.fecha_evento
    fecha_evento := some evento.fecha_evento
    hora := evento.hora_inicio
    hora_inicio := some evento.hora_inicio
    hora_fin := some evento.hora_fin
    modalidad := transformarModalidad evento.modalidad
    ubicacion := oTexto evento.direccion porDefecto
    descripcion := oTexto evento.descripcion ""
    capacidad := oCero (evento.capacidad_maxima.getD 0)
    inscritos := 0
    costo := if evento.es_gratuito then "gratuito" else "pago"
    costo_numerico := some (oCero (evento.costo.getD 0))
    organizador := oTexto evento.organizador "SWAY"
    region := "mexico"
    url_evento := evento.url_evento
    estatus := some evento.estatus }

/-- What becomes of the request to `/api/eventos`: it fails or its body is no JSON, or it
delivers, with some status that the function does not look at, a body with `success` and
`eventos`. -/
inductive RespuestaEventos where
  | falla : RespuestaEventos
  | cuerpo (status : Nat) (success : Bool) (eventos : List EventoServidor) : RespuestaEventos
  deriving DecidableEq, Repr

/-- The function `cargarEventos`: the returned boolean and the page. -/
def cargarEventos (respuesta : RespuestaEventos) (s : Eventos) : Bool × Eventos :=
  match respuesta with
  | RespuestaEventos.cuerpo _ true eventos =>
    (true, { s with eventosData := eventos.map transformarEvento
                    filteredEventos := eventos.map transformarEvento })
  | RespuestaEventos.cuerpo _ false _ => (false, s)
  | RespuestaEventos.falla => (false, s)

/-- The function `generarEventosEjemplo`. -/
def generarEventosEjemplo : List Evento :=
  [ { id := IdEvento.texto "webinar-arrecifes"
      titulo := "Crisis de los Arrecifes de Coral"
      tipo := "webinar"
      fecha := "2025-08-15"
      hora := "19:00"
      modalidad := "virtual"
      ubicacion := "Zoom"
      descripcion := "Expertos internacionales discuten las amenazas actuales a los arrecifes de coral y estrategias de conservación."
      capacidad := 500
      inscritos := 248
      costo := "gratuito"
      organizador := "Dr. Marina López"
      region := "global" },
    { id := IdEvento.texto "limpieza-cancun"
      titulo := "Gran Limpieza de Playa Cancún"
      tipo := "limpieza"
      fecha := "2025-08-25"
      hora := "08:00"
      modalidad := "presencial"
      ubicacion := "Playa Delfines, Cancún"
      descripcion := "Actividad presencial de limpieza en las playas de Cancún. Incluye equipo, refrigerio y certificado de participación."
      capacidad := 200
      inscritos := 156
      costo := "gratuito"
      organizador := "SWAY México"
      region := "mexico" } ]

/-- Table `meses` of `updateMonthYear`, by month index. -/
def nombreDeMes (month : Int) : String :=
  if month = 0 then "Enero"
  else if month = 1 then "Febrero"
  else if month = 2 then "Marzo"
  else if month = 3 then "Abril"
  else if month = 4 then "Mayo"
  else if month = 5 then "Junio"
  else if month = 6 then "Julio"
  else if month = 7 then "Agosto"
  else if month = 8 then "Septiembre"
  else if month = 9 then "Octubre"
  else if month = 10 then "Noviembre"
  else "Diciembre"

/-- The method `Date.prototype.getMonth`. -/
def getMonth (t : Instante) : Int :=
  (t.mes : Int) - 1

/-- The function `updateMonthYear`. -/
def updateMonthYear (s : Eventos) : Eventos :=
  let monthYear := nombreDeMes (getMonth s.currentDate) ++ " " ++ toString s.currentDate.anio
  { s with tituloMes := some monthYear }

/-- The function `renderCalendario`, by the year and the month it reads from `currentDate`:
the grid holds the 42 days from the Sunday on or before the first day of that month, each
with the events of `getEventosDelDia`. -/
def renderCalendario (s : Eventos) : Eventos :=
  updateMonthYear { s with mesDelCalendario := some (s.currentDate.anio, getMonth s.currentDate) }

/-- The function `getEventosDelDia`, from the ISO date of the day. -/
def getEventosDelDia (fechaStr : String) (s : Eventos) : List Evento :=
  s.filteredEventos.filter (fun evento => evento.fecha == fechaStr)

/-- The listener of `DOMContentLoaded`, with the answer of the server to the request of
`cargarEventos`. The agenda, the requests for the data of the form and the testimonials
are left out. -/
def alCargarDOM (respuesta : RespuestaEventos) (s : Eventos) : Eventos :=
  let r := cargarEventos respuesta s
  let eventosLoaded := r.1
  let s := r.2
  let s :=
    if !eventosLoaded then
      { s with eventosData := generarEventosEjemplo, filteredEventos := generarEventosEjemplo }
    else s
  let s := renderCalendario s
  if !s.datosFormularioCargados then { s with datosFormularioCargados := true } else s

/-- ECMAScript `YearFromTime`, on a day number: the year in which the day falls. The
quotient by the mean length of a year is at most one year off. -/
def yearFromDay (d : Int) : Int :=
  let y := 1970 + (d * 400) / 146097
  if dayFromYear y > d then y - 1
  else if dayFromYear (y + 1) ≤ d then y + 1
  else y

/-- ECMAScript `MonthFromTime`, on the day within the year and the leap day of the year. -/
def monthFromDayWithinYear (leap : Int) (dayWithinYear : Int) : Int :=
  if dayWithinYear < 31 then 0
  else if dayWithinYear < 59 + leap then 1
  else if dayWithinYear < 90 + leap then 2
  else if dayWithinYear < 120 + leap then 3
  else if dayWithinYear < 151 + leap then 4
  else if dayWithinYear < 181 + leap then 5
  else if dayWithinYear < 212 + leap then 6
  else if dayWithinYear < 243 + leap then 7
  else if dayWithinYear < 273 + leap then 8
  else if dayWithinYear < 304 + leap then 9
  else if dayWithinYear < 334 + leap then 10
  else 11

/-- The calendar fields of the instant at `ms` milliseconds into day number `d`
(`YearFromTime`, `MonthFromTime`, `DateFromTime`). -/
def instanteDeDia (d : Int) (ms : Nat) : Instante :=
  let y := yearFromDay d
  let dayWithinYear := d - dayFromYear y
  let m := monthFromDayWithinYear (inLeapYear y) dayWithinYear
  let date := dayWithinYear - diasAntesDeMes y m + 1
  ⟨y, (m + 1).toNat, date.toNat, ms⟩

/-- The method `Date.prototype.setMonth(month)`: the day of the month and the time of day
are kept, and `MakeDay` carries a day beyond the end of the month into the next one. -/
def setMonth (t : Instante) (month : Int) : Instante :=
  instanteDeDia (makeDay t.anio month t.dia) t.msDelDia

/-- The function `cambiarMes`. -/
def cambiarMes (direccion : Int) (s : Eventos) : Eventos :=
  let s := { s with currentDate := setMonth s.currentDate (getMonth s.currentDate + direccion) }
  updateMonthYear (renderCalendario s)

/-! ## especies.js, biblioteca.js: the debounced search

Time is counted in milliseconds. A timer runs when the clock reaches the instant at which it
is due, unless it has been cleared before. -/

/-- A timer that `setTimeout` has set and that has neither run nor been cleared: its id and
the instant at which it is due. -/
structure Temporizador where
  id : Nat
  vence : Nat
  deriving DecidableEq, Repr

/-- The search box of a page and the timers of its debounce: the delay of the page (500 in
`especies.js`, 300 in `biblioteca.js`), the clock, the pending timers, the variable
`searchTimeout`, the id that the next timer gets, and the instants at which the filter has
been applied by a timer (`applyFilters` in `especies.js`, `filterAndSearchResources` in
`biblioteca.js`). -/
structure Buscador where
  retraso : Nat
  reloj : Nat := 0
  pendientes : List Temporizador := []
  searchTimeout : Option Nat := none
  siguienteId : Nat := 1
  aplicaciones : List Nat := []
  deriving DecidableEq, Repr

/-- The host function `clearTimeout`; an id that belongs to no pending timer clears nothing. -/
def clearTimeout (id : Option Nat) (s : Buscador) : Buscador :=
  { s with pendientes := s.pendientes.filter (fun t => some t.id != id) }

/-- The host function `setTimeout` with the callback of the search: the new timer is due
`delay` after the clock; the result carries its id. -/
def setTimeout (delay : Nat) (s : Buscador) : Nat × Buscador :=
  (s.siguienteId,
   { s with pendientes := s.pendientes ++ [⟨s.siguienteId, s.reloj + delay⟩]
            siguienteId := s.siguienteId + 1 })

/-- The function `debouncedSearch` of `especies.js`, which is `debounceSearch` of
`biblioteca.js` with the delay of that page. -/
def debouncedSearch (s : Buscador) : Buscador :=
  let s := clearTimeout s.searchTimeout s
  let r := setTimeout s.retraso s
  { r.2 with searchTimeout := some r.1 }

/-- The clock moves on to the instant `t`: the timers due by then run, in the order of the
instants at which they are due, and each applies the filter at its instant. -/
def avanzar (t : Nat) (s : Buscador) : Buscador :=
  let vencidos := (s.pendientes.filter (fun p => p.vence ≤ t)).map (fun p => p.vence)
  { s with reloj := max s.reloj t
           pendientes := s.pendientes.filter (fun p => !decide (p.vence ≤ t))
           aplicaciones := s.aplicaciones ++ vencidos.insertionSort (fun a b => a ≤ b) }

/-- An `input` event on the search box at the instant `t`. -/
def teclear (s : Buscador) (t : Nat) : Buscador :=
  debouncedSearch (avanzar t s)

/-! ## Specification-side definitions -/

/-- The invariant of the specification: at most one line per item id. -/
def SinDuplicados (carrito : List CartItem) : Prop :=
  (carrito.map (fun item => item.id)).Nodup

instance (carrito : List CartItem) : Decidable (SinDuplicados carrito) := by
  unfold SinDuplicados; infer_instance

/-- What the specification asks of a cart mutation from `s` to `t`: no network request
is issued, and when the cart has changed the value under the storage key `carrito` is the
serialisation of the cart in memory. -/
def Persistido (s t : Tienda) : Prop :=
  t.peticiones = s.peticiones ∧
  (t.carrito ≠ s.carrito → getItem "carrito" t.localStorage = some (Valor.carritoJSON t.carrito))

instance (s t : Tienda) : Decidable (Persistido s t) := by
  unfold Persistido; infer_instance

/-- A host for the examples: the clock at 6 November 2026, midnight, and parsers that
recognise nothing. -/
def hostEjemplo : Host :=
  ⟨⟨2026, 11, 6, 0⟩, fun _ => none, fun _ => none⟩

/-- A shop with one product in the catalog, nobody logged in and an empty cart. -/
def tiendaInicial : Tienda :=
  { productos := [⟨7, "Botella reutilizable", 120, "botella.png", 5, "Acero inoxidable"⟩]
    carrito := []
    currentUser := none
    localStorage := []
    sessionStorage := []
    notificaciones := []
    peticiones := []
    modalesAbiertos := []
    contadorCarrito := 0
    flotanteVisible := false
    cartTotal := Numero.finito 0
    currentPaymentAmount := none
    temporizadores := [] }

/-- The host of `hostEjemplo` with `parseFloat` as the browser computes it. -/
def hostNavegador : Host :=
  ⟨⟨2026, 11, 6, 0⟩, fun _ => none, parseFloatJS⟩

/-- A user for the examples. -/
def usuarioEjemplo : Usuario :=
  ⟨1, "Ana", "ana@sway.mx"⟩

/-- The shop of `tiendaInicial` with the example user logged in. -/
def tiendaConSesion : Tienda :=
  { tiendaInicial with currentUser := some usuarioEjemplo, menuSesion := true }

/-- The species page on page 3 of the species of the habitat `arrecife`, at the moment the
habitat select has been changed back to its empty value. -/
def especiesPagina3 : Especies :=
  { currentPage := 3
    totalPages := 5
    activeFilters := ⟨some [], some "arrecife".toList, some [], some "nombre".toList⟩
    sortSelect := "nombre".toList }

/-- The products whose cards are in the grid, in the order of the cards. -/
def productosEnGrid (grid : List NodoGrid) : List Product :=
  grid.filterMap (fun n => match n with
    | NodoGrid.tarjeta p _ => some p
    | NodoGrid.html _ => none)

/-- Page `p` of the specification, pages counted from 0: the items from index
`p * pageSize` up to `(p + 1) * pageSize`. -/
def paginaDe {α : Type} (pageSize : Nat) (l : List α) (p : Nat) : List α :=
  (l.drop (p * pageSize)).take pageSize

/-- The cards of one page of the specification, as `renderProducts` writes them. -/
def tarjetasDePagina (l : List Product) (p : Nat) : List NodoGrid :=
  (paginaDe 6 l p).enum.map (fun ip => NodoGrid.tarjeta ip.2 ip.1)

/-- The method `toLowerCase` on text whose letters are those of the basic Latin alphabet;
other characters are left as they are. -/
def minusculasLatinas (s : String) : String :=
  String.mk (s.data.map Char.toLower)

/-- The shop of `tiendaInicial` with a catalog of eight products, on page 2 of the full
list, the grid holding the eight cards. -/
def tiendaEnPagina2 : Tienda :=
  let productos : List Product := (List.range 8).map (fun i =>
    ⟨i, "Botella " ++ toString i, 120, "botella.png", 5, "Acero inoxidable"⟩)
  { tiendaInicial with
    productos := productos
    filteredProducts := productos
    currentPage := 2
    productGrid := productos.enum.map (fun ip => NodoGrid.tarjeta ip.2 (ip.1 % 6)) }

/-- The shop of `tiendaEnPagina2` with no description for the product 3. -/
def tiendaSinDescripcion : Tienda :=
  let productos : List Product := (List.range 8).map (fun i =>
    ⟨i, "Botella " ++ toString i, 120, "botella.png", 5,
      if i = 3 then none else some "Acero inoxidable"⟩)
  { tiendaInicial with
    productos := productos
    filteredProducts := productos
    currentPage := 2
    productGrid := productos.enum.map (fun ip => NodoGrid.tarjeta ip.2 (ip.1 % 6)) }

/-- A checkout form filled in with values that `validateCheckoutForm` admits. -/
def formularioCompleto : FormularioCheckout :=
  { shippingCalle := "12".toList
    shippingName := "Ana Mar".toList
    shippingPhone := "5512345678".toList
    cardNumber := "4539 1488 0343 6467".toList
    cardExpiry := "12/99".toList
    cardCvv := "123".toList
    cardName := "ANA MAR".toList
    cardType := "visa".toList }

/-- The method `toLowerCase` on a list of characters whose letters are those of the basic
Latin alphabet. -/
def minusculasJS (s : JSString) : JSString :=
  s.map Char.toLower

/-- The species page with the text `tabla` under the key of the view preference. -/
def especiesConVistaTabla : Especies :=
  { localStorage := [("sway-especies-vista-preferida", Valor.texto "tabla")] }

/-- What may change on the species page between two calls of `applyMapFilters` without a
reload of the map data: the values of the search box and of the two selects, and the
catalog `especiesData`. -/
structure Entorno where
  searchInput : JSString
  habitatSelect : JSString
  conservationSelect : JSString
  especiesData : List Especie
  deriving DecidableEq, Repr

/-- A call of `applyMapFilters` after the inputs and the catalog have become those of `e`. -/
def llamadaConEntorno (toLowerCase : JSString → JSString) (s : Especies) (e : Entorno) :
    Especies :=
  applyMapFilters toLowerCase
    { s with searchInput := e.searchInput, habitatSelect := e.habitatSelect,
             conservationSelect := e.conservationSelect, especiesData := e.especiesData }

/-- Two species of the catalog, a coral of the reef and a whale of the open sea. -/
def especiesEjemplo : List Especie :=
  [⟨1, "Coral cuerno".toList, "Acropora cervicornis".toList, "peligro".toList,
    "arrecife".toList, some "Mar Caribe", none⟩,
   ⟨2, "Ballena azul".toList, "Balaenoptera musculus".toList, "peligro".toList,
    "oceano".toList, some "Todos los océanos", none⟩]

/-- The species page with the map initialised on the two species of `especiesEjemplo` and
the habitat select at `arrecife`. -/
def especiesConMapa : Especies :=
  { especiesData := especiesEjemplo
    mapInitialized := true
    mapSpeciesData := convertEspeciesToMapData especiesEjemplo
    habitatSelect := "arrecife".toList }

/-- What happens on a page with a debounced search box: a keystroke at an instant, or the
clock moving on to an instant. -/
inductive Suceso where
  | tecla (t : Nat) : Suceso
  | espera (t : Nat) : Suceso
  deriving DecidableEq, Repr

/-- One event on the search box. -/
def suceder (s : Buscador) (e : Suceso) : Buscador :=
  match e with
  | Suceso.tecla t => teclear s t
  | Suceso.espera t => avanzar t s

/-- The instants of a run of keystrokes: the first one at `t0`, each later one after the gap
to the one before it. -/
def instantes (t0 : Nat) : List Nat → List Nat
  | [] => [t0]
  | g :: gs => t0 :: instantes (t0 + g) gs

/-- The instant of the last keystroke of the run. -/
def ultimoInstante (t0 : Nat) (brechas : List Nat) : Nat :=
  t0 + brechas.sum

/-- The invariant of the debounce: at most one timer of the search is pending, and
`searchTimeout` holds its id. -/
def UnSoloTemporizador (s : Buscador) : Prop :=
  s.pendientes = [] ∨ ∃ id v, s.pendientes = [⟨id, v⟩] ∧ s.searchTimeout = some id

/-- The form `MM/YY` of the specification: two decimal digits, a slash, two decimal digits.
The result is the pair of numbers that the two pairs of digits denote, and nothing for a
string of any other form. -/
def formaMMYY (f : JSString) : Option (Nat × Nat) :=
  match f with
  | [m1, m2, barra, a1, a2] =>
    if esDigito m1 && esDigito m2 && barra == '/' && esDigito a1 && esDigito a2 then
      some (10 * valorDigito m1 + valorDigito m2, 10 * valorDigito a1 + valorDigito a2)
    else none
  | _ => none

/-- Doubling rule of the specification for the digit `id.2` at position `id.1` counted
from the right, starting at 0: a digit at an odd position is doubled, and loses 9 when the
double is above 9. -/
def pesoLuhn (id : Nat × Nat) : Nat :=
  if id.1 % 2 = 1 then (if 2 * id.2 > 9 then 2 * id.2 - 9 else 2 * id.2) else id.2

/-- Luhn sum as the specification words it: every second digit counted from the right is
doubled, a doubled digit above 9 loses 9, and all the digits are added. -/
def luhnSum (s : JSString) : Nat :=
  ((s.reverse.map valorDigito).enum.map pesoLuhn).sum

/-- The number nearest to one tenth, which is the number that the numeral `0.1` denotes. -/
def precioDecimo : ℚ := 3602879701896397 / 36028797018963968

/-- A cart with one line: three units at the price 0.1. -/
def carritoDeDecimos : List CartItem :=
  [⟨7, "Botella reutilizable", precioDecimo, "botella.png", 3⟩]

/-- A cart with three lines of one unit, at the prices `2^53`, 1 and 1. -/
def carritoGrande : List CartItem :=
  [⟨7, "Velero", 9007199254740992, "velero.png", 1⟩,
   ⟨8, "Pegatina", 1, "pegatina.png", 1⟩,
   ⟨9, "Postal", 1, "postal.png", 1⟩]

/-- A cart with one line: `10^21` units at the price 1. -/
def carritoDeMuchasUnidades : List CartItem :=
  [⟨8, "Pegatina", 1, "pegatina.png", 10 ^ 21⟩]

/-- A cart with two units at 120.50 and one at 35.25. -/
def carritoDeCuartos : List CartItem :=
  [⟨7, "Botella reutilizable", 241 / 2, "botella.png", 2⟩,
   ⟨8, "Bolsa de malla", 141 / 4, "bolsa.png", 1⟩]

end Sway

/-! # Theorems -/

namespace Sway

/-! ## The matcher agrees with the denotation -/

namespace RegExp

theorem matches_empty_iff (u : JSString) : Matches empty u ↔ False := by
  constructor
  · intro h; cases h
  · intro h; exact h.elim

theorem matches_eps_iff (u : JSString) : Matches eps u ↔ u = [] := by
  constructor
  · intro h; cases h; rfl
  · intro h; subst h; exact Matches.eps

theorem matches_cls_iff (p : Char → Bool) (u : JSString) :
    Matches (cls p) u ↔ ∃ c, u = [c] ∧ p c = true := by
  constructor
  · intro h
    cases h with
    | cls _ c hc => exact ⟨c, rfl, hc⟩
  · rintro ⟨c, rfl, hc⟩
    exact Matches.cls p c hc

theorem matches_seq_iff (a b : RegExp) (u : JSString) :
    Matches (seq a b) u ↔ ∃ s t, u = s ++ t ∧ Matches a s ∧ Matches b t := by
  constructor
  · intro h
    cases h with
    | seq _ _ s t ha hb => exact ⟨s, t, rfl, ha, hb⟩
  · rintro ⟨s, t, rfl, ha, hb⟩
    exact Matches.seq a b s t ha hb

theorem matches_alt_iff (a b : RegExp) (u : JSString) :
    Matches (alt a b) u ↔ Matches a u ∨ Matches b u := by
  constructor
  · intro h
    cases h with
    | altL _ _ _ ha => exact Or.inl ha
    | altR _ _ _ hb => exact Or.inr hb
  · rintro (ha | hb)
    · exact Matches.altL a b u ha
    · exact Matches.altR a b u hb

theorem matches_star_iff (a : RegExp) (u : JSString) :
    Matches (star a) u ↔ u = [] ∨ ∃ s t, u = s ++ t ∧ Matches a s ∧ Matches (star a) t := by
  constructor
  · intro h
    cases h with
    | starNil _ => exact Or.inl rfl
    | starCons _ s t ha ht => exact Or.inr ⟨s, t, rfl, ha, ht⟩
  · rintro (rfl | ⟨s, t, rfl, ha, ht⟩)
    · exact Matches.starNil a
    · exact Matches.starCons a s t ha ht

/-- A non-empty word of a starred expression starts with a non-empty word of its body. -/
theorem matches_star_cons (a : RegExp) (c : Char) (u : JSString)
    (h : Matches (star a) (c :: u)) :
    ∃ s t, u = s ++ t ∧ Matches a (c :: s) ∧ Matches (star a) t := by
  generalize hr : star a = r at h
  generalize hw : c :: u = w at h
  induction h generalizing u with
  | eps => cases hr
  | cls p d hd => cases hr
  | seq a1 b1 s t ha hb _ _ => cases hr
  | altL a1 b1 s ha _ => cases hr
  | altR a1 b1 s hb _ => cases hr
  | starNil a1 => cases hw
  | starCons a1 s t ha ht _ iht =>
    cases hr
    cases s with
    | nil =>
      simp only [List.nil_append] at hw
      exact iht u rfl hw
    | cons d s1 =>
      simp only [List.cons_append, List.cons.injEq] at hw
      obtain ⟨rfl, rfl⟩ := hw
      exact ⟨s1, t, rfl, ha, ht⟩

theorem nullable_iff (r : RegExp) : nullable r = true ↔ Matches r [] := by
  induction r with
  | empty => simp [nullable, matches_empty_iff]
  | eps => simp [nullable, matches_eps_iff]
  | cls p => simp [nullable, matches_cls_iff]
  | seq a b iha ihb =>
    simp only [nullable, Bool.and_eq_true, iha, ihb, matches_seq_iff]
    constructor
    · rintro ⟨ha, hb⟩
      exact ⟨[], [], rfl, ha, hb⟩
    · rintro ⟨s, t, hst, ha, hb⟩
      have hs : s = [] := by
        cases s with
        | nil => rfl
        | cons d s1 => simp at hst
      have ht : t = [] := by
        subst hs
        simpa using hst.symm
      subst hs; subst ht
      exact ⟨ha, hb⟩
  | alt a b iha ihb =>
    simp only [nullable, Bool.or_eq_true, iha, ihb, matches_alt_iff]
  | star a _ =>
    simp only [nullable, true_iff]
    exact Matches.starNil a

theorem deriv_iff (r : RegExp) (c : Char) (u : JSString) :
    Matches (deriv c r) u ↔ Matches r (c :: u) := by
  induction r generalizing u with
  | empty => simp [deriv, matches_empty_iff]
  | eps => simp [deriv, matches_empty_iff, matches_eps_iff]
  | cls p =>
    rw [matches_cls_iff]
    by_cases hp : p c = true
    · have hd : deriv c (cls p) = eps := by simp [deriv, hp]
      rw [hd, matches_eps_iff]
      constructor
      · rintro rfl
        exact ⟨c, rfl, hp⟩
      · rintro ⟨d, hd, _⟩
        simp only [List.cons.injEq] at hd
        exact hd.2
    · have hd : deriv c (cls p) = empty := by simp [deriv, hp]
      rw [hd, matches_empty_iff, false_iff]
      rintro ⟨d, hd, hpd⟩
      simp only [List.cons.injEq] at hd
      exact hp (hd.1 ▸ hpd)
  | seq a b iha ihb =>
    have key : Matches (seq a b) (c :: u) ↔
        (∃ s t, u = s ++ t ∧ Matches a (c :: s) ∧ Matches b t) ∨
          (Matches a [] ∧ Matches b (c :: u)) := by
      rw [matches_seq_iff]
      constructor
      · rintro ⟨s, t, hst, ha, hb⟩
        cases s with
        | nil =>
          simp only [List.nil_append] at hst
          subst hst
          exact Or.inr ⟨ha, hb⟩
        | cons d s1 =>
          simp only [List.cons_append, List.cons.injEq] at hst
          obtain ⟨rfl, rfl⟩ := hst
          exact Or.inl ⟨s1, t, rfl, ha, hb⟩
      · rintro (⟨s, t, rfl, ha, hb⟩ | ⟨ha, hb⟩)
        · exact ⟨c :: s, t, rfl, ha, hb⟩
        · exact ⟨[], c :: u, rfl, ha, hb⟩
    rw [key]
    by_cases hn : nullable a = true
    · have hn1 : Matches a [] := (nullable_iff a).1 hn
      have hd : deriv c (seq a b) = alt (seq (deriv c a) b) (deriv c b) := by simp [deriv, hn]
      rw [hd, matches_alt_iff, matches_seq_iff, ihb]
      simp only [iha, hn1, true_and]
    · have hn1 : ¬ Matches a [] := fun h => hn ((nullable_iff a).2 h)
      have hd : deriv c (seq a b) = seq (deriv c a) b := by simp [deriv, hn]
      rw [hd, matches_seq_iff]
      simp only [iha, hn1, false_and, or_false]
  | alt a b iha ihb =>
    simp only [deriv, matches_alt_iff, iha, ihb]
  | star a iha =>
    simp only [deriv, matches_seq_iff, iha]
    constructor
    · rintro ⟨s, t, rfl, ha, ht⟩
      exact Matches.starCons a (c :: s) t ha ht
    · intro h
      exact matches_star_cons a c u h

theorem test_iff (r : RegExp) (u : JSString) : test r u = true ↔ Matches r u := by
  unfold test
  induction u generalizing r with
  | nil => simpa using nullable_iff r
  | cons c u ih =>
    simp only [List.foldl_cons]
    rw [ih (deriv c r), deriv_iff]

/-- Words of `p*` for a character class `p`. -/
theorem matches_star_cls_iff (p : Char → Bool) (u : JSString) :
    Matches (star (cls p)) u ↔ ∀ c ∈ u, p c = true := by
  induction u with
  | nil =>
    simp only [List.not_mem_nil, false_implies, implies_true, iff_true]
    exact Matches.starNil _
  | cons d u ih =>
    constructor
    · intro h
      obtain ⟨s, t, rfl, hs, ht⟩ := matches_star_cons _ d u h
      rw [matches_cls_iff] at hs
      obtain ⟨e, he, hpe⟩ := hs
      simp only [List.cons.injEq] at he
      obtain ⟨rfl, rfl⟩ := he
      simp only [List.nil_append] at ih
      intro c hc
      rcases List.mem_cons.1 hc with rfl | hc
      · exact hpe
      · exact ih.1 ht c hc
    · intro h
      have h1 : p d = true := h d (List.mem_cons_self d u)
      have h2 : Matches (star (cls p)) u := ih.2 (fun c hc => h c (List.mem_cons_of_mem d hc))
      exact Matches.starCons (cls p) [d] u (Matches.cls p d h1) h2

/-- Words of `p+` for a character class `p`. -/
theorem test_plus_cls_iff (p : Char → Bool) (u : JSString) :
    test (plus (cls p)) u = true ↔ u ≠ [] ∧ ∀ c ∈ u, p c = true := by
  rw [test_iff, plus, matches_seq_iff]
  constructor
  · rintro ⟨s, t, rfl, hs, ht⟩
    rw [matches_cls_iff] at hs
    obtain ⟨e, rfl, hpe⟩ := hs
    rw [matches_star_cls_iff] at ht
    refine ⟨by simp, ?_⟩
    intro c hc
    rcases List.mem_cons.1 hc with rfl | hc
    · exact hpe
    · exact ht c hc
  · rintro ⟨hne, h⟩
    cases u with
    | nil => exact absurd rfl hne
    | cons d u =>
      refine ⟨[d], u, rfl, Matches.cls p d (h d (List.mem_cons_self d u)), ?_⟩
      rw [matches_star_cls_iff]
      exact fun c hc => h c (List.mem_cons_of_mem d hc)

end RegExp

end Sway

namespace Sway

/-! ## Card numbers -/

theorem esDigito_iff (c : Char) : esDigito c = true ↔ 48 ≤ c.toNat ∧ c.toNat ≤ 57 := by
  simp [esDigito]

theorem valorDigito_le_nine (c : Char) (h : esDigito c = true) : valorDigito c ≤ 9 := by
  rw [esDigito_iff] at h
  unfold valorDigito
  omega

theorem esEspacio_of_esDigito (c : Char) (h : esDigito c = true) : esEspacio c = false := by
  rw [esDigito_iff] at h
  have h1 := h.1
  have h2 := h.2
  simp only [esEspacio, Bool.or_eq_false_iff, Bool.and_eq_false_iff, decide_eq_false_iff_not,
    beq_eq_false_iff_ne, ne_eq]
  omega

theorem ne_of_toNat_ne (c d : Char) (h : c.toNat ≠ d.toNat) : c ≠ d := by
  intro hcd
  exact h (by rw [hcd])

theorem guion_of_esDigito (c : Char) (h : esDigito c = true) : (c == '-') = false := by
  rw [esDigito_iff] at h
  have h45 : ('-' : Char).toNat = 45 := by decide
  have : c ≠ '-' := ne_of_toNat_ne c '-' (by omega)
  simpa using this

theorem jsLength_of_digitos (s : JSString) (h : ∀ c ∈ s, esDigito c = true) :
    jsLength s = s.length := by
  induction s with
  | nil => rfl
  | cons c s ih =>
    have hc := (esDigito_iff c).1 (h c (List.mem_cons_self c s))
    have ih1 := ih (fun d hd => h d (List.mem_cons_of_mem c hd))
    unfold jsLength at ih1 ⊢
    have hu : utf16Units c = 1 := by
      unfold utf16Units
      rw [if_pos (by omega)]
    simp only [List.map_cons, List.sum_cons, List.length_cons, hu, ih1]
    omega

theorem filter_limpio_of_digitos (s : JSString) (h : ∀ c ∈ s, esDigito c = true) :
    s.filter (fun c => !(esEspacio c || c == '-')) = s := by
  rw [List.filter_eq_self]
  intro c hc
  simp [esEspacio_of_esDigito c (h c hc), guion_of_esDigito c (h c hc)]

theorem luhnSum_eq (s : JSString) :
    luhnSum s = (((s.reverse.map valorDigito).enum).map pesoLuhn).sum := rfl

/-- The loop of `validarTarjeta`, read from the right end, adds the weighted digits. -/
theorem foldl_pasoLuhn (r : JSString) (h : ∀ c ∈ r, esDigito c = true) (acc k : Nat) (b : Bool)
    (hb : b = true ↔ k % 2 = 1) :
    (r.foldl (fun st c => pasoLuhn c st) (acc, b)).1 =
      acc + (((r.map valorDigito).enumFrom k).map pesoLuhn).sum := by
  induction r generalizing acc k b with
  | nil => simp
  | cons c r ih =>
    have hc := valorDigito_le_nine c (h c (List.mem_cons_self c r))
    have hr : ∀ d ∈ r, esDigito d = true := fun d hd => h d (List.mem_cons_of_mem c hd)
    have hb1 : (!b) = true ↔ (k + 1) % 2 = 1 := by
      cases b with
      | true =>
        have := hb.1 rfl
        simp only [Bool.not_true, Bool.false_eq_true, false_iff]
        omega
      | false =>
        have : ¬ k % 2 = 1 := fun hk => by simpa using hb.2 hk
        simp only [Bool.not_false, true_iff]
        omega
    simp only [List.foldl_cons, List.map_cons, List.enumFrom_cons, List.sum_cons]
    have hstep : pasoLuhn c (acc, b) = (acc + pesoLuhn (k, valorDigito c), !b) := by
      unfold pasoLuhn pesoLuhn
      cases b with
      | true =>
        have hk := hb.1 rfl
        simp only [if_true, hk]
        congr 1
        split_ifs <;> omega
      | false =>
        have hk : ¬ k % 2 = 1 := fun hk => by simpa using hb.2 hk
        simp only [Bool.false_eq_true, if_false, hk]
    rw [hstep, ih hr (acc + pesoLuhn (k, valorDigito c)) (k + 1) (!b) hb1]
    omega

theorem foldr_pasoLuhn (s : JSString) (h : ∀ c ∈ s, esDigito c = true) :
    (s.foldr pasoLuhn (0, false)).1 = luhnSum s := by
  have h1 : s.foldr pasoLuhn (0, false) = s.reverse.foldl (fun st c => pasoLuhn c st) (0, false) := by
    rw [List.foldl_reverse]
  have hr : ∀ c ∈ s.reverse, esDigito c = true := fun c hc => h c (List.mem_reverse.1 hc)
  rw [h1, foldl_pasoLuhn s.reverse hr 0 0 false (by simp), luhnSum_eq, List.enum]
  omega

/-- C1. On a string of 13 to 19 decimal digits `validarTarjeta` returns true exactly when the
Luhn sum of the string (every second digit from the right doubled, 9 taken off a doubled
digit above 9, all digits added) is divisible by 10; `4532015112830366` is accepted and
`4532015112830367` is rejected. -/
theorem validarTarjeta_luhn :
    (∀ s : JSString, (∀ c ∈ s, esDigito c = true) → 13 ≤ s.length → s.length ≤ 19 →
      (validarTarjeta s = true ↔ luhnSum s % 10 = 0)) ∧
    validarTarjeta "4532015112830366".toList = true ∧
    validarTarjeta "4532015112830367".toList = false := by
  refine ⟨?_, by decide, by decide⟩
  intro s hs h13 h19
  have hne : s ≠ [] := by
    intro h0
    rw [h0] at h13
    simp at h13
  have htest : RegExp.test patronSoloNumeros s = true :=
    (RegExp.test_plus_cls_iff esDigito s).2 ⟨hne, hs⟩
  unfold validarTarjeta
  simp only [filter_limpio_of_digitos s hs, jsLength_of_digitos s hs, htest, Bool.not_true,
    Bool.false_eq_true, if_false, foldr_pasoLuhn s hs]
  rw [if_neg (by omega)]
  simp

/-- C1 at a concrete card number of 16 digits. -/
theorem validarTarjeta_luhn_witness :
    (validarTarjeta "4532015112830366".toList = true ↔
      luhnSum "4532015112830366".toList % 10 = 0) :=
  validarTarjeta_luhn.1 "4532015112830366".toList (by decide) (by decide) (by decide)

end Sway

namespace Sway

/-! ## Expiry dates -/

theorem inLeapYear_cases (y : Int) : inLeapYear y = 0 ∨ inLeapYear y = 1 := by
  unfold inLeapYear
  split_ifs <;> simp

theorem dayFromYear_succ (y : Int) : dayFromYear (y + 1) = dayFromYear y + 365 + inLeapYear y := by
  unfold dayFromYear inLeapYear
  split_ifs <;> omega

theorem dayFromYear_mono (y z : Int) (h : y ≤ z) : dayFromYear y ≤ dayFromYear z := by
  unfold dayFromYear
  omega

theorem diasAntesDeMes_nonneg (y : Int) (m : Nat) (h1 : 1 ≤ m) (h2 : m ≤ 12) :
    0 ≤ diasAntesDeMes y ((m : Int) - 1) := by
  rcases inLeapYear_cases y with hl | hl <;>
    interval_cases m <;> simp [diasAntesDeMes, hl]

theorem fin_de_mes_le (y : Int) (m : Nat) (h1 : 1 ≤ m) (h2 : m ≤ 12) :
    diasAntesDeMes y ((m : Int) - 1) + (diasEnMes y m : Int) ≤ 365 + inLeapYear y := by
  rcases inLeapYear_cases y with hl | hl <;>
    interval_cases m <;> simp [diasAntesDeMes, diasEnMes, hl]

theorem fin_de_mes_le_inicio (y : Int) (m : Nat) (h1 : 1 ≤ m) (h2 : m < 12) :
    diasAntesDeMes y ((m : Int) - 1) + (diasEnMes y m : Int) ≤
      diasAntesDeMes y ((m : Int) + 1 - 1) := by
  rcases inLeapYear_cases y with hl | hl <;>
    interval_cases m <;> simp [diasAntesDeMes, diasEnMes, hl]

theorem diasAntesDeMes_mono (y : Int) (m n : Nat) (h1 : 1 ≤ n) (h2 : n ≤ m) (h3 : m ≤ 12) :
    diasAntesDeMes y ((n : Int) - 1) ≤ diasAntesDeMes y ((m : Int) - 1) := by
  rcases inLeapYear_cases y with hl | hl <;>
    interval_cases m <;> interval_cases n <;> simp [diasAntesDeMes, hl]

theorem makeDay_of_mes (y : Int) (m : Nat) (h1 : 1 ≤ m) (h2 : m ≤ 12) (d : Int) :
    makeDay y ((m : Int) - 1) d = dayFromYear y + diasAntesDeMes y ((m : Int) - 1) + d - 1 := by
  have hq : ((m : Int) - 1) / 12 = 0 := by omega
  have hr : ((m : Int) - 1) % 12 = (m : Int) - 1 := by omega
  simp only [makeDay, hq, hr, add_zero]

/-- The first instant of month `M` of year `Y` is after the instant `t` exactly when `t`
falls in an earlier month. -/
theorem nuevaFecha_gt_iff (t : Instante) (ht : t.valido) (Y : Int) (M : Nat)
    (hM1 : 1 ≤ M) (hM2 : M ≤ 12) :
    nuevaFecha Y ((M : Int) - 1) > timeValue t ↔
      (t.anio < Y ∨ (t.anio = Y ∧ t.mes < M)) := by
  obtain ⟨hm1, hm2, hd1, hd2, hms⟩ := ht
  have hd2z : (t.dia : Int) ≤ (diasEnMes t.anio t.mes : Int) := by exact_mod_cast hd2
  have hd1z : (1 : Int) ≤ (t.dia : Int) := by exact_mod_cast hd1
  have hms0 : (0 : Int) ≤ (t.msDelDia : Int) := Int.natCast_nonneg _
  unfold nuevaFecha timeValue
  rw [makeDay_of_mes Y M hM1 hM2, makeDay_of_mes t.anio t.mes hm1 hm2]
  unfold msPerDay at hms ⊢
  have hA0 := diasAntesDeMes_nonneg Y M hM1 hM2
  have hB0 := diasAntesDeMes_nonneg t.anio t.mes hm1 hm2
  have hAfin := fin_de_mes_le Y M hM1 hM2
  have hBfin := fin_de_mes_le t.anio t.mes hm1 hm2
  have hMd : (0 : Int) ≤ (diasEnMes Y M : Int) := Int.natCast_nonneg _
  have hMpos : (1 : Int) ≤ (diasEnMes Y M : Int) := by
    have : 1 ≤ diasEnMes Y M := by
      unfold diasEnMes
      split_ifs <;> omega
    exact_mod_cast this
  rcases lt_trichotomy t.anio Y with hlt | heq | hgt
  · have h1 := dayFromYear_succ t.anio
    have h2 := dayFromYear_mono (t.anio + 1) Y (by omega)
    constructor
    · intro _
      exact Or.inl hlt
    · intro _
      omega
  · rw [heq] at hB0 hBfin hd2z ⊢
    by_cases hmM : t.mes < M
    · have h1 := fin_de_mes_le_inicio Y t.mes hm1 (by omega)
      have h2 := diasAntesDeMes_mono Y M (t.mes + 1) (by omega) (by omega) hM2
      have h3 : ((t.mes + 1 : Nat) : Int) - 1 = (t.mes : Int) + 1 - 1 := by push_cast; ring
      rw [h3] at h2
      constructor
      · intro _
        exact Or.inr ⟨rfl, hmM⟩
      · intro _
        omega
    · have h1 := diasAntesDeMes_mono Y t.mes M hM1 (by omega) hm2
      constructor
      · intro h
        omega
      · rintro (h | ⟨_, h⟩)
        · omega
        · exact absurd h hmM
  · have h1 := dayFromYear_succ Y
    have h2 := dayFromYear_mono (Y + 1) t.anio (by omega)
    have hl := inLeapYear_cases Y
    constructor
    · intro h
      omega
    · rintro (h | ⟨h, _⟩) <;> omega

theorem char_eq_ofNat (c : Char) (n : Nat) (h : c.toNat = n) : c = Char.ofNat n := by
  rw [← h, Char.ofNat_toNat]

theorem test_patronFechaVencimiento_iff (f : JSString) :
    RegExp.test patronFechaVencimiento f = true ↔
      ∃ m1 m2 a1 a2 : Char, f = [m1, m2, '/', a1, a2] ∧
        ((m1 = '0' ∧ 49 ≤ m2.toNat ∧ m2.toNat ≤ 57) ∨
          (m1 = '1' ∧ 48 ≤ m2.toNat ∧ m2.toNat ≤ 50)) ∧
        esDigito a1 = true ∧ esDigito a2 = true := by
  rw [RegExp.test_iff]
  simp only [patronFechaVencimiento, RegExp.lit, RegExp.matches_seq_iff, RegExp.matches_alt_iff,
    RegExp.matches_cls_iff]
  constructor
  · rintro ⟨s, t, rfl, hmes, u, v, rfl, ⟨c3, rfl, h3⟩, w, x, rfl, ⟨c4, rfl, h4⟩, ⟨c5, rfl, h5⟩⟩
    have h3e : c3 = '/' := by simpa using h3
    subst h3e
    rcases hmes with ⟨s1, t1, rfl, ⟨c1, rfl, h1⟩, ⟨c2, rfl, h2⟩⟩ |
      ⟨s1, t1, rfl, ⟨c1, rfl, h1⟩, ⟨c2, rfl, h2⟩⟩
    · have h1e : c1 = '0' := by simpa using h1
      simp only [Bool.and_eq_true, decide_eq_true_eq] at h2
      exact ⟨c1, c2, c4, c5, rfl, Or.inl ⟨h1e, h2⟩, h4, h5⟩
    · have h1e : c1 = '1' := by simpa using h1
      simp only [Bool.and_eq_true, decide_eq_true_eq] at h2
      exact ⟨c1, c2, c4, c5, rfl, Or.inr ⟨h1e, h2⟩, h4, h5⟩
  · rintro ⟨m1, m2, a1, a2, rfl, hmes, h4, h5⟩
    refine ⟨[m1, m2], ['/', a1, a2], rfl, ?_, ['/'], [a1, a2], rfl, ⟨'/', rfl, by simp⟩,
      [a1], [a2], rfl, ⟨a1, rfl, h4⟩, ⟨a2, rfl, h5⟩⟩
    rcases hmes with ⟨h1, h2⟩ | ⟨h1, h2⟩
    · exact Or.inl ⟨[m1], [m2], rfl, ⟨m1, rfl, by simp [h1]⟩, ⟨m2, rfl, by simp [h2]⟩⟩
    · exact Or.inr ⟨[m1], [m2], rfl, ⟨m1, rfl, by simp [h1]⟩, ⟨m2, rfl, by simp [h2]⟩⟩

/-- The month alternatives of the pattern, read as a number: a two-digit month in 1..12. -/
theorem mes_del_patron_iff (m1 m2 : Char) :
    ((m1 = '0' ∧ 49 ≤ m2.toNat ∧ m2.toNat ≤ 57) ∨ (m1 = '1' ∧ 48 ≤ m2.toNat ∧ m2.toNat ≤ 50)) ↔
      (esDigito m1 = true ∧ esDigito m2 = true ∧
        1 ≤ 10 * valorDigito m1 + valorDigito m2 ∧ 10 * valorDigito m1 + valorDigito m2 ≤ 12) := by
  have h0 : ('0' : Char).toNat = 48 := by decide
  have h1 : ('1' : Char).toNat = 49 := by decide
  simp only [esDigito_iff, valorDigito]
  constructor
  · rintro (⟨rfl, h⟩ | ⟨rfl, h⟩)
    · rw [h0]; omega
    · rw [h1]; omega
  · rintro ⟨ha, hb, hc, hd⟩
    by_cases hm : m1.toNat = 48
    · left
      exact ⟨char_eq_ofNat m1 48 hm, by omega⟩
    · right
      have hm9 : m1.toNat = 49 := by omega
      exact ⟨char_eq_ofNat m1 49 hm9, by omega⟩

theorem ne_barra_of_esDigito (c : Char) (h : esDigito c = true) : c ≠ '/' := by
  rw [esDigito_iff] at h
  have h47 : ('/' : Char).toNat = 47 := by decide
  exact ne_of_toNat_ne c '/' (by omega)

theorem split_mm_yy (m1 m2 a1 a2 : Char) (h1 : esDigito m1 = true) (h2 : esDigito m2 = true)
    (h3 : esDigito a1 = true) (h4 : esDigito a2 = true) :
    split '/' [m1, m2, '/', a1, a2] = [[m1, m2], [a1, a2]] := by
  simp [split, ne_barra_of_esDigito m1 h1, ne_barra_of_esDigito m2 h2,
    ne_barra_of_esDigito a1 h3, ne_barra_of_esDigito a2 h4]

theorem formaMMYY_eq_some_iff (f : JSString) (mm yy : Nat) :
    formaMMYY f = some (mm, yy) ↔
      ∃ m1 m2 a1 a2 : Char, f = [m1, m2, '/', a1, a2] ∧
        esDigito m1 = true ∧ esDigito m2 = true ∧ esDigito a1 = true ∧ esDigito a2 = true ∧
        mm = 10 * valorDigito m1 + valorDigito m2 ∧ yy = 10 * valorDigito a1 + valorDigito a2 := by
  constructor
  · intro h
    match f, h with
    | [m1, m2, barra, a1, a2], h =>
      simp only [formaMMYY] at h
      split_ifs at h with hc
      simp only [Bool.and_eq_true, beq_iff_eq] at hc
      obtain ⟨⟨⟨⟨h1, h2⟩, rfl⟩, h3⟩, h4⟩ := hc
      simp only [Option.some.injEq, Prod.mk.injEq] at h
      exact ⟨m1, m2, a1, a2, rfl, h1, h2, h3, h4, h.1.symm, h.2.symm⟩
  · rintro ⟨m1, m2, a1, a2, rfl, h1, h2, h3, h4, rfl, rfl⟩
    simp [formaMMYY, h1, h2, h3, h4]

/-- C2. For every string and every current instant, `validarFechaVencimiento` returns true
exactly when the string has the form MM/YY with MM in 01..12 and the pair (2000+YY, MM)
is lexicographically greater than (current year, current month); an expiry in the current
month of the current year is rejected. -/
theorem validarFechaVencimiento_iff (ahora : Instante) (hv : ahora.valido) (f : JSString) :
    validarFechaVencimiento ahora f = true ↔
      ∃ mm yy : Nat, formaMMYY f = some (mm, yy) ∧ 1 ≤ mm ∧ mm ≤ 12 ∧
        (ahora.anio < 2000 + (yy : Int) ∨ (ahora.anio = 2000 + (yy : Int) ∧ ahora.mes < mm)) := by
  simp only [formaMMYY_eq_some_iff]
  unfold validarFechaVencimiento
  by_cases ht : RegExp.test patronFechaVencimiento f = true
  · obtain ⟨m1, m2, a1, a2, rfl, hmes, h3, h4⟩ := (test_patronFechaVencimiento_iff f).1 ht
    obtain ⟨h1, h2, hlo, hhi⟩ := (mes_del_patron_iff m1 m2).1 hmes
    have hmm : parseIntDigitos [m1, m2] = 10 * valorDigito m1 + valorDigito m2 := by
      simp [parseIntDigitos]
    have hyy : parseIntDigitos [a1, a2] = 10 * valorDigito a1 + valorDigito a2 := by
      simp [parseIntDigitos]
    simp only [ht, Bool.not_true, Bool.false_eq_true, if_false, split_mm_yy m1 m2 a1 a2 h1 h2 h3 h4,
      List.getD_cons_zero, List.getD_cons_succ, hmm, hyy, decide_eq_true_eq]
    rw [nuevaFecha_gt_iff ahora hv _ (10 * valorDigito m1 + valorDigito m2) hlo hhi]
    constructor
    · intro h
      exact ⟨_, _, ⟨m1, m2, a1, a2, rfl, h1, h2, h3, h4, rfl, rfl⟩, hlo, hhi, h⟩
    · rintro ⟨mm, yy, ⟨n1, n2, b1, b2, hf, _, _, _, _, rfl, rfl⟩, _, _, h⟩
      simp only [List.cons.injEq, and_true] at hf
      obtain ⟨rfl, rfl, _, rfl, rfl⟩ := hf
      exact h
  · simp only [ht, Bool.not_false, if_true, Bool.false_eq_true, false_iff]
    rintro ⟨mm, yy, ⟨n1, n2, b1, b2, rfl, g1, g2, g3, g4, rfl, rfl⟩, hlo, hhi, _⟩
    exact ht ((test_patronFechaVencimiento_iff _).2
      ⟨n1, n2, b1, b2, rfl, (mes_del_patron_iff n1 n2).2 ⟨g1, g2, hlo, hhi⟩, g3, g4⟩)

/-- C2 on 6 November 2026: `12/26` is accepted through the theorem, from its form and the
comparison of (2026, 12) with (2026, 11); `11/26`, the current month, is rejected. -/
theorem validarFechaVencimiento_iff_witness :
    Instante.valido ⟨2026, 11, 6, 0⟩ ∧
    validarFechaVencimiento ⟨2026, 11, 6, 0⟩ "12/26".toList = true ∧
    validarFechaVencimiento ⟨2026, 11, 6, 0⟩ "11/26".toList = false :=
  ⟨by decide,
   (validarFechaVencimiento_iff ⟨2026, 11, 6, 0⟩ (by decide) "12/26".toList).2
     ⟨12, 26, by decide, by decide, by decide, Or.inr ⟨by decide, by decide⟩⟩,
   by decide⟩

end Sway

namespace Sway

/-! ## Order of evaluation in `validarCampo` -/

theorem validarCampo_fst_of_ne (h : Host) (campo : Campo) (tipo : String) (opciones : Opciones)
    (hne : trim campo.value ≠ []) :
    (validarCampo h campo tipo opciones).1 = (reglaPorTipo h tipo opciones (trim campo.value)).1 := by
  have he : (trim campo.value).isEmpty = false := by
    cases hv : trim campo.value with
    | nil => exact absurd hv hne
    | cons c s => rfl
  unfold validarCampo
  simp only [he, Bool.and_false, Bool.false_and, Bool.false_eq_true, if_false]
  split_ifs with hr
  · exact hr.symm
  · simpa using hr

/-- C3. With an empty trimmed value `validarCampo` returns false and shows the message
"required" when the field is required (attribute or option), and returns true when it is
not, whatever the rule type, the other options and the host are; with a non-empty trimmed
value the returned boolean is the one of the check that the rule type selects. -/
theorem validarCampo_orden (h : Host) (campo : Campo) (tipo : String) (opciones : Opciones) :
    (trim campo.value = [] → (campo.required || opciones.requerido) = true →
      validarCampo h campo tipo opciones =
        (false, mostrarError (limpiarValidacion campo) "Este campo es obligatorio")) ∧
    (trim campo.value = [] → (campo.required || opciones.requerido) = false →
      validarCampo h campo tipo opciones = (true, limpiarValidacion campo)) ∧
    (trim campo.value ≠ [] →
      (tipo = "soloTexto" →
        (validarCampo h campo tipo opciones).1 = RegExp.test patronSoloTexto (trim campo.value)) ∧
      (tipo = "urlFlexible" →
        (validarCampo h campo tipo opciones).1 = RegExp.test patronUrlFlexible (trim campo.value)) ∧
      (tipo = "soloNumeros" →
        (validarCampo h campo tipo opciones).1 = RegExp.test patronSoloNumeros (trim campo.value)) ∧
      (tipo = "numerosDecimales" →
        (validarCampo h campo tipo opciones).1 =
          RegExp.test patronNumerosDecimales (trim campo.value)) ∧
      (tipo = "email" →
        (validarCampo h campo tipo opciones).1 = RegExp.test patronEmail (trim campo.value)) ∧
      (tipo = "telefono" →
        (validarCampo h campo tipo opciones).1 =
          (RegExp.test patronTelefono (trim campo.value) &&
            decide (jsLength (trim campo.value) ≥ 10))) ∧
      (tipo = "tarjeta" →
        (validarCampo h campo tipo opciones).1 = validarTarjeta (trim campo.value)) ∧
      (tipo = "fechaVencimiento" →
        (validarCampo h campo tipo opciones).1 =
          validarFechaVencimiento h.ahora (trim campo.value)) ∧
      (tipo = "cvv" →
        (validarCampo h campo tipo opciones).1 = RegExp.test patronCvv (trim campo.value)) ∧
      (tipo = "fechaFutura" →
        (validarCampo h campo tipo opciones).1 = validarFechaFutura h (trim campo.value)) ∧
      (tipo = "fechaPasada" →
        (validarCampo h campo tipo opciones).1 = validarFechaPasada h (trim campo.value)) ∧
      (tipo = "latitud" →
        (validarCampo h campo tipo opciones).1 = validarLatitud h (trim campo.value)) ∧
      (tipo = "longitud" →
        (validarCampo h campo tipo opciones).1 = validarLongitud h (trim campo.value)) ∧
      (tipo = "password" →
        (validarCampo h campo tipo opciones).1 = decide (jsLength (trim campo.value) ≥ 6)) ∧
      (tipo = "confirmPassword" →
        (∀ passwordField, opciones.passwordField = some passwordField →
          (validarCampo h campo tipo opciones).1 =
            (decide (trim campo.value = passwordField.value) &&
              decide (jsLength (trim campo.value) ≥ 6))) ∧
        (opciones.passwordField = none →
          (validarCampo h campo tipo opciones).1 = decide (jsLength (trim campo.value) ≥ 6))) ∧
      (tipo ∉ ["soloTexto", "urlFlexible", "soloNumeros", "numerosDecimales", "email", "telefono",
          "tarjeta", "fechaVencimiento", "cvv", "fechaFutura", "fechaPasada", "latitud",
          "longitud", "password", "confirmPassword"] →
        (validarCampo h campo tipo opciones).1 = true)) := by
  refine ⟨?_, ?_, ?_⟩
  · intro hv hr
    unfold validarCampo
    simp only [hv, hr, List.isEmpty_nil, Bool.and_self, if_true]
    rfl
  · intro hv hr
    unfold validarCampo
    simp [hv, hr]
  · intro hne
    rw [validarCampo_fst_of_ne h campo tipo opciones hne]
    refine ⟨?_, ?_, ?_, ?_, ?_, ?_, ?_, ?_, ?_, ?_, ?_, ?_, ?_, ?_, ?_, ?_⟩
    · rintro rfl; rfl
    · rintro rfl; rfl
    · rintro rfl; rfl
    · rintro rfl; rfl
    · rintro rfl; rfl
    · rintro rfl; rfl
    · rintro rfl; rfl
    · rintro rfl; rfl
    · rintro rfl; rfl
    · rintro rfl; rfl
    · rintro rfl; rfl
    · rintro rfl; rfl
    · rintro rfl; rfl
    · rintro rfl; rfl
    · rintro rfl
      constructor
      · intro pf hpf
        simp [reglaPorTipo, hpf]
      · intro hpf
        simp [reglaPorTipo, hpf]
    · intro hn
      simp only [List.mem_cons, List.mem_singleton, List.not_mem_nil, or_false, not_or] at hn
      obtain ⟨h1, h2, h3, h4, h5, h6, h7, h8, h9, h10, h11, h12, h13, h14, h15⟩ := hn
      simp [reglaPorTipo, h1, h2, h3, h4, h5, h6, h7, h8, h9, h10, h11, h12, h13, h14, h15]

/-- C3 at concrete fields: a blank required field, a blank optional field, and a filled
e-mail field. -/
theorem validarCampo_orden_witness :
    validarCampo ⟨⟨2026, 11, 6, 0⟩, fun _ => none, fun _ => none⟩
        ⟨[' ', ' '], true, [], []⟩ "email" ⟨false, none⟩ =
      (false, mostrarError (limpiarValidacion ⟨[' ', ' '], true, [], []⟩)
        "Este campo es obligatorio") ∧
    validarCampo ⟨⟨2026, 11, 6, 0⟩, fun _ => none, fun _ => none⟩
        ⟨[' ', ' '], false, [], []⟩ "email" ⟨false, none⟩ =
      (true, limpiarValidacion ⟨[' ', ' '], false, [], []⟩) ∧
    (validarCampo ⟨⟨2026, 11, 6, 0⟩, fun _ => none, fun _ => none⟩
        ⟨[' ', 'a', '@', 'b', '.', 'c'], false, [], []⟩ "email" ⟨false, none⟩).1 =
      RegExp.test patronEmail (trim [' ', 'a', '@', 'b', '.', 'c']) :=
  ⟨(validarCampo_orden ⟨⟨2026, 11, 6, 0⟩, fun _ => none, fun _ => none⟩
      ⟨[' ', ' '], true, [], []⟩ "email" ⟨false, none⟩).1 (by decide) (by decide),
   (validarCampo_orden ⟨⟨2026, 11, 6, 0⟩, fun _ => none, fun _ => none⟩
      ⟨[' ', ' '], false, [], []⟩ "email" ⟨false, none⟩).2.1 (by decide) (by decide),
   ((validarCampo_orden ⟨⟨2026, 11, 6, 0⟩, fun _ => none, fun _ => none⟩
      ⟨[' ', 'a', '@', 'b', '.', 'c'], false, [], []⟩ "email" ⟨false, none⟩).2.2
        (by decide)).2.2.2.2.1 rfl⟩

end Sway

namespace Sway

/-! ## The cart -/

@[simp] theorem carrito_showNotification (m : String) (s : Tienda) :
    (showNotification m s).carrito = s.carrito := rfl

@[simp] theorem carrito_updateCartCounter (s : Tienda) :
    (updateCartCounter s).carrito = s.carrito := rfl

@[simp] theorem carrito_updateCartModal (s : Tienda) :
    (updateCartModal s).carrito = s.carrito := by
  unfold updateCartModal
  split_ifs <;> rfl

@[simp] theorem carrito_updateCartUI (s : Tienda) : (updateCartUI s).carrito = s.carrito := by
  unfold updateCartUI
  simp

theorem carrito_removeFromCart (id : Int) (s : Tienda) :
    (removeFromCart id s).carrito = s.carrito.filter (fun item => item.id != id) := by
  simp [removeFromCart]

theorem carrito_clearCart (s : Tienda) : (clearCart s).carrito = [] := by
  simp [clearCart]

theorem map_id_sumarCantidad (id q : Int) (c : List CartItem) :
    (sumarCantidad id q c).map (fun item => item.id) = c.map (fun item => item.id) := by
  induction c with
  | nil => rfl
  | cons x c ih =>
    unfold sumarCantidad
    split_ifs with hx
    · simp
    · simp [ih]

theorem map_id_fijarCantidad (id q : Int) (c : List CartItem) :
    (fijarCantidad id q c).map (fun item => item.id) = c.map (fun item => item.id) := by
  induction c with
  | nil => rfl
  | cons x c ih =>
    unfold fijarCantidad
    split_ifs with hx
    · simp
    · simp [ih]

theorem find_none_iff (id : Int) (c : List CartItem) :
    c.find? (fun item => item.id == id) = none ↔ ∀ x ∈ c, x.id ≠ id := by
  simp [List.find?_eq_none]

theorem sinDuplicados_filter (c : List CartItem) (p : CartItem → Bool) (h : SinDuplicados c) :
    SinDuplicados (c.filter p) := by
  unfold SinDuplicados at h ⊢
  exact List.Nodup.sublist (List.Sublist.map _ (List.filter_sublist c)) h

theorem sinDuplicados_append (c : List CartItem) (x : CartItem) (h : SinDuplicados c)
    (hx : ∀ y ∈ c, y.id ≠ x.id) : SinDuplicados (c ++ [x]) := by
  unfold SinDuplicados at h ⊢
  rw [List.map_append, List.nodup_append]
  refine ⟨h, by simp, ?_⟩
  intro a ha hb
  simp only [List.map_cons, List.map_nil, List.mem_singleton] at hb
  obtain ⟨y, hy, rfl⟩ := List.mem_map.1 ha
  exact hx y hy hb

theorem sinDuplicados_agregarUno (c : List CartItem) (p : ProductoPedido) (h : SinDuplicados c) :
    SinDuplicados (agregarUno c p) := by
  unfold agregarUno
  cases hf : c.find? (fun item => item.id == p.id) with
  | some x =>
    simp only
    unfold SinDuplicados
    rw [map_id_sumarCantidad]
    exact h
  | none =>
    simp only
    exact sinDuplicados_append c _ h ((find_none_iff p.id c).1 hf)

theorem sinDuplicados_foldl_agregarUno (ps : List ProductoPedido) (c : List CartItem)
    (h : SinDuplicados c) : SinDuplicados (ps.foldl agregarUno c) := by
  induction ps generalizing c with
  | nil => exact h
  | cons p ps ih => exact ih (agregarUno c p) (sinDuplicados_agregarUno c p h)

theorem getItem_setItem (k : String) (v : Valor) (st : Storage) :
    getItem k (setItem k v st) = some v := by
  simp [getItem, setItem]

theorem carrito_addToCart (id q : Int) (s : Tienda) :
    (addToCart id q s).carrito =
      match s.productos.find? (fun p => p.id == id) with
      | none => s.carrito
      | some product =>
        match s.carrito.find? (fun item => item.id == id) with
        | some _ => sumarCantidad id q s.carrito
        | none => s.carrito ++ [⟨product.id, product.name, product.price, product.image_url, q⟩] := by
  unfold addToCart
  cases s.productos.find? (fun p => p.id == id) with
  | none => rfl
  | some product => simp

theorem id_of_find_producto (id : Int) (ps : List Product) (p : Product)
    (h : ps.find? (fun p => p.id == id) = some p) : p.id = id := by
  have := List.find?_some h
  simpa using this

theorem sinDuplicados_addToCart (id q : Int) (s : Tienda) (h : SinDuplicados s.carrito) :
    SinDuplicados (addToCart id q s).carrito := by
  rw [carrito_addToCart]
  cases hp : s.productos.find? (fun p => p.id == id) with
  | none => exact h
  | some product =>
    cases hf : s.carrito.find? (fun item => item.id == id) with
    | some x =>
      simp only
      unfold SinDuplicados
      rw [map_id_sumarCantidad]
      exact h
    | none =>
      simp only
      refine sinDuplicados_append s.carrito _ h ?_
      intro y hy
      simp only [id_of_find_producto id s.productos product hp]
      exact (find_none_iff id s.carrito).1 hf y hy

theorem sinDuplicados_updateCartQuantity (id q : Int) (s : Tienda) (h : SinDuplicados s.carrito) :
    SinDuplicados (updateCartQuantity id q s).carrito := by
  unfold updateCartQuantity
  cases hf : s.carrito.find? (fun item => item.id == id) with
  | none => exact h
  | some x =>
    simp only
    split_ifs with hq
    · rw [carrito_removeFromCart]
      exact sinDuplicados_filter _ _ h
    · rw [carrito_updateCartUI]
      unfold SinDuplicados
      rw [map_id_fijarCantidad]
      exact h

/-- C4. From a cart with at most one line per id, each of `addToCart`, `removeFromCart`,
`updateCartQuantity` and `clearCart` leaves a cart with at most one line per id, and so
does `agregarProductosAlCarrito` on the stored cart for every product list, repeated ids
included. -/
theorem carrito_sin_duplicados (s : Tienda) (hs : SinDuplicados s.carrito) :
    (∀ id q, SinDuplicados (addToCart id q s).carrito) ∧
    (∀ id, SinDuplicados (removeFromCart id s).carrito) ∧
    (∀ id q, SinDuplicados (updateCartQuantity id q s).carrito) ∧
    SinDuplicados (clearCart s).carrito ∧
    (∀ (productos : List ProductoPedido) (st : Storage),
      leerCarrito st = some s.carrito →
        ∃ c, leerCarrito (agregarProductosAlCarrito productos st) = some c ∧ SinDuplicados c) := by
  refine ⟨fun id q => sinDuplicados_addToCart id q s hs, ?_,
    fun id q => sinDuplicados_updateCartQuantity id q s hs, ?_, ?_⟩
  · intro id
    rw [carrito_removeFromCart]
    exact sinDuplicados_filter _ _ hs
  · rw [carrito_clearCart]
    exact List.nodup_nil
  · intro productos st hst
    refine ⟨productos.foldl agregarUno s.carrito, ?_, sinDuplicados_foldl_agregarUno _ _ hs⟩
    unfold agregarProductosAlCarrito
    rw [hst]
    simp only [leerCarrito, getItem_setItem]

/-- C4 on a cart with one line, reordered with a product list that repeats an id. -/
theorem carrito_sin_duplicados_witness :
    SinDuplicados (addToCart 7 1 tiendaInicial).carrito ∧
    SinDuplicados (addToCart 7 3 (addToCart 7 1 tiendaInicial)).carrito ∧
    (∃ c, leerCarrito (agregarProductosAlCarrito
        [⟨9, "Gorra", 80, "gorra.png", 1⟩, ⟨9, "Gorra", 80, "gorra.png", 2⟩, ⟨7, "Botella", 120, "b.png", 1⟩]
        (addToCart 7 1 tiendaInicial).localStorage) = some c ∧ SinDuplicados c) :=
  ⟨by decide,
   (carrito_sin_duplicados (addToCart 7 1 tiendaInicial) (by decide)).1 7 3,
   (carrito_sin_duplicados (addToCart 7 1 tiendaInicial) (by decide)).2.2.2.2 _ _ (by decide)⟩

end Sway

namespace Sway

/-! ## Adding, removing and changing quantities -/

theorem sumarCantidad_split (id q : Int) (c : List CartItem) (h : ∃ l ∈ c, l.id = id) :
    ∃ pre l post, c = pre ++ l :: post ∧ l.id = id ∧ (∀ x ∈ pre, x.id ≠ id) ∧
      sumarCantidad id q c = pre ++ { l with quantity := l.quantity + q } :: post := by
  induction c with
  | nil =>
    obtain ⟨l, hl, _⟩ := h
    simp at hl
  | cons x c ih =>
    by_cases hx : x.id = id
    · refine ⟨[], x, c, rfl, hx, by simp, ?_⟩
      simp [sumarCantidad, hx]
    · have h1 : ∃ l ∈ c, l.id = id := by
        obtain ⟨l, hl, hid⟩ := h
        rcases List.mem_cons.1 hl with rfl | hl
        · exact absurd hid hx
        · exact ⟨l, hl, hid⟩
      obtain ⟨pre, l, post, hc, hlid, hpre, hs⟩ := ih h1
      refine ⟨x :: pre, l, post, by simp [hc], hlid, ?_, ?_⟩
      · intro y hy
        rcases List.mem_cons.1 hy with rfl | hy
        · exact hx
        · exact hpre y hy
      · simp [sumarCantidad, hx, hs]

theorem find_some_of_mem (id : Int) (c : List CartItem) (h : ∃ l ∈ c, l.id = id) :
    ∃ x, c.find? (fun item => item.id == id) = some x := by
  cases hf : c.find? (fun item => item.id == id) with
  | some x => exact ⟨x, rfl⟩
  | none =>
    obtain ⟨l, hl, hid⟩ := h
    exact absurd hid ((find_none_iff id c).1 hf l hl)

theorem find_producto_of_mem (id : Int) (ps : List Product) (h : ∃ p ∈ ps, p.id = id) :
    ∃ p, ps.find? (fun p => p.id == id) = some p ∧ p.id = id := by
  cases hf : ps.find? (fun p => p.id == id) with
  | some p => exact ⟨p, rfl, id_of_find_producto id ps p hf⟩
  | none =>
    obtain ⟨p, hp, hid⟩ := h
    have := List.find?_eq_none.1 hf p hp
    simp [hid] at this

/-- C5. With the id in the catalog and no line for it in the cart, two calls of
`addToCart(id, 1)` leave the old lines followed by one line for the id, of quantity 2, and
that is the only line for the id; on a cart that has a line for the id, `addToCart(id, q)`
adds `q` to the quantity of that line and keeps every other line and the number of lines;
with an id that is not in the catalog nothing changes. -/
theorem addToCart_lineas (s : Tienda) (id : Int) :
    ((∃ p ∈ s.productos, p.id = id) → (∀ l ∈ s.carrito, l.id ≠ id) →
      (∃ l, (addToCart id 1 (addToCart id 1 s)).carrito = s.carrito ++ [l] ∧
        l.id = id ∧ l.quantity = 2) ∧
      ((addToCart id 1 (addToCart id 1 s)).carrito.filter (fun l => l.id == id)).length = 1) ∧
    (∀ q : Int, (∃ p ∈ s.productos, p.id = id) → (∃ l ∈ s.carrito, l.id = id) →
      (addToCart id q s).carrito.length = s.carrito.length ∧
      ∃ pre l post, s.carrito = pre ++ l :: post ∧ l.id = id ∧ (∀ x ∈ pre, x.id ≠ id) ∧
        (addToCart id q s).carrito = pre ++ { l with quantity := l.quantity + q } :: post) ∧
    (∀ q : Int, (∀ p ∈ s.productos, p.id ≠ id) → addToCart id q s = s) := by
  refine ⟨?_, ?_, ?_⟩
  · intro hcat hno
    obtain ⟨p, hp, hpid⟩ := find_producto_of_mem id s.productos hcat
    have hnone : s.carrito.find? (fun item => item.id == id) = none :=
      (find_none_iff id s.carrito).2 hno
    have hprod : (addToCart id 1 s).productos = s.productos := by
      simp [addToCart, hp, showNotification, updateCartUI, updateCartModal, updateCartCounter]
      split_ifs <;> rfl
    have h1 : (addToCart id 1 s).carrito = s.carrito ++ [⟨p.id, p.name, p.price, p.image_url, 1⟩] := by
      rw [carrito_addToCart, hp]
      simp only [hnone]
    have hfind : (s.carrito ++ [(⟨p.id, p.name, p.price, p.image_url, 1⟩ : CartItem)]).find?
        (fun item => item.id == id) = some ⟨p.id, p.name, p.price, p.image_url, 1⟩ := by
      rw [List.find?_append, hnone]
      simp [hpid]
    have hsum : sumarCantidad id 1 (s.carrito ++ [(⟨p.id, p.name, p.price, p.image_url, 1⟩ : CartItem)]) =
        s.carrito ++ [⟨p.id, p.name, p.price, p.image_url, 2⟩] := by
      have hgen : ∀ c : List CartItem, (∀ l ∈ c, l.id ≠ id) →
          sumarCantidad id 1 (c ++ [(⟨p.id, p.name, p.price, p.image_url, 1⟩ : CartItem)]) =
            c ++ [⟨p.id, p.name, p.price, p.image_url, 2⟩] := by
        intro c hc
        induction c with
        | nil => simp [sumarCantidad, hpid]
        | cons x c ih =>
          have hx : x.id ≠ id := hc x (List.mem_cons_self x c)
          simp [sumarCantidad, hx, ih (fun l hl => hc l (List.mem_cons_of_mem x hl))]
      exact hgen s.carrito hno
    have h2 : (addToCart id 1 (addToCart id 1 s)).carrito =
        s.carrito ++ [⟨p.id, p.name, p.price, p.image_url, 2⟩] := by
      rw [carrito_addToCart, hprod, hp, h1]
      simp only [hfind, hsum]
    refine ⟨⟨_, h2, hpid, rfl⟩, ?_⟩
    rw [h2, List.filter_append]
    have hf0 : s.carrito.filter (fun l => l.id == id) = [] := by
      rw [List.filter_eq_nil_iff]
      intro l hl
      simpa using hno l hl
    simp [hf0, hpid]
  · intro q hcat hline
    obtain ⟨p, hp, _⟩ := find_producto_of_mem id s.productos hcat
    obtain ⟨x, hx⟩ := find_some_of_mem id s.carrito hline
    have hc : (addToCart id q s).carrito = sumarCantidad id q s.carrito := by
      rw [carrito_addToCart, hp]
      simp only [hx]
    obtain ⟨pre, l, post, hsplit, hlid, hpre, hs⟩ := sumarCantidad_split id q s.carrito hline
    refine ⟨?_, pre, l, post, hsplit, hlid, hpre, hc.trans hs⟩
    rw [hc, hs, hsplit]
    simp
  · intro q hno
    have hnone : s.productos.find? (fun p => p.id == id) = none := by
      rw [List.find?_eq_none]
      intro p hp
      simpa using hno p hp
    unfold addToCart
    rw [hnone]

/-- C5 on the shop with product 7: added twice to the empty cart, then once more. -/
theorem addToCart_lineas_witness :
    ((∃ l, (addToCart 7 1 (addToCart 7 1 tiendaInicial)).carrito = tiendaInicial.carrito ++ [l] ∧
        l.id = 7 ∧ l.quantity = 2) ∧
      ((addToCart 7 1 (addToCart 7 1 tiendaInicial)).carrito.filter
        (fun l => l.id == 7)).length = 1) ∧
    (addToCart 7 5 (addToCart 7 1 tiendaInicial)).carrito.length =
      (addToCart 7 1 tiendaInicial).carrito.length ∧
    addToCart 8 1 tiendaInicial = tiendaInicial :=
  ⟨(addToCart_lineas tiendaInicial 7).1 (by decide) (by decide),
   ((addToCart_lineas (addToCart 7 1 tiendaInicial) 7).2.1 5 (by decide) (by decide)).1,
   (addToCart_lineas tiendaInicial 8).2.2 1 (by decide)⟩

/-- C6. For a quantity that is zero or negative, `updateCartQuantity` leaves the cart with
the same lines as `removeFromCart`, whether or not the cart has a line for the id. -/
theorem updateCartQuantity_no_positiva (s : Tienda) (id q : Int) (hq : q ≤ 0) :
    (updateCartQuantity id q s).carrito = (removeFromCart id s).carrito := by
  unfold updateCartQuantity
  cases hf : s.carrito.find? (fun item => item.id == id) with
  | some x => simp only [hq, if_true]
  | none =>
    simp only
    rw [carrito_removeFromCart]
    symm
    rw [List.filter_eq_self]
    intro l hl
    simpa using (find_none_iff id s.carrito).1 hf l hl

/-- C6 on a cart with a line for 7: quantity 0 for 7 (present) and for 8 (absent). -/
theorem updateCartQuantity_no_positiva_witness :
    (updateCartQuantity 7 0 (addToCart 7 2 tiendaInicial)).carrito =
        (removeFromCart 7 (addToCart 7 2 tiendaInicial)).carrito ∧
    (updateCartQuantity 8 (-3) (addToCart 7 2 tiendaInicial)).carrito =
        (removeFromCart 8 (addToCart 7 2 tiendaInicial)).carrito :=
  ⟨updateCartQuantity_no_positiva (addToCart 7 2 tiendaInicial) 7 0 (by decide),
   updateCartQuantity_no_positiva (addToCart 7 2 tiendaInicial) 8 (-3) (by decide)⟩

end Sway

namespace Sway

/-! ## Quantities, totals and persistence -/

theorem cantidades_fijarCantidad (id q : Int) (c : List CartItem) (hq : 1 ≤ q)
    (h : ∀ l ∈ c, 1 ≤ l.quantity) : ∀ l ∈ fijarCantidad id q c, 1 ≤ l.quantity := by
  induction c with
  | nil => simp [fijarCantidad]
  | cons x c ih =>
    have hx : 1 ≤ x.quantity := h x (List.mem_cons_self x c)
    have hc : ∀ l ∈ c, 1 ≤ l.quantity := fun l hl => h l (List.mem_cons_of_mem x hl)
    unfold fijarCantidad
    split_ifs with hid
    · intro l hl
      rcases List.mem_cons.1 hl with rfl | hl
      · exact hq
      · exact hc l hl
    · intro l hl
      rcases List.mem_cons.1 hl with rfl | hl
      · exact hx
      · exact ih hc l hl

/-- The sibling operations keep every quantity at 1 or more: `removeFromCart`, `clearCart`,
and `updateCartQuantity` for every integer, which removes the line at zero or below. -/
theorem cantidades_positivas_sin_addToCart (s : Tienda) (h : ∀ l ∈ s.carrito, 1 ≤ l.quantity) :
    (∀ id, ∀ l ∈ (removeFromCart id s).carrito, 1 ≤ l.quantity) ∧
    (∀ id q, ∀ l ∈ (updateCartQuantity id q s).carrito, 1 ≤ l.quantity) ∧
    (∀ l ∈ (clearCart s).carrito, 1 ≤ l.quantity) := by
  refine ⟨?_, ?_, ?_⟩
  · intro id l hl
    rw [carrito_removeFromCart] at hl
    exact h l (List.mem_of_mem_filter hl)
  · intro id q l hl
    unfold updateCartQuantity at hl
    cases hf : s.carrito.find? (fun item => item.id == id) with
    | none =>
      rw [hf] at hl
      exact h l hl
    | some x =>
      rw [hf] at hl
      simp only at hl
      split_ifs at hl with hq
      · rw [carrito_removeFromCart] at hl
        exact h l (List.mem_of_mem_filter hl)
      · rw [carrito_updateCartUI] at hl
        exact cantidades_fijarCantidad id q s.carrito (by omega) h l hl
  · intro l hl
    rw [carrito_clearCart] at hl
    simp at hl

/-- C7. Every line should keep a quantity of 1 or more, and `addToCart` breaks it: from the
empty cart, adding product 7 from the modal with 0 in the quantity input leaves a line of
quantity 0, and `addToCart(7, -1)` on a line of quantity 1 leaves that line with quantity 0
instead of removing it. -/
theorem addToCart_deja_cantidad_cero :
    (∀ l ∈ tiendaInicial.carrito, 1 ≤ l.quantity) ∧
    (addToCartFromModal 7 0 tiendaInicial).carrito =
      [⟨7, "Botella reutilizable", 120, "botella.png", 0⟩] ∧
    (∀ l ∈ (addToCart 7 1 tiendaInicial).carrito, 1 ≤ l.quantity) ∧
    (addToCart 7 (-1) (addToCart 7 1 tiendaInicial)).carrito =
      [⟨7, "Botella reutilizable", 120, "botella.png", 0⟩] ∧
    ¬ (∀ l ∈ (addToCartFromModal 7 0 tiendaInicial).carrito, 1 ≤ l.quantity) := by
  refine ⟨by decide, by decide, by decide, by decide, by decide⟩

theorem oCero_eq {α : Type} [Zero α] [DecidableEq α] (x : α) : oCero x = x := by
  unfold oCero
  split_ifs with h
  · exact h.symm
  · rfl

@[simp] theorem peticiones_showNotification (m : String) (s : Tienda) :
    (showNotification m s).peticiones = s.peticiones := rfl

@[simp] theorem localStorage_showNotification (m : String) (s : Tienda) :
    (showNotification m s).localStorage = s.localStorage := rfl

@[simp] theorem peticiones_updateCartUI (s : Tienda) :
    (updateCartUI s).peticiones = s.peticiones := by
  unfold updateCartUI updateCartModal
  simp only
  split_ifs <;> rfl

@[simp] theorem localStorage_updateCartUI (s : Tienda) :
    (updateCartUI s).localStorage =
      setItem "carrito" (Valor.carritoJSON s.carrito) s.localStorage := by
  unfold updateCartUI updateCartModal
  simp only
  split_ifs <;> rfl

/-- After `updateCartUI` the storage key `carrito` holds the cart in memory. -/
theorem persistido_updateCartUI (s : Tienda) :
    getItem "carrito" (updateCartUI s).localStorage =
      some (Valor.carritoJSON (updateCartUI s).carrito) := by
  rw [localStorage_updateCartUI, carrito_updateCartUI, getItem_setItem]

/-- C9. Each of `addToCart`, `removeFromCart`, `updateCartQuantity` and `clearCart` issues
no network request, and whenever it changes the cart the value stored under the key
`carrito` is the serialisation of the cart in memory. -/
theorem mutaciones_persisten (s : Tienda) :
    (∀ id q, Persistido s (addToCart id q s)) ∧
    (∀ id, Persistido s (removeFromCart id s)) ∧
    (∀ id q, Persistido s (updateCartQuantity id q s)) ∧
    Persistido s (clearCart s) := by
  have hrem : ∀ id, Persistido s (removeFromCart id s) := by
    intro id
    unfold Persistido removeFromCart
    refine ⟨by simp, fun _ => ?_⟩
    simp only [localStorage_showNotification, carrito_showNotification]
    exact persistido_updateCartUI _
  refine ⟨?_, hrem, ?_, ?_⟩
  · intro id q
    unfold Persistido addToCart
    cases s.productos.find? (fun p => p.id == id) with
    | none => exact ⟨rfl, fun h => absurd rfl h⟩
    | some product =>
      refine ⟨by simp, fun _ => ?_⟩
      simp only [localStorage_showNotification, carrito_showNotification]
      exact persistido_updateCartUI _
  · intro id q
    unfold updateCartQuantity
    cases s.carrito.find? (fun item => item.id == id) with
    | none => exact ⟨rfl, fun h => absurd rfl h⟩
    | some x =>
      simp only
      split_ifs with hq
      · exact hrem id
      · exact ⟨by simp, fun _ => persistido_updateCartUI _⟩
  · unfold Persistido clearCart
    refine ⟨by simp, fun _ => ?_⟩
    simp only [localStorage_showNotification, carrito_showNotification]
    exact persistido_updateCartUI _

/-- C9 on the first addition to the empty cart: the cart changes and is stored. -/
theorem mutaciones_persisten_witness :
    (addToCart 7 1 tiendaInicial).carrito ≠ tiendaInicial.carrito ∧
    (addToCart 7 1 tiendaInicial).peticiones = tiendaInicial.peticiones ∧
    getItem "carrito" (addToCart 7 1 tiendaInicial).localStorage =
      some (Valor.carritoJSON (addToCart 7 1 tiendaInicial).carrito) :=
  ⟨by decide, ((mutaciones_persisten tiendaInicial).1 7 1).1,
   ((mutaciones_persisten tiendaInicial).1 7 1).2 (by decide)⟩

end Sway

namespace Sway

/-! ## Checkout with an empty cart -/

/-- C10, as stated, fails for an anonymous session: with nobody logged in and zero cart
lines, `proceedToCheckout` sets the pending-checkout flag in the session storage. -/
theorem proceedToCheckout_anonimo_marca_intento :
    tiendaInicial.carrito = [] ∧ tiendaInicial.currentUser = none ∧
    getItem "pendingCheckout" tiendaInicial.sessionStorage = none ∧
    getItem "pendingCheckout" (proceedToCheckout tiendaInicial).sessionStorage =
      some (Valor.texto "true") ∧
    (proceedToCheckout tiendaInicial).sessionStorage ≠ tiendaInicial.sessionStorage := by
  refine ⟨by decide, by decide, by decide, by decide, by decide⟩

/-- C10, amended. With zero cart lines `proceedToCheckout` issues no network request and
leaves the cart, the session user and the local storage unchanged, and shows exactly one
notice. For an authenticated session nothing else changes: the state is the old one plus
the notice that the cart is empty. For an anonymous session the login gate comes first:
the notice asks to log in and the session storage is the old one with the
pending-checkout flag set to the text true. -/
theorem proceedToCheckout_carrito_vacio (s : Tienda) (h : s.carrito.length = 0) :
    (proceedToCheckout s).peticiones = s.peticiones ∧
    (proceedToCheckout s).carrito = s.carrito ∧
    (proceedToCheckout s).currentUser = s.currentUser ∧
    (proceedToCheckout s).localStorage = s.localStorage ∧
    (∀ u, s.currentUser = some u →
      proceedToCheckout s = showNotification "Tu carrito está vacío" s ∧
      (proceedToCheckout s).sessionStorage = s.sessionStorage ∧
      (proceedToCheckout s).notificaciones = s.notificaciones ++ ["Tu carrito está vacío"]) ∧
    (s.currentUser = none →
      (proceedToCheckout s).sessionStorage =
        setItem "pendingCheckout" (Valor.texto "true") s.sessionStorage ∧
      (proceedToCheckout s).notificaciones =
        s.notificaciones ++ ["Debes iniciar sesión para realizar una compra"]) := by
  cases hu : s.currentUser with
  | none =>
    have hp : proceedToCheckout s =
        openModal "login-modal" (showNotification "Debes iniciar sesión para realizar una compra"
          { closeModal "cart-modal" s with
            sessionStorage := setItem "pendingCheckout" (Valor.texto "true")
              (closeModal "cart-modal" s).sessionStorage }) := by
      unfold proceedToCheckout
      rw [hu]
    rw [hp]
    refine ⟨rfl, rfl, hu, rfl, ?_, fun _ => ⟨rfl, rfl⟩⟩
    intro u hcontra
    cases hcontra
  | some u =>
    have hp : proceedToCheckout s = showNotification "Tu carrito está vacío" s := by
      unfold proceedToCheckout
      rw [hu]
      simp only
      rw [if_pos h]
    rw [hp]
    refine ⟨rfl, rfl, hu, rfl, fun _ _ => ⟨rfl, rfl, rfl⟩, ?_⟩
    intro hcontra
    cases hcontra

/-- C10 amended, on the empty cart of an authenticated and of an anonymous session. -/
theorem proceedToCheckout_carrito_vacio_witness :
    proceedToCheckout { tiendaInicial with currentUser := some ⟨1, "Ana", "ana@sway.mx"⟩ } =
      showNotification "Tu carrito está vacío"
        { tiendaInicial with currentUser := some ⟨1, "Ana", "ana@sway.mx"⟩ } ∧
    (proceedToCheckout tiendaInicial).peticiones = tiendaInicial.peticiones ∧
    (proceedToCheckout tiendaInicial).sessionStorage =
      setItem "pendingCheckout" (Valor.texto "true") tiendaInicial.sessionStorage :=
  ⟨((proceedToCheckout_carrito_vacio
      { tiendaInicial with currentUser := some ⟨1, "Ana", "ana@sway.mx"⟩ } (by decide)).2.2.2.2.1
        ⟨1, "Ana", "ana@sway.mx"⟩ rfl).1,
   (proceedToCheckout_carrito_vacio tiendaInicial (by decide)).1,
   ((proceedToCheckout_carrito_vacio tiendaInicial (by decide)).2.2.2.2.2 rfl).1⟩

end Sway

namespace Sway

/-! ## Single rules: confirmation, text, telephone, card -/

/-- C14. The confirmation should pass exactly when it equals the password and has 6 or more
characters, white space at the ends included, and `validarCampo` breaks it by trimming only
the confirmation: two fields that both hold ` secreto1` (leading blank) are reported as
different, and the confirmation `secreto1 ` (trailing blank) passes against the password
`secreto1`. -/
theorem confirmPassword_recorta_solo_la_confirmacion :
    validarCampo hostEjemplo ⟨" secreto1".toList, false, [], []⟩ "confirmPassword"
        ⟨false, some ⟨" secreto1".toList, false, [], []⟩⟩ =
      (false, ⟨" secreto1".toList, false, ["campo-error"],
        [⟨"mensaje-error", "Las contraseñas no coinciden"⟩]⟩) ∧
    (validarCampo hostEjemplo ⟨"secreto1 ".toList, false, [], []⟩ "confirmPassword"
        ⟨false, some ⟨"secreto1".toList, false, [], []⟩⟩).1 = true ∧
    "secreto1 ".toList ≠ "secreto1".toList := by
  refine ⟨by decide, by decide, by decide⟩

/-- What `patrones.soloTexto` accepts: non-empty strings over the class `[a-zA-ZÀ-ÿñÑ\s]`. -/
theorem test_patronSoloTexto_iff (v : JSString) :
    RegExp.test patronSoloTexto v = true ↔ v ≠ [] ∧ ∀ c ∈ v, esLetraOEspacio c = true :=
  RegExp.test_plus_cls_iff esLetraOEspacio v

/-- C15. Only letters and spaces should pass the rule `soloTexto`, and the range `À-ÿ` of
the pattern breaks it: the multiplication sign (U+00D7) and the division sign (U+00F7) lie
inside the range, so `×` alone, `a×b` and `a÷b` are accepted. -/
theorem soloTexto_acepta_signos :
    ('×' : Char).toNat = 215 ∧ ('÷' : Char).toNat = 247 ∧
    esLetraOEspacio '×' = true ∧ esLetraOEspacio '÷' = true ∧
    (validarCampo hostEjemplo ⟨['×'], false, [], []⟩ "soloTexto" ⟨false, none⟩).1 = true ∧
    (validarCampo hostEjemplo ⟨['a', '×', 'b'], false, [], []⟩ "soloTexto" ⟨false, none⟩).1 = true ∧
    (validarCampo hostEjemplo ⟨['a', '÷', 'b'], false, [], []⟩ "soloTexto" ⟨false, none⟩).1 = true := by
  refine ⟨by decide, by decide, by decide, by decide, by decide, by decide, by decide⟩

theorem esEspacio_lt (c : Char) (h : esEspacio c = true) : c.toNat < 65536 := by
  simp only [esEspacio, Bool.or_eq_true, Bool.and_eq_true, decide_eq_true_eq, beq_iff_eq] at h
  omega

theorem utf16Units_esCaracterTelefono (c : Char) (h : esCaracterTelefono c = true) :
    utf16Units c = 1 := by
  have hlt : c.toNat < 65536 := by
    simp only [esCaracterTelefono, Bool.or_eq_true, beq_iff_eq] at h
    rcases h with (((hd | hs) | hg) | hp) | hq
    · have := (esDigito_iff c).1 hd
      omega
    · exact esEspacio_lt c hs
    · rw [hg]; decide
    · rw [hp]; decide
    · rw [hq]; decide
  unfold utf16Units
  rw [if_pos hlt]

theorem jsLength_eq_length (w : JSString) (h : ∀ c ∈ w, utf16Units c = 1) :
    jsLength w = w.length := by
  induction w with
  | nil => rfl
  | cons c w ih =>
    have h1 := h c (List.mem_cons_self c w)
    have h2 := ih (fun d hd => h d (List.mem_cons_of_mem c hd))
    unfold jsLength at h2 ⊢
    simp only [List.map_cons, List.sum_cons, List.length_cons, h1, h2]
    omega

/-- What `patrones.telefono` accepts: an optional `+`, then one or more characters of the
class `[\d\s\-\(\)]`. -/
theorem test_patronTelefono_iff (v : JSString) :
    RegExp.test patronTelefono v = true ↔
      ∃ w, (v = w ∨ v = '+' :: w) ∧ w ≠ [] ∧ ∀ c ∈ w, esCaracterTelefono c = true := by
  have hplus := RegExp.test_plus_cls_iff esCaracterTelefono
  simp only [RegExp.test_iff] at hplus
  rw [RegExp.test_iff, patronTelefono, RegExp.matches_seq_iff]
  constructor
  · rintro ⟨s, w, rfl, hs, hw⟩
    rw [RegExp.opt, RegExp.matches_alt_iff, RegExp.matches_eps_iff, RegExp.lit,
      RegExp.matches_cls_iff] at hs
    obtain ⟨hne, hall⟩ := (hplus w).1 hw
    rcases hs with ⟨c, rfl, hc⟩ | rfl
    · have hc1 : c = '+' := by simpa using hc
      subst hc1
      exact ⟨w, Or.inr rfl, hne, hall⟩
    · exact ⟨w, Or.inl rfl, hne, hall⟩
  · rintro ⟨w, hv, hne, hall⟩
    have hw := (hplus w).2 ⟨hne, hall⟩
    rcases hv with rfl | rfl
    · refine ⟨[], v, rfl, ?_, hw⟩
      rw [RegExp.opt, RegExp.matches_alt_iff, RegExp.matches_eps_iff]
      exact Or.inr rfl
    · refine ⟨['+'], w, rfl, ?_, hw⟩
      rw [RegExp.opt, RegExp.matches_alt_iff, RegExp.lit, RegExp.matches_cls_iff]
      exact Or.inl ⟨'+', rfl, by simp⟩

/-- C16, as stated, fails: ten hyphens pass the rule `telefono` and hold no digit, and
`123 456 78` passes with 8 digits. -/
theorem telefono_acepta_sin_diez_digitos :
    (validarCampo hostEjemplo ⟨"----------".toList, false, [], []⟩ "telefono" ⟨false, none⟩).1 = true ∧
    ("----------".toList.filter esDigito).length = 0 ∧
    (validarCampo hostEjemplo ⟨"123 456 78".toList, false, [], []⟩ "telefono" ⟨false, none⟩).1 = true ∧
    ("123 456 78".toList.filter esDigito).length = 8 := by
  refine ⟨by decide, by decide, by decide, by decide⟩

/-- C16, amended. Every non-empty value that passes the rule `telefono` consists, after an
optional leading `+`, of digits, white space, `-` and parentheses only, and has at least 10
characters in all, separators counted. -/
theorem telefono_aceptado (h : Host) (campo : Campo) (opciones : Opciones)
    (hne : trim campo.value ≠ [])
    (hok : (validarCampo h campo "telefono" opciones).1 = true) :
    (∃ w, (trim campo.value = w ∨ trim campo.value = '+' :: w) ∧
      ∀ c ∈ w, esDigito c = true ∨ esEspacio c = true ∨ c = '-' ∨ c = '(' ∨ c = ')') ∧
    10 ≤ (trim campo.value).length := by
  rw [validarCampo_fst_of_ne h campo "telefono" opciones hne] at hok
  have hr : (reglaPorTipo h "telefono" opciones (trim campo.value)).1 =
      (RegExp.test patronTelefono (trim campo.value) &&
        decide (jsLength (trim campo.value) ≥ 10)) := rfl
  rw [hr, Bool.and_eq_true, decide_eq_true_eq] at hok
  obtain ⟨htest, hlen⟩ := hok
  obtain ⟨w, hv, _, hall⟩ := (test_patronTelefono_iff _).1 htest
  have hclase : ∀ c ∈ w, esDigito c = true ∨ esEspacio c = true ∨ c = '-' ∨ c = '(' ∨ c = ')' := by
    intro c hc
    have := hall c hc
    simp only [esCaracterTelefono, Bool.or_eq_true, beq_iff_eq] at this
    tauto
  refine ⟨⟨w, hv, hclase⟩, ?_⟩
  have hw : jsLength w = w.length :=
    jsLength_eq_length w (fun c hc => utf16Units_esCaracterTelefono c (hall c hc))
  have hplus : utf16Units '+' = 1 := by decide
  rcases hv with hv | hv
  · rw [hv] at hlen ⊢
    omega
  · rw [hv] at hlen ⊢
    have : jsLength ('+' :: w) = 1 + jsLength w := by
      simp [jsLength, hplus]
    simp only [List.length_cons]
    omega

/-- C16 amended, on the number `+52 (442) 123-4567`. -/
theorem telefono_aceptado_witness :
    (∃ w, (trim "+52 (442) 123-4567".toList = w ∨ trim "+52 (442) 123-4567".toList = '+' :: w) ∧
      ∀ c ∈ w, esDigito c = true ∨ esEspacio c = true ∨ c = '-' ∨ c = '(' ∨ c = ')') ∧
    10 ≤ (trim "+52 (442) 123-4567".toList).length :=
  telefono_aceptado hostEjemplo ⟨"+52 (442) 123-4567".toList, false, [], []⟩ ⟨false, none⟩
    (by decide) (by decide)

/-- C17, as stated, fails: a card number written in groups, with blanks or with hyphens, is
accepted although it is not a string of digits only. -/
theorem validarTarjeta_acepta_separadores :
    validarTarjeta "4532 0151 1283 0366".toList = true ∧
    validarTarjeta "4532-0151-1283-0366".toList = true ∧
    ¬ (∀ c ∈ "4532 0151 1283 0366".toList, esDigito c = true) := by
  refine ⟨by decide, by decide, by decide⟩

/-- C17, amended. `validarTarjeta` returns false for every input that, once white space and
hyphens are removed, is not a string of digits only with 13 to 19 characters; so no input
with a character other than a digit, white space or a hyphen is accepted. -/
theorem validarTarjeta_rechaza (s : JSString) :
    (¬ ((∀ c ∈ s.filter (fun c => !(esEspacio c || c == '-')), esDigito c = true) ∧
        13 ≤ (s.filter (fun c => !(esEspacio c || c == '-'))).length ∧
        (s.filter (fun c => !(esEspacio c || c == '-'))).length ≤ 19) →
      validarTarjeta s = false) ∧
    ((∃ c ∈ s, esDigito c = false ∧ esEspacio c = false ∧ c ≠ '-') →
      validarTarjeta s = false) := by
  have key : ¬ ((∀ c ∈ s.filter (fun c => !(esEspacio c || c == '-')), esDigito c = true) ∧
        13 ≤ (s.filter (fun c => !(esEspacio c || c == '-'))).length ∧
        (s.filter (fun c => !(esEspacio c || c == '-'))).length ≤ 19) →
      validarTarjeta s = false := by
    intro hno
    unfold validarTarjeta
    simp only
    split_ifs with h1 h2
    · rfl
    · rfl
    · exfalso
      have htest : RegExp.test patronSoloNumeros (s.filter (fun c => !(esEspacio c || c == '-'))) = true := by
        simpa using h2
      obtain ⟨_, hall⟩ := (RegExp.test_plus_cls_iff esDigito _).1 htest
      rw [jsLength_of_digitos _ hall] at h1
      exact hno ⟨hall, by omega, by omega⟩
  refine ⟨key, ?_⟩
  rintro ⟨c, hc, hd, he, hg⟩
  apply key
  rintro ⟨hall, _, _⟩
  have hmem : c ∈ s.filter (fun c => !(esEspacio c || c == '-')) := by
    rw [List.mem_filter]
    refine ⟨hc, ?_⟩
    simp [he, hg]
  rw [hall c hmem] at hd
  exact Bool.noConfusion hd

/-- C17 amended, on a number that is too short and on one with a letter. -/
theorem validarTarjeta_rechaza_witness :
    validarTarjeta "4532 0151".toList = false ∧
    validarTarjeta "4532015112830366x".toList = false :=
  ⟨(validarTarjeta_rechaza "4532 0151".toList).1 (by decide),
   (validarTarjeta_rechaza "4532015112830366x".toList).2 ⟨'x', by decide, by decide, by decide, by decide⟩⟩

end Sway

namespace Sway

/-! ## Whole forms and repeated validation -/

@[simp] theorem value_limpiarValidacion (c : Campo) : (limpiarValidacion c).value = c.value := rfl

@[simp] theorem required_limpiarValidacion (c : Campo) :
    (limpiarValidacion c).required = c.required := rfl

@[simp] theorem value_mostrarError (c : Campo) (m : String) : (mostrarError c m).value = c.value := rfl

@[simp] theorem required_mostrarError (c : Campo) (m : String) :
    (mostrarError c m).required = c.required := rfl

@[simp] theorem value_mostrarExito (c : Campo) : (mostrarExito c).value = c.value := rfl

@[simp] theorem required_mostrarExito (c : Campo) : (mostrarExito c).required = c.required := rfl

/-- The three shapes of the field that `validarCampo` can leave. -/
theorem validarCampo_snd_cases (h : Host) (campo : Campo) (tipo : String) (opciones : Opciones) :
    (validarCampo h campo tipo opciones).2 = limpiarValidacion campo ∨
    (validarCampo h campo tipo opciones).2 = mostrarExito (limpiarValidacion campo) ∨
    ∃ m, (validarCampo h campo tipo opciones).2 = mostrarError (limpiarValidacion campo) m := by
  unfold validarCampo
  simp only
  split_ifs
  · exact Or.inr (Or.inr ⟨_, rfl⟩)
  · exact Or.inl rfl
  · exact Or.inr (Or.inl rfl)
  · exact Or.inr (Or.inr ⟨_, rfl⟩)

theorem value_validarCampo (h : Host) (campo : Campo) (tipo : String) (opciones : Opciones) :
    (validarCampo h campo tipo opciones).2.value = campo.value := by
  rcases validarCampo_snd_cases h campo tipo opciones with he | he | ⟨m, he⟩ <;> rw [he] <;> rfl

theorem required_validarCampo (h : Host) (campo : Campo) (tipo : String) (opciones : Opciones) :
    (validarCampo h campo tipo opciones).2.required = campo.required := by
  rcases validarCampo_snd_cases h campo tipo opciones with he | he | ⟨m, he⟩ <;> rw [he] <;> rfl

/-- The result of `validarCampo` depends on the field through its value, its attribute
`required` and its cleaned annotation only. -/
theorem validarCampo_congr (h : Host) (c1 c2 : Campo) (tipo : String) (opciones : Opciones)
    (hl : limpiarValidacion c1 = limpiarValidacion c2) :
    validarCampo h c1 tipo opciones = validarCampo h c2 tipo opciones := by
  have hv : c1.value = c2.value := by
    have := congrArg Campo.value hl
    simpa using this
  have hr : c1.required = c2.required := by
    have := congrArg Campo.required hl
    simpa using this
  unfold validarCampo
  simp only [hv, hr, hl]

theorem validarCampo_fst_congr (h : Host) (c1 c2 : Campo) (tipo : String) (opciones : Opciones)
    (hv : c1.value = c2.value) (hr : c1.required = c2.required) :
    (validarCampo h c1 tipo opciones).1 = (validarCampo h c2 tipo opciones).1 := by
  unfold validarCampo
  simp only [hv, hr]
  split_ifs <;> rfl

theorem classListRemove_of_not_mem (t : String) (l : List String) (h : t ∉ l) :
    classListRemove t l = l := by
  unfold classListRemove
  rw [List.filter_eq_self]
  intro a ha
  have : a ≠ t := fun hat => h (hat ▸ ha)
  simpa using this

theorem not_mem_classListRemove (t : String) (l : List String) : t ∉ classListRemove t l := by
  unfold classListRemove
  intro hmem
  have := (List.mem_filter.1 hmem).2
  simp at this

theorem mem_classListRemove_of_ne (t u : String) (l : List String) (h : u ≠ t) :
    u ∈ classListRemove t l ↔ u ∈ l := by
  unfold classListRemove
  rw [List.mem_filter]
  constructor
  · exact fun hm => hm.1
  · intro hm
    exact ⟨hm, by simpa using h⟩

theorem classListRemove_append_singleton (t : String) (l : List String) (h : t ∉ l) :
    classListRemove t (l ++ [t]) = l := by
  unfold classListRemove
  rw [List.filter_append]
  have h1 : List.filter (fun a => a != t) l = l := classListRemove_of_not_mem t l h
  rw [h1]
  simp

/-- The class list of a cleaned field carries neither indicator. -/
theorem limpio_sin_indicadores (c : Campo) :
    "campo-error" ∉ (limpiarValidacion c).classList ∧
    "campo-valido" ∉ (limpiarValidacion c).classList := by
  constructor
  · show "campo-error" ∉ classListRemove "campo-valido" (classListRemove "campo-error" c.classList)
    rw [mem_classListRemove_of_ne "campo-valido" "campo-error" _ (by decide)]
    exact not_mem_classListRemove _ _
  · exact not_mem_classListRemove _ _

theorem limpiarValidacion_idem (c : Campo) :
    limpiarValidacion (limpiarValidacion c) = limpiarValidacion c := by
  obtain ⟨he, hv⟩ := limpio_sin_indicadores c
  show (⟨c.value, c.required,
      classListRemove "campo-valido" (classListRemove "campo-error" (limpiarValidacion c).classList),
      []⟩ : Campo) = limpiarValidacion c
  rw [classListRemove_of_not_mem _ _ he, classListRemove_of_not_mem _ _ hv]
  rfl

theorem classList_mostrarError (c : Campo) (m : String) (he : "campo-error" ∉ c.classList)
    (hv : "campo-valido" ∉ c.classList) :
    (mostrarError c m).classList = c.classList ++ ["campo-error"] := by
  show classListRemove "campo-valido" (classListAdd "campo-error"
    (classListRemove "campo-valido" (classListRemove "campo-error" c.classList))) = _
  rw [classListRemove_of_not_mem _ _ he, classListRemove_of_not_mem _ _ hv]
  have hadd : classListAdd "campo-error" c.classList = c.classList ++ ["campo-error"] := by
    unfold classListAdd
    rw [if_neg]
    simpa using he
  rw [hadd]
  apply classListRemove_of_not_mem
  intro hmem
  rcases List.mem_append.1 hmem with h1 | h1
  · exact hv h1
  · simp at h1

theorem classList_mostrarExito (c : Campo) (he : "campo-error" ∉ c.classList)
    (hv : "campo-valido" ∉ c.classList) :
    (mostrarExito c).classList = c.classList ++ ["campo-valido"] := by
  show classListRemove "campo-error" (classListAdd "campo-valido"
    (classListRemove "campo-valido" (classListRemove "campo-error" c.classList))) = _
  rw [classListRemove_of_not_mem _ _ he, classListRemove_of_not_mem _ _ hv]
  have hadd : classListAdd "campo-valido" c.classList = c.classList ++ ["campo-valido"] := by
    unfold classListAdd
    rw [if_neg]
    simpa using hv
  rw [hadd]
  apply classListRemove_of_not_mem
  intro hmem
  rcases List.mem_append.1 hmem with h1 | h1
  · exact he h1
  · simp at h1

theorem mensajes_mostrarError (c : Campo) (m : String) :
    (mostrarError c m).mensajes = [⟨"mensaje-error", m⟩] := rfl

theorem mensajes_mostrarExito (c : Campo) :
    (mostrarExito c).mensajes = [⟨"mensaje-exito", "<i class=\"bi bi-check-circle\"></i>"⟩] := rfl

theorem limpiarValidacion_mostrarError (c : Campo) (m : String)
    (he : "campo-error" ∉ c.classList) (hv : "campo-valido" ∉ c.classList) :
    limpiarValidacion (mostrarError c m) = limpiarValidacion c := by
  show (⟨c.value, c.required,
      classListRemove "campo-valido" (classListRemove "campo-error" (mostrarError c m).classList),
      []⟩ : Campo) = ⟨c.value, c.required,
      classListRemove "campo-valido" (classListRemove "campo-error" c.classList), []⟩
  rw [classList_mostrarError c m he hv, classListRemove_append_singleton _ _ he,
    classListRemove_of_not_mem _ _ he]

theorem limpiarValidacion_mostrarExito (c : Campo)
    (he : "campo-error" ∉ c.classList) (hv : "campo-valido" ∉ c.classList) :
    limpiarValidacion (mostrarExito c) = limpiarValidacion c := by
  show (⟨c.value, c.required,
      classListRemove "campo-valido" (classListRemove "campo-error" (mostrarExito c).classList),
      []⟩ : Campo) = ⟨c.value, c.required,
      classListRemove "campo-valido" (classListRemove "campo-error" c.classList), []⟩
  rw [classList_mostrarExito c he hv]
  have h1 : classListRemove "campo-error" (c.classList ++ ["campo-valido"]) =
      c.classList ++ ["campo-valido"] := by
    apply classListRemove_of_not_mem
    intro hmem
    rcases List.mem_append.1 hmem with h1 | h1
    · exact he h1
    · simp at h1
  rw [h1, classListRemove_append_singleton _ _ hv, classListRemove_of_not_mem _ _ he,
    classListRemove_of_not_mem _ _ hv]

/-- Cleaning the field that `validarCampo` leaves gives the cleaned original field. -/
theorem limpiarValidacion_validarCampo (h : Host) (campo : Campo) (tipo : String)
    (opciones : Opciones) :
    limpiarValidacion (validarCampo h campo tipo opciones).2 = limpiarValidacion campo := by
  obtain ⟨he, hv⟩ := limpio_sin_indicadores campo
  rcases validarCampo_snd_cases h campo tipo opciones with hc | hc | ⟨m, hc⟩
  · rw [hc, limpiarValidacion_idem]
  · rw [hc, limpiarValidacion_mostrarExito _ he hv, limpiarValidacion_idem]
  · rw [hc, limpiarValidacion_mostrarError _ m he hv, limpiarValidacion_idem]

/-- C20. Calling `validarCampo` a second time, with the same rule type and options, returns
the same boolean and leaves the field exactly as the first call left it; and after any call
the class list holds at most one of `campo-error` and `campo-valido`, each at most once,
and the container holds at most one message. -/
theorem validarCampo_idempotente (h : Host) (campo : Campo) (tipo : String) (opciones : Opciones) :
    validarCampo h (validarCampo h campo tipo opciones).2 tipo opciones =
      validarCampo h campo tipo opciones ∧
    ¬ ("campo-error" ∈ (validarCampo h campo tipo opciones).2.classList ∧
        "campo-valido" ∈ (validarCampo h campo tipo opciones).2.classList) ∧
    (validarCampo h campo tipo opciones).2.classList.count "campo-error" ≤ 1 ∧
    (validarCampo h campo tipo opciones).2.classList.count "campo-valido" ≤ 1 ∧
    (validarCampo h campo tipo opciones).2.mensajes.length ≤ 1 := by
  refine ⟨validarCampo_congr h _ _ tipo opciones
    (limpiarValidacion_validarCampo h campo tipo opciones), ?_⟩
  obtain ⟨he, hv⟩ := limpio_sin_indicadores campo
  have hce : (limpiarValidacion campo).classList.count "campo-error" = 0 :=
    List.count_eq_zero_of_not_mem he
  have hcv : (limpiarValidacion campo).classList.count "campo-valido" = 0 :=
    List.count_eq_zero_of_not_mem hv
  rcases validarCampo_snd_cases h campo tipo opciones with hc | hc | ⟨m, hc⟩
  · rw [hc]
    refine ⟨fun hboth => he hboth.1, by omega, by omega, ?_⟩
    show ([] : List Mensaje).length ≤ 1
    simp
  · rw [hc, classList_mostrarExito _ he hv, mensajes_mostrarExito]
    refine ⟨?_, ?_, ?_, by simp⟩
    · rintro ⟨h1, _⟩
      rcases List.mem_append.1 h1 with h2 | h2
      · exact he h2
      · simp at h2
    · rw [List.count_append, hce]
      simp
    · rw [List.count_append, hcv]
      simp
  · rw [hc, classList_mostrarError _ m he hv, mensajes_mostrarError]
    refine ⟨?_, ?_, ?_, by simp⟩
    · rintro ⟨_, h1⟩
      rcases List.mem_append.1 h1 with h2 | h2
      · exact hv h2
      · simp at h2
    · rw [List.count_append, hce]
      simp
    · rw [List.count_append, hcv]
      simp

/-- The lookup on a form with one more field in front. -/
theorem buscarCampo_cons (n : String) (kv : String × Campo) (f : Formulario) :
    buscarCampo n (kv :: f) = if kv.1 == n then some kv.2 else buscarCampo n f := by
  unfold buscarCampo
  rw [List.find?_cons]
  cases hk : kv.1 == n <;> simp

theorem buscarCampo_ponerCampo_ne (n m : String) (c : Campo) (f : Formulario) (hnm : m ≠ n) :
    buscarCampo m (ponerCampo n c f) = buscarCampo m f := by
  induction f with
  | nil => rfl
  | cons kv f ih =>
    unfold ponerCampo
    by_cases hk : kv.1 = n
    · have hkm : (kv.1 == m) = false := by
        simp only [beq_eq_false_iff_ne, ne_eq]
        intro hm
        exact hnm (hm ▸ hk)
      have hkb : (kv.1 == n) = true := by simpa using hk
      simp only [hkb, if_true, buscarCampo_cons, hkm, Bool.false_eq_true, if_false]
    · have hkb : (kv.1 == n) = false := by simpa using hk
      simp only [hkb, Bool.false_eq_true, if_false, buscarCampo_cons, ih]

theorem buscarCampo_ponerCampo_self (n : String) (c c0 : Campo) (f : Formulario)
    (h0 : buscarCampo n f = some c0) : buscarCampo n (ponerCampo n c f) = some c := by
  induction f with
  | nil => simp [buscarCampo] at h0
  | cons kv f ih =>
    unfold ponerCampo
    by_cases hk : kv.1 = n
    · simp [hk, buscarCampo_cons]
    · have hkb : (kv.1 == n) = false := by simpa using hk
      rw [buscarCampo_cons, hkb] at h0
      simp only [hkb, Bool.false_eq_true, if_false, buscarCampo_cons]
      exact ih h0

theorem map_fst_ponerCampo (n : String) (c : Campo) (f : Formulario) :
    (ponerCampo n c f).map (fun kv => kv.1) = f.map (fun kv => kv.1) := by
  induction f with
  | nil => rfl
  | cons kv f ih =>
    unfold ponerCampo
    split_ifs
    · simp
    · simp [ih]

/-- One round of the loop, when the field exists. -/
theorem pasoFormulario_some (h : Host) (b : Bool) (g : Formulario) (c : ConfigCampo)
    (campo : Campo) (hb : buscarCampo c.nombre g = some campo) :
    pasoFormulario h (b, g) c =
      (b && (validarCampo h campo c.tipo (opcionesDe c)).1,
        ponerCampo c.nombre (validarCampo h campo c.tipo (opcionesDe c)).2 g) := by
  unfold pasoFormulario
  simp only [hb]
  cases (validarCampo h campo c.tipo (opcionesDe c)).1 <;> cases b <;> rfl

/-- One round of the loop, when the field is absent. -/
theorem pasoFormulario_none (h : Host) (b : Bool) (g : Formulario) (c : ConfigCampo)
    (hb : buscarCampo c.nombre g = none) : pasoFormulario h (b, g) c = (b, g) := by
  unfold pasoFormulario
  simp only [hb]

/-- The loop over the configuration, from any flag and any form `g` whose fields carry the
values of the fields of `f`: the flag stays true exactly when every configured field that
exists is valid, and the fields keep their values. -/
theorem foldl_pasoFormulario (h : Host) (f : Formulario) (cfg : List ConfigCampo) (b : Bool)
    (g : Formulario)
    (hg : ∀ n, (buscarCampo n g = none ↔ buscarCampo n f = none) ∧
      ∀ c1 c2, buscarCampo n f = some c1 → buscarCampo n g = some c2 →
        c2.value = c1.value ∧ c2.required = c1.required) :
    ((cfg.foldl (pasoFormulario h) (b, g)).1 = true ↔
      b = true ∧ ∀ c ∈ cfg, ∀ campo, buscarCampo c.nombre f = some campo →
        (validarCampo h campo c.tipo (opcionesDe c)).1 = true) := by
  induction cfg generalizing b g with
  | nil => simp
  | cons c cfg ih =>
    rw [List.foldl_cons]
    cases hb : buscarCampo c.nombre g with
    | none =>
      rw [pasoFormulario_none h b g c hb, ih b g hg]
      have hf : buscarCampo c.nombre f = none := (hg c.nombre).1.1 hb
      constructor
      · rintro ⟨h1, h2⟩
        refine ⟨h1, ?_⟩
        intro d hd campo hcampo
        rcases List.mem_cons.1 hd with rfl | hd
        · rw [hf] at hcampo
          cases hcampo
        · exact h2 d hd campo hcampo
      · rintro ⟨h1, h2⟩
        exact ⟨h1, fun d hd => h2 d (List.mem_cons_of_mem c hd)⟩
    | some campo2 =>
      obtain ⟨campo1, hf⟩ : ∃ campo1, buscarCampo c.nombre f = some campo1 := by
        cases hf : buscarCampo c.nombre f with
        | none =>
          have := (hg c.nombre).1.2 hf
          rw [hb] at this
          cases this
        | some campo1 => exact ⟨campo1, rfl⟩
      obtain ⟨hv, hr⟩ := (hg c.nombre).2 campo1 campo2 hf hb
      have hres : (validarCampo h campo2 c.tipo (opcionesDe c)).1 =
          (validarCampo h campo1 c.tipo (opcionesDe c)).1 :=
        validarCampo_fst_congr h campo2 campo1 _ _ hv hr
      have hg1 : ∀ n, (buscarCampo n (ponerCampo c.nombre
            (validarCampo h campo2 c.tipo (opcionesDe c)).2 g) = none ↔ buscarCampo n f = none) ∧
          ∀ c1 c2, buscarCampo n f = some c1 →
            buscarCampo n (ponerCampo c.nombre
              (validarCampo h campo2 c.tipo (opcionesDe c)).2 g) = some c2 →
            c2.value = c1.value ∧ c2.required = c1.required := by
        intro n
        by_cases hn : n = c.nombre
        · subst hn
          rw [buscarCampo_ponerCampo_self _ _ campo2 g hb, hf]
          refine ⟨by simp, ?_⟩
          intro c1 c2 h1 h2
          cases h1
          cases h2
          rw [value_validarCampo, required_validarCampo]
          exact ⟨hv, hr⟩
        · rw [buscarCampo_ponerCampo_ne _ _ _ g hn]
          exact hg n
      rw [pasoFormulario_some h b g c campo2 hb, ih _ _ hg1, hres]
      constructor
      · rintro ⟨h1, h2⟩
        rw [Bool.and_eq_true] at h1
        refine ⟨h1.1, ?_⟩
        intro d hd campo hcampo
        rcases List.mem_cons.1 hd with rfl | hd
        · rw [hf] at hcampo
          cases hcampo
          exact h1.2
        · exact h2 d hd campo hcampo
      · rintro ⟨h1, h2⟩
        refine ⟨?_, fun d hd => h2 d (List.mem_cons_of_mem c hd)⟩
        rw [Bool.and_eq_true]
        exact ⟨h1, h2 c (List.mem_cons_self c cfg) campo1 hf⟩

/-- The loop keeps the names of the form, and touches no field whose name is not a key. -/
theorem foldl_pasoFormulario_marco (h : Host) (cfg : List ConfigCampo) (b : Bool)
    (g : Formulario) :
    (cfg.foldl (pasoFormulario h) (b, g)).2.map (fun kv => kv.1) = g.map (fun kv => kv.1) ∧
    ∀ n, n ∉ cfg.map (fun c => c.nombre) →
      buscarCampo n (cfg.foldl (pasoFormulario h) (b, g)).2 = buscarCampo n g := by
  induction cfg generalizing b g with
  | nil => simp
  | cons c cfg ih =>
    rw [List.foldl_cons]
    cases hb : buscarCampo c.nombre g with
    | none =>
      rw [pasoFormulario_none h b g c hb]
      refine ⟨(ih b g).1, ?_⟩
      intro n hn
      exact (ih b g).2 n (fun hmem => hn (by simp [hmem]))
    | some campo =>
      rw [pasoFormulario_some h b g c campo hb]
      obtain ⟨i1, i2⟩ := ih (b && (validarCampo h campo c.tipo (opcionesDe c)).1)
        (ponerCampo c.nombre (validarCampo h campo c.tipo (opcionesDe c)).2 g)
      refine ⟨by rw [i1, map_fst_ponerCampo], ?_⟩
      intro n hn
      have hne : n ≠ c.nombre := fun he => hn (by simp [he])
      rw [i2 n (fun hmem => hn (by simp [hmem])), buscarCampo_ponerCampo_ne _ _ _ g hne]

/-- With distinct keys, every configured field that exists ends as `validarCampo` leaves it. -/
theorem foldl_pasoFormulario_anotado (h : Host) (cfg : List ConfigCampo) (b : Bool)
    (g : Formulario) (hnd : (cfg.map (fun c => c.nombre)).Nodup) :
    ∀ c ∈ cfg, ∀ campo, buscarCampo c.nombre g = some campo →
      buscarCampo c.nombre (cfg.foldl (pasoFormulario h) (b, g)).2 =
        some (validarCampo h campo c.tipo (opcionesDe c)).2 := by
  induction cfg generalizing b g with
  | nil => simp
  | cons c cfg ih =>
    rw [List.map_cons, List.nodup_cons] at hnd
    obtain ⟨hnot, hnd1⟩ := hnd
    intro d hd campo hcampo
    rw [List.foldl_cons]
    rcases List.mem_cons.1 hd with rfl | hd
    · rw [pasoFormulario_some h b g d campo hcampo,
        (foldl_pasoFormulario_marco h cfg _ _).2 d.nombre hnot,
        buscarCampo_ponerCampo_self _ _ campo g hcampo]
    · have hne : d.nombre ≠ c.nombre := by
        intro he
        apply hnot
        rw [← he]
        exact List.mem_map.2 ⟨d, hd, rfl⟩
      cases hb : buscarCampo c.nombre g with
      | none =>
        rw [pasoFormulario_none h b g c hb]
        exact ih b g hnd1 d hd campo hcampo
      | some campo0 =>
        rw [pasoFormulario_some h b g c campo0 hb]
        apply ih _ _ hnd1 d hd campo
        rw [buscarCampo_ponerCampo_ne _ _ _ g hne]
        exact hcampo

/-- C19. `validarFormularioCompleto` returns true exactly when every configured field that
exists in the form is valid, and the submit handler cancels the submission exactly when one
of them fails; both run `validarCampo` on every configured field that exists, whatever the
earlier results, so with distinct keys each such field ends with the annotation of its own
validation; a configured field that is absent is skipped, and the fields that are not
configured, like the names of the form, stay as they were. -/
theorem formulario_validado (h : Host) (f : Formulario) (cfg : List ConfigCampo) :
    ((validarFormularioCompleto h f cfg).1 = true ↔
      ∀ c ∈ cfg, ∀ campo, buscarCampo c.nombre f = some campo →
        (validarCampo h campo c.tipo (opcionesDe c)).1 = true) ∧
    ((submitHandler h f cfg).defaultPrevented = true ↔
      ∃ c ∈ cfg, ∃ campo, buscarCampo c.nombre f = some campo ∧
        (validarCampo h campo c.tipo (opcionesDe c)).1 = false) ∧
    (submitHandler h f cfg).formulario = (validarFormularioCompleto h f cfg).2 ∧
    ((cfg.map (fun c => c.nombre)).Nodup →
      ∀ c ∈ cfg, ∀ campo, buscarCampo c.nombre f = some campo →
        buscarCampo c.nombre (validarFormularioCompleto h f cfg).2 =
          some (validarCampo h campo c.tipo (opcionesDe c)).2) ∧
    (validarFormularioCompleto h f cfg).2.map (fun kv => kv.1) = f.map (fun kv => kv.1) ∧
    (∀ n, n ∉ cfg.map (fun c => c.nombre) →
      buscarCampo n (validarFormularioCompleto h f cfg).2 = buscarCampo n f) := by
  have hself : ∀ n, (buscarCampo n f = none ↔ buscarCampo n f = none) ∧
      ∀ c1 c2, buscarCampo n f = some c1 → buscarCampo n f = some c2 →
        c2.value = c1.value ∧ c2.required = c1.required := by
    intro n
    refine ⟨Iff.rfl, ?_⟩
    intro c1 c2 h1 h2
    rw [h1] at h2
    cases h2
    exact ⟨rfl, rfl⟩
  have hval := foldl_pasoFormulario h f cfg true f hself
  simp only [true_and] at hval
  refine ⟨hval, ?_, ?_, ?_, ?_, ?_⟩
  · have hdp : (submitHandler h f cfg).defaultPrevented =
        !(cfg.foldl (pasoFormulario h) (true, f)).1 := by
      unfold submitHandler
      simp only
      split_ifs with hc
      · simp only [Bool.not_eq_true'] at hc
        simp [hc]
      · simp only [Bool.not_eq_true', Bool.not_eq_false] at hc
        simp [hc]
    rw [hdp]
    constructor
    · intro hno
      by_contra hall
      have : (cfg.foldl (pasoFormulario h) (true, f)).1 = true := by
        apply hval.2
        intro c hc campo hcampo
        by_contra hbad
        exact hall ⟨c, hc, campo, hcampo, by simpa using hbad⟩
      rw [this] at hno
      simp at hno
    · rintro ⟨c, hc, campo, hcampo, hbad⟩
      cases hres : (cfg.foldl (pasoFormulario h) (true, f)).1 with
      | false => rfl
      | true =>
        have := hval.1 hres c hc campo hcampo
        rw [hbad] at this
        cases this
  · unfold submitHandler validarFormularioCompleto
    simp only
    split_ifs <;> rfl
  · intro hnd
    exact foldl_pasoFormulario_anotado h cfg true f hnd
  · exact (foldl_pasoFormulario_marco h cfg true f).1
  · exact (foldl_pasoFormulario_marco h cfg true f).2

/-- C19 on a form with a wrong e-mail, a blank required name and a field outside the
configuration, under a configuration that also names an absent field. -/
theorem formulario_validado_witness :
    (validarFormularioCompleto hostEjemplo
      [("email", ⟨"a@b".toList, false, [], []⟩), ("nombre", ⟨[], true, [], []⟩),
        ("otro", ⟨[], true, [], []⟩)]
      [⟨"email", "email", none⟩, ⟨"falta", "email", none⟩, ⟨"nombre", "soloTexto", none⟩]).1 = false ∧
    (submitHandler hostEjemplo
      [("email", ⟨"a@b".toList, false, [], []⟩), ("nombre", ⟨[], true, [], []⟩),
        ("otro", ⟨[], true, [], []⟩)]
      [⟨"email", "email", none⟩, ⟨"falta", "email", none⟩, ⟨"nombre", "soloTexto", none⟩]).defaultPrevented
        = true ∧
    buscarCampo "nombre" (validarFormularioCompleto hostEjemplo
      [("email", ⟨"a@b".toList, false, [], []⟩), ("nombre", ⟨[], true, [], []⟩),
        ("otro", ⟨[], true, [], []⟩)]
      [⟨"email", "email", none⟩, ⟨"falta", "email", none⟩, ⟨"nombre", "soloTexto", none⟩]).2 =
      some (validarCampo hostEjemplo ⟨[], true, [], []⟩ "soloTexto" ⟨false, none⟩).2 :=
  ⟨by decide,
   (formulario_validado hostEjemplo _ _).2.1.2
     ⟨⟨"email", "email", none⟩, by decide, ⟨"a@b".toList, false, [], []⟩, by decide, by decide⟩,
   (formulario_validado hostEjemplo _ _).2.2.2.1 (by decide)
     ⟨"nombre", "soloTexto", none⟩ (by decide) ⟨[], true, [], []⟩ (by decide)⟩

end Sway

namespace Sway

/-! ## Species filters and the page -/

/-- When a filter value that is not empty differs from the one last applied, the request
carries page 1. -/
theorem applyFilters_reinicia (s : Especies) (hl : s.isLoading = false)
    (hact : trim s.searchInput ≠ [] ∨ s.habitatSelect ≠ [] ∨ s.conservationSelect ≠ [])
    (hdif : s.activeFilters.search ≠ some (trim s.searchInput) ∨
      s.activeFilters.habitat ≠ some s.habitatSelect ∨
      s.activeFilters.conservation ≠ some s.conservationSelect) :
    (applyFilters s).currentPage = 1 ∧
    ∃ q, (applyFilters s).peticiones = s.peticiones ++ [q] ∧ q.page = 1 := by
  have hcond : ((!(trim s.searchInput).isEmpty || !s.habitatSelect.isEmpty ||
        !s.conservationSelect.isEmpty) &&
      (s.activeFilters.search != some (trim s.searchInput) ||
        s.activeFilters.habitat != some s.habitatSelect ||
        s.activeFilters.conservation != some s.conservationSelect)) = true := by
    simp only [Bool.and_eq_true, Bool.or_eq_true, Bool.not_eq_true', List.isEmpty_eq_false,
      bne_iff_ne, ne_eq]
    refine ⟨?_, ?_⟩
    · rcases hact with h | h | h
      · exact Or.inl (Or.inl h)
      · exact Or.inl (Or.inr h)
      · exact Or.inr h
    · rcases hdif with h | h | h
      · exact Or.inl (Or.inl h)
      · exact Or.inl (Or.inr h)
      · exact Or.inr h
  have hrun : applyFilters s =
      { s with
        isLoading := true
        currentPage := 1
        activeFilters := ⟨some (trim s.searchInput), some s.habitatSelect,
          some s.conservationSelect, some s.sortSelect⟩
        peticiones := s.peticiones ++
          [⟨siNoVacio (trim s.searchInput), siNoVacio s.habitatSelect,
            siNoVacio s.conservationSelect, siNoVacio s.sortSelect, 1, itemsPerPage⟩] } := by
    unfold applyFilters
    rw [if_neg (by simp [hl])]
    simp only
    rw [if_pos hcond]
  rw [hrun]
  exact ⟨rfl, _, rfl, rfl⟩

/-- C11. A change of a filter should send page 1, also a change back to the empty value,
and `applyFilters` breaks it: on page 3 of the species of one habitat, with no search and no
conservation filter, changing the habitat back to the empty value sends page 3, while
`removeFilter` for the same filter, and `clearAllFilters`, send page 1. -/
theorem applyFilters_conserva_pagina_al_vaciar :
    especiesPagina3.activeFilters.habitat = some "arrecife".toList ∧
    especiesPagina3.habitatSelect = [] ∧
    (applyFilters especiesPagina3).peticiones =
      [⟨none, none, none, some "nombre".toList, 3, 12⟩] ∧
    (applyFilters especiesPagina3).currentPage = 3 ∧
    (removeFilter FilterType.habitat { especiesPagina3 with habitatSelect := "arrecife".toList }).peticiones =
      [⟨none, none, none, some "nombre".toList, 1, 12⟩] ∧
    (clearAllFilters { especiesPagina3 with habitatSelect := "arrecife".toList }).peticiones =
      [⟨none, none, none, some "nombre".toList, 1, 12⟩] ∧
    (applyFilters { especiesPagina3 with habitatSelect := "polar".toList }).peticiones =
      [⟨none, some "polar".toList, none, some "nombre".toList, 1, 12⟩] := by
  refine ⟨by decide, by decide, by decide, by decide, by decide, by decide, by decide⟩

/-! ## The manual-logout marker -/

theorem getItem_removeItem (k k1 : String) (st : Storage) :
    getItem k (removeItem k1 st) = if k = k1 then none else getItem k st := by
  induction st with
  | nil => simp [getItem, removeItem]
  | cons kv st ih =>
    unfold getItem removeItem at ih ⊢
    by_cases h1 : kv.1 = k1
    · have hb : (kv.1 != k1) = false := by simp [h1]
      rw [List.filter_cons, hb]
      simp only [Bool.false_eq_true, if_false]
      rw [ih]
      by_cases hk : k = k1
      · simp [hk]
      · have hkv : (kv.1 == k) = false := by
          simp only [beq_eq_false_iff_ne, ne_eq]
          intro h2
          exact hk (h2 ▸ h1)
        simp [hk, List.find?_cons, hkv]
    · have hb : (kv.1 != k1) = true := by simp [h1]
      rw [List.filter_cons, hb]
      simp only [if_true, List.find?_cons]
      by_cases hkv : kv.1 = k
      · have hk : k ≠ k1 := fun h2 => h1 (hkv ▸ h2)
        simp [hkv, hk]
      · have hkb : (kv.1 == k) = false := by simpa using hkv
        simp only [hkb]
        exact ih

@[simp] theorem peticiones_sesionAnonima (s : Tienda) :
    (sesionAnonima s).peticiones = s.peticiones := rfl

@[simp] theorem currentUser_sesionAnonima (s : Tienda) : (sesionAnonima s).currentUser = none := rfl

@[simp] theorem currentUser_showNotification (m : String) (s : Tienda) :
    (showNotification m s).currentUser = s.currentUser := rfl

/-- While the marker is set, the periodic, focus and navigation checks do nothing. -/
theorem reverificar_con_marcador (ahora : Int) (r : RespuestaEstado) (s : Tienda)
    (hm : itemEs "manual-logout" "true" s.localStorage = true) : reverificar ahora r s = s := by
  unfold reverificar
  simp [hm]

/-- A marker with its time, read within 30 minutes, keeps `checkUserStatus` from the
request: the session is set to anonymous and nothing else changes. -/
theorem checkUserStatus_suprimido (ahora t : Int) (r : RespuestaEstado) (s : Tienda) (v : Valor)
    (hf : esVerdadero (getItem "logout-flag" s.localStorage) = false)
    (hm : itemEs "manual-logout" "true" s.localStorage = true)
    (hv : getItem "manual-logout-time" s.localStorage = some v)
    (hv1 : esVerdadero (some v) = true) (ht : parseIntValor v = some t)
    (h30 : ahora - t ≤ 30 * 60 * 1000) :
    checkUserStatus ahora r s = sesionAnonima s := by
  unfold checkUserStatus
  have hd : decide (ahora - t > 30 * 60 * 1000) = false := by
    rw [decide_eq_false_iff_not]
    omega
  simp only [hf, Bool.false_eq_true, if_false, hm, if_true, hv, hv1, ht, hd]

/-- C12. The marker should keep every check from the status request for 30 minutes, whatever
logout path wrote it, and `checkUserStatus` breaks it for a marker without its time. After
the `catch` branch of `logout` at instant 1000 the marker is set and has no time; the run of
`checkUserStatus` at 2000 consumes the logout flag without a request, and the run at 3000
removes the marker, issues the status request and logs the user in again. The same happens
after `setManualLogout` and after the logout of the orders page, while after the `try`
branch of `logout`, which writes the time, the run at 3000 issues no request. -/
theorem marcador_sin_hora_no_suprime :
    (itemEs "manual-logout" "true" (logout 1000 true tiendaConSesion).localStorage = true ∧
      getItem "manual-logout-time" (logout 1000 true tiendaConSesion).localStorage = none ∧
      (checkUserStatus 2000 (RespuestaEstado.datos true (some usuarioEjemplo))
        (logout 1000 true tiendaConSesion)).peticiones = ["/api/logout"] ∧
      (checkUserStatus 3000 (RespuestaEstado.datos true (some usuarioEjemplo))
        (checkUserStatus 2000 (RespuestaEstado.datos true (some usuarioEjemplo))
          (logout 1000 true tiendaConSesion))).peticiones = ["/api/logout", "/api/user/status"] ∧
      (checkUserStatus 3000 (RespuestaEstado.datos true (some usuarioEjemplo))
        (checkUserStatus 2000 (RespuestaEstado.datos true (some usuarioEjemplo))
          (logout 1000 true tiendaConSesion))).currentUser = some usuarioEjemplo) ∧
    ((checkUserStatus 3000 (RespuestaEstado.datos true (some usuarioEjemplo))
        (checkUserStatus 2000 (RespuestaEstado.datos true (some usuarioEjemplo))
          (setManualLogout 1000 tiendaInicial))).peticiones = ["/api/user/status"] ∧
      (checkUserStatus 3000 (RespuestaEstado.datos true (some usuarioEjemplo))
        (checkUserStatus 2000 (RespuestaEstado.datos true (some usuarioEjemplo))
          (setManualLogout 1000 tiendaInicial))).currentUser = some usuarioEjemplo) ∧
    ((checkUserStatus 3000 (RespuestaEstado.datos true (some usuarioEjemplo))
        (checkUserStatus 2000 (RespuestaEstado.datos true (some usuarioEjemplo))
          { tiendaInicial with
            localStorage := (MisPedidos.logout 1000 false {}).localStorage })).peticiones =
        ["/api/user/status"] ∧
      (checkUserStatus 3000 (RespuestaEstado.datos true (some usuarioEjemplo))
        (checkUserStatus 2000 (RespuestaEstado.datos true (some usuarioEjemplo))
          { tiendaInicial with
            localStorage := (MisPedidos.logout 1000 false {}).localStorage })).currentUser =
        some usuarioEjemplo) ∧
    ((checkUserStatus 3000 (RespuestaEstado.datos true (some usuarioEjemplo))
        (checkUserStatus 2000 (RespuestaEstado.datos true (some usuarioEjemplo))
          (logout 1000 false tiendaConSesion))).peticiones = ["/api/logout"] ∧
      (checkUserStatus 3000 (RespuestaEstado.datos true (some usuarioEjemplo))
        (checkUserStatus 2000 (RespuestaEstado.datos true (some usuarioEjemplo))
          (logout 1000 false tiendaConSesion))).currentUser = none) := by
  refine ⟨⟨by decide, by decide, by decide, by decide, by decide⟩, ⟨by decide, by decide⟩,
    ⟨by decide, by decide⟩, ⟨by decide, by decide⟩⟩

/-! ## Logout seen from another tab -/

/-- The run of `checkUserStatus` that finds the logout flag: the flag is consumed, the
session is anonymous and no request is issued. -/
theorem checkUserStatus_con_flag (ahora : Int) (r : RespuestaEstado) (s : Tienda)
    (hf : esVerdadero (getItem "logout-flag" s.localStorage) = true) :
    (checkUserStatus ahora r s).currentUser = none ∧
    (checkUserStatus ahora r s).peticiones = s.peticiones ∧
    getItem "logout-flag" (checkUserStatus ahora r s).localStorage = none := by
  unfold checkUserStatus
  simp only [hf, if_true]
  refine ⟨rfl, rfl, ?_⟩
  show getItem "logout-flag" (removeItem "carrito-sway" (removeItem "usuario-sway"
    (removeItem "logout-flag" s.localStorage))) = none
  rw [getItem_removeItem, getItem_removeItem, getItem_removeItem]
  simp

/-- C13. On the storage event that another tab set the manual-logout marker to `true`, the
listener of the shop page leaves the session anonymous and issues no request; on the event
of the logout flag, with the flag in the storage, `checkUserStatus` consumes the flag, leaves
the session anonymous and issues no request; and the listener of the orders page, on the
marker event, leaves its user empty and issues no request. -/
theorem storage_logout_de_otra_pestana (s : Tienda) (ahora : Int) (r : RespuestaEstado) :
    ((alCambioDeStorage "manual-logout" (some "true") ahora r s).currentUser = none ∧
      (alCambioDeStorage "manual-logout" (some "true") ahora r s).peticiones = s.peticiones) ∧
    (esVerdadero (getItem "logout-flag" s.localStorage) = true → ∀ newValue,
      (alCambioDeStorage "logout-flag" newValue ahora r s).currentUser = none ∧
      (alCambioDeStorage "logout-flag" newValue ahora r s).peticiones = s.peticiones ∧
      getItem "logout-flag" (alCambioDeStorage "logout-flag" newValue ahora r s).localStorage =
        none) ∧
    (∀ p : MisPedidos, ∃ q,
      MisPedidos.alCambioDeStorage "manual-logout" (some "true") (some p) = some q ∧
        q.usuario = none ∧ q.peticiones = p.peticiones) ∧
    MisPedidos.alCambioDeStorage "manual-logout" (some "true") none = none := by
  refine ⟨?_, ?_, ?_, ?_⟩
  · have h1 : alCambioDeStorage "manual-logout" (some "true") ahora r s = sesionAnonima s := by
      unfold alCambioDeStorage
      simp
    rw [h1]
    exact ⟨rfl, rfl⟩
  · intro hf newValue
    have h1 : alCambioDeStorage "logout-flag" newValue ahora r s = checkUserStatus ahora r s := by
      unfold alCambioDeStorage
      simp
    rw [h1]
    exact checkUserStatus_con_flag ahora r s hf
  · intro p
    refine ⟨MisPedidos.updateUserDropdown false { p with usuario := none }, ?_, rfl, rfl⟩
    unfold MisPedidos.alCambioDeStorage
    simp
  · unfold MisPedidos.alCambioDeStorage
    simp

/-- C13 on a second tab where the user is logged in, after the first tab logged out at
instant 1000: the event of the logout flag, then the event of the marker. -/
theorem storage_logout_de_otra_pestana_witness :
    (alCambioDeStorage "logout-flag" (some "1000") 1001 (RespuestaEstado.datos true (some usuarioEjemplo))
      { tiendaConSesion with localStorage := (logout 1000 false tiendaConSesion).localStorage }).currentUser
        = none ∧
    (alCambioDeStorage "logout-flag" (some "1000") 1001 (RespuestaEstado.datos true (some usuarioEjemplo))
      { tiendaConSesion with localStorage := (logout 1000 false tiendaConSesion).localStorage }).peticiones
        = [] ∧
    (alCambioDeStorage "manual-logout" (some "true") 1001 (RespuestaEstado.datos true (some usuarioEjemplo))
      tiendaConSesion).currentUser = none :=
  ⟨((storage_logout_de_otra_pestana
      { tiendaConSesion with localStorage := (logout 1000 false tiendaConSesion).localStorage }
      1001 (RespuestaEstado.datos true (some usuarioEjemplo))).2.1 (by decide) (some "1000")).1,
   ((storage_logout_de_otra_pestana
      { tiendaConSesion with localStorage := (logout 1000 false tiendaConSesion).localStorage }
      1001 (RespuestaEstado.datos true (some usuarioEjemplo))).2.1 (by decide) (some "1000")).2.1,
   (storage_logout_de_otra_pestana tiendaConSesion 1001
      (RespuestaEstado.datos true (some usuarioEjemplo))).1.1⟩

end Sway

namespace Sway

/-! ## Coordinates and the rounding of `parseFloat` -/

theorem redondearAPar_le (x : ℚ) (N : ℤ) (h : x ≤ (N : ℚ)) : redondearAPar x ≤ N := by
  have hf1 : ((⌊x⌋ : ℤ) : ℚ) ≤ x := Int.floor_le x
  have hfN : ⌊x⌋ ≤ N := Int.cast_le.1 (le_trans hf1 h)
  unfold redondearAPar
  have hstep : ∀ _ : (1 : ℚ) / 2 ≤ x - (⌊x⌋ : ℚ), ⌊x⌋ + 1 ≤ N := by
    intro hr
    have hlt : ((⌊x⌋ : ℤ) : ℚ) < (N : ℚ) := by linarith
    have : ⌊x⌋ < N := Int.cast_lt.1 hlt
    omega
  split_ifs with h1 h2 h3
  · exact hfN
  · exact hstep (le_of_lt h2)
  · exact hfN
  · exact hstep (not_lt.1 h1)

theorem le_redondearAPar (x : ℚ) (N : ℤ) (h : (N : ℚ) ≤ x) : N ≤ redondearAPar x := by
  have hfN : N ≤ ⌊x⌋ := Int.le_floor.2 h
  unfold redondearAPar
  split_ifs <;> omega

/-- Rounding to the nearest integer stays at or below an even integer `M` exactly up to
`M + 1/2`, the tie included. -/
theorem redondearAPar_le_par_iff (x : ℚ) (M : ℤ) (hM : M % 2 = 0) :
    redondearAPar x ≤ M ↔ x ≤ (M : ℚ) + 1 / 2 := by
  have hf1 : ((⌊x⌋ : ℤ) : ℚ) ≤ x := Int.floor_le x
  have hf2 : x < ((⌊x⌋ : ℤ) : ℚ) + 1 := Int.lt_floor_add_one x
  constructor
  · intro hle
    by_contra hx
    have hx1 : (M : ℚ) + 1 / 2 < x := not_le.1 hx
    have hMf : M ≤ ⌊x⌋ := Int.le_floor.2 (by linarith)
    rcases eq_or_lt_of_le hMf with heq | hlt
    · have hgt : x - ((⌊x⌋ : ℤ) : ℚ) > 1 / 2 := by
        rw [← heq]
        linarith
      have hval : redondearAPar x = ⌊x⌋ + 1 := by
        unfold redondearAPar
        rw [if_neg (by linarith), if_pos hgt]
      rw [hval] at hle
      omega
    · have := le_redondearAPar x ⌊x⌋ hf1
      omega
  · intro hx
    have hfM : ⌊x⌋ ≤ M := by
      have hlt : ((⌊x⌋ : ℤ) : ℚ) < (M : ℚ) + 1 := by linarith
      have : ⌊x⌋ < M + 1 := by exact_mod_cast hlt
      omega
    rcases eq_or_lt_of_le hfM with heq | hlt
    · unfold redondearAPar
      split_ifs with h1 h2 h3
      · exact hfM
      · exfalso
        rw [heq] at h2
        linarith
      · exact hfM
      · exfalso
        exact h3 (heq ▸ hM)
    · have hle : x ≤ ((⌊x⌋ + 1 : ℤ) : ℚ) := by
        push_cast
        linarith
      have := redondearAPar_le x (⌊x⌋ + 1) hle
      omega

theorem dos_zpow_pos (t : ℤ) : (0 : ℚ) < (2 : ℚ) ^ t := zpow_pos (by norm_num) t

theorem dos_zpow_mono (m n : ℤ) (h : m ≤ n) : (2 : ℚ) ^ m ≤ (2 : ℚ) ^ n :=
  zpow_le_zpow_right₀ (by norm_num) h

/-- A power of two with a non-negative exponent is an integer. -/
theorem dos_zpow_entero (n : ℤ) (h : 0 ≤ n) : (((2 : ℤ) ^ n.toNat : ℤ) : ℚ) = (2 : ℚ) ^ n := by
  have hn : ((n.toNat : ℕ) : ℤ) = n := Int.toNat_of_nonneg h
  rw [Int.cast_pow, Int.cast_ofNat, ← zpow_natCast, hn]

/-- The rounded magnitude of a positive rational: a multiple `m * 2^t` of the unit in the
last place, between the powers of two that enclose the rational. -/
theorem numberValue_pos (a : ℚ) (ha : 0 < a) :
    numberValue a =
      if (redondearAPar (a / (2 : ℚ) ^ (max (Int.log 2 a) (-1022) - 52)) : ℚ) *
          (2 : ℚ) ^ (max (Int.log 2 a) (-1022) - 52) ≥ (2 : ℚ) ^ (1024 : ℤ) then none
      else some ((redondearAPar (a / (2 : ℚ) ^ (max (Int.log 2 a) (-1022) - 52)) : ℚ) *
          (2 : ℚ) ^ (max (Int.log 2 a) (-1022) - 52)) := by
  unfold numberValue
  rw [if_neg (ne_of_gt ha)]
  simp only [abs_of_pos ha, if_neg (not_lt.2 (le_of_lt ha))]

/-- The threshold of acceptance for a bound `B` with `2^eB ≤ B < 2^(eB+1)` whose significand
`M = B / 2^(eB-52)` is an even integer: the Number value of a positive rational `a` exists
and is at most `B` exactly when `a ≤ B + 2^(eB-53)`, half a unit in the last place. -/
theorem numberValue_pos_le_iff (a : ℚ) (ha : 0 < a) (B : ℚ) (eB M : ℤ)
    (he1 : -1022 ≤ eB) (he2 : eB ≤ 1022)
    (hB1 : (2 : ℚ) ^ eB ≤ B) (hB2 : B < (2 : ℚ) ^ (eB + 1))
    (hM : (M : ℚ) * (2 : ℚ) ^ (eB - 52) = B) (hMe : M % 2 = 0) :
    (∃ r, numberValue a = some r ∧ r ≤ B) ↔ a ≤ B + (2 : ℚ) ^ (eB - 53) := by
  have h2 : (2 : ℚ) ≠ 0 := by norm_num
  have hlo : (2 : ℚ) ^ (Int.log 2 a) ≤ a := by
    have := Int.zpow_log_le_self (R := ℚ) (b := 2) (r := a) (by norm_num) ha
    simpa using this
  have hhi : a < (2 : ℚ) ^ (Int.log 2 a + 1) := by
    have := Int.lt_zpow_succ_log_self (R := ℚ) (b := 2) (by norm_num) a
    simpa using this
  rw [numberValue_pos a ha]
  generalize Int.log 2 a = e at hlo hhi
  have htop : (2 : ℚ) ^ (eB + 1) ≤ (2 : ℚ) ^ (1024 : ℤ) := dos_zpow_mono _ _ (by omega)
  have hhalf : (2 : ℚ) ^ (eB - 52) = 2 * (2 : ℚ) ^ (eB - 53) := by
    have : eB - 52 = 1 + (eB - 53) := by ring
    rw [this, zpow_add₀ h2, zpow_one]
  have hB53 : (2 : ℚ) ^ (eB + 1) = (2 : ℚ) ^ (53 : ℤ) * (2 : ℚ) ^ (eB - 52) := by
    rw [← zpow_add₀ h2]
    congr 1
    ring
  rcases lt_trichotomy e eB with hlt | heq | hgt
  · -- below the binade of `B`: the value is at most `2^eB`
    have hpt := dos_zpow_pos (max e (-1022) - 52)
    have hu : max (e + 1) (-1022) ≤ eB := max_le (by omega) he1
    have hd : 0 ≤ max (e + 1) (-1022) - (max e (-1022) - 52) := by
      rcases le_total e (-1022) with h | h
      · rw [max_eq_right h]
        have := le_max_right (e + 1) (-1022)
        omega
      · rw [max_eq_left h]
        have := le_max_left (e + 1) (-1022)
        omega
    have hxN : a / (2 : ℚ) ^ (max e (-1022) - 52) ≤
        (((2 : ℤ) ^ (max (e + 1) (-1022) - (max e (-1022) - 52)).toNat : ℤ) : ℚ) := by
      have hsplit : (2 : ℚ) ^ (max (e + 1) (-1022) - (max e (-1022) - 52)) =
          (2 : ℚ) ^ (max (e + 1) (-1022)) / (2 : ℚ) ^ (max e (-1022) - 52) :=
        zpow_sub₀ h2 _ _
      rw [dos_zpow_entero _ hd, hsplit]
      exact (div_le_div_iff_of_pos_right hpt).2
        (le_trans (le_of_lt hhi) (dos_zpow_mono _ _ (le_max_left _ _)))
    have hm := redondearAPar_le _ _ hxN
    have hr : (redondearAPar (a / (2 : ℚ) ^ (max e (-1022) - 52)) : ℚ) *
        (2 : ℚ) ^ (max e (-1022) - 52) ≤ (2 : ℚ) ^ eB := by
      have h1 : (redondearAPar (a / (2 : ℚ) ^ (max e (-1022) - 52)) : ℚ) ≤
          (2 : ℚ) ^ (max (e + 1) (-1022) - (max e (-1022) - 52)) := by
        rw [← dos_zpow_entero _ hd]
        exact_mod_cast hm
      calc (redondearAPar (a / (2 : ℚ) ^ (max e (-1022) - 52)) : ℚ) *
            (2 : ℚ) ^ (max e (-1022) - 52)
          ≤ (2 : ℚ) ^ (max (e + 1) (-1022) - (max e (-1022) - 52)) *
            (2 : ℚ) ^ (max e (-1022) - 52) := mul_le_mul_of_nonneg_right h1 (le_of_lt hpt)
        _ = (2 : ℚ) ^ (max (e + 1) (-1022)) := by
            rw [← zpow_add₀ h2]
            congr 1
            ring
        _ ≤ (2 : ℚ) ^ eB := dos_zpow_mono _ _ hu
    have hnot : ¬ ((redondearAPar (a / (2 : ℚ) ^ (max e (-1022) - 52)) : ℚ) *
        (2 : ℚ) ^ (max e (-1022) - 52) ≥ (2 : ℚ) ^ (1024 : ℤ)) := by
      intro hge
      linarith
    rw [if_neg hnot]
    constructor
    · intro _
      have h1 : a < (2 : ℚ) ^ eB := lt_of_lt_of_le hhi (dos_zpow_mono _ _ (by omega))
      have := dos_zpow_pos (eB - 53)
      linarith
    · intro _
      exact ⟨_, rfl, le_trans hr hB1⟩
  · -- in the binade of `B`
    subst heq
    have ht : max e (-1022) - 52 = e - 52 := by rw [max_eq_left he1]
    rw [ht]
    have hpt := dos_zpow_pos (e - 52)
    have hx53 : a / (2 : ℚ) ^ (e - 52) ≤ (((2 : ℤ) ^ (53 : ℤ).toNat : ℤ) : ℚ) := by
      rw [dos_zpow_entero 53 (by norm_num), div_le_iff₀ hpt, ← hB53]
      exact le_of_lt hhi
    have hm53 := redondearAPar_le _ _ hx53
    have hr : (redondearAPar (a / (2 : ℚ) ^ (e - 52)) : ℚ) * (2 : ℚ) ^ (e - 52) ≤
        (2 : ℚ) ^ (e + 1) := by
      have h1 : (redondearAPar (a / (2 : ℚ) ^ (e - 52)) : ℚ) ≤ (2 : ℚ) ^ (53 : ℤ) := by
        rw [← dos_zpow_entero 53 (by norm_num)]
        exact_mod_cast hm53
      rw [hB53]
      exact mul_le_mul_of_nonneg_right h1 (le_of_lt hpt)
    have hlt1024 : (2 : ℚ) ^ (e + 1) < (2 : ℚ) ^ (1024 : ℤ) :=
      zpow_lt_zpow_right₀ (by norm_num) (by omega)
    have hnot : ¬ ((redondearAPar (a / (2 : ℚ) ^ (e - 52)) : ℚ) * (2 : ℚ) ^ (e - 52) ≥
        (2 : ℚ) ^ (1024 : ℤ)) := by
      intro hge
      linarith
    rw [if_neg hnot]
    have hiff : (redondearAPar (a / (2 : ℚ) ^ (e - 52)) : ℚ) * (2 : ℚ) ^ (e - 52) ≤ B ↔
        a ≤ B + (2 : ℚ) ^ (e - 53) := by
      rw [← hM, mul_le_mul_right hpt, Int.cast_le, redondearAPar_le_par_iff _ M hMe,
        div_le_iff₀ hpt, add_mul, hhalf]
      constructor <;> intro h <;> linarith
    constructor
    · rintro ⟨r, hr1, hr2⟩
      have : r = (redondearAPar (a / (2 : ℚ) ^ (e - 52)) : ℚ) * (2 : ℚ) ^ (e - 52) :=
        (Option.some.inj hr1).symm
      rw [this] at hr2
      exact hiff.1 hr2
    · intro h
      exact ⟨_, rfl, hiff.2 h⟩
  · -- above the binade of `B`: the value is at least `2^(eB+1)`
    have ht : max e (-1022) - 52 = e - 52 := by rw [max_eq_left (by omega)]
    rw [ht]
    have hpt := dos_zpow_pos (e - 52)
    have he52 : (2 : ℚ) ^ e = (2 : ℚ) ^ (52 : ℤ) * (2 : ℚ) ^ (e - 52) := by
      rw [← zpow_add₀ h2]
      congr 1
      ring
    have hx52 : (((2 : ℤ) ^ (52 : ℤ).toNat : ℤ) : ℚ) ≤ a / (2 : ℚ) ^ (e - 52) := by
      rw [dos_zpow_entero 52 (by norm_num), le_div_iff₀ hpt, ← he52]
      exact hlo
    have hm52 := le_redondearAPar _ _ hx52
    have hr : (2 : ℚ) ^ e ≤ (redondearAPar (a / (2 : ℚ) ^ (e - 52)) : ℚ) * (2 : ℚ) ^ (e - 52) := by
      have h1 : (2 : ℚ) ^ (52 : ℤ) ≤ (redondearAPar (a / (2 : ℚ) ^ (e - 52)) : ℚ) := by
        rw [← dos_zpow_entero 52 (by norm_num)]
        exact_mod_cast hm52
      rw [he52]
      exact mul_le_mul_of_nonneg_right h1 (le_of_lt hpt)
    have hBe : (2 : ℚ) ^ (eB + 1) ≤ (2 : ℚ) ^ e := dos_zpow_mono _ _ (by omega)
    have hM53 : M + 1 ≤ (2 : ℤ) ^ (53 : ℤ).toNat := by
      have hlt : (M : ℚ) < (((2 : ℤ) ^ (53 : ℤ).toNat : ℤ) : ℚ) := by
        rw [dos_zpow_entero 53 (by norm_num)]
        have hp := dos_zpow_pos (eB - 52)
        rw [← hM, hB53] at hB2
        exact lt_of_mul_lt_mul_right hB2 (le_of_lt hp)
      have : M < (2 : ℤ) ^ (53 : ℤ).toNat := Int.cast_lt.1 hlt
      omega
    have hBtop : B + (2 : ℚ) ^ (eB - 52) ≤ (2 : ℚ) ^ (eB + 1) := by
      have hq : ((M + 1 : ℤ) : ℚ) ≤ (((2 : ℤ) ^ (53 : ℤ).toNat : ℤ) : ℚ) := Int.cast_le.2 hM53
      rw [dos_zpow_entero 53 (by norm_num)] at hq
      push_cast at hq
      have hp := dos_zpow_pos (eB - 52)
      rw [hB53, ← hM]
      nlinarith
    have hp53 := dos_zpow_pos (eB - 53)
    constructor
    · rintro ⟨r, hr1, hr2⟩
      exfalso
      split_ifs at hr1 with hinf
      have : r = (redondearAPar (a / (2 : ℚ) ^ (e - 52)) : ℚ) * (2 : ℚ) ^ (e - 52) :=
        (Option.some.inj hr1).symm
      rw [this] at hr2
      linarith
    · intro h
      exfalso
      linarith

theorem numberValue_pos_nonneg (a : ℚ) (ha : 0 < a) (r : ℚ) (h : numberValue a = some r) :
    0 ≤ r := by
  rw [numberValue_pos a ha] at h
  split_ifs at h with hinf
  have hr := (Option.some.inj h).symm
  rw [hr]
  have hx : ((0 : ℤ) : ℚ) ≤ a / (2 : ℚ) ^ (max (Int.log 2 a) (-1022) - 52) := by
    rw [Int.cast_zero]
    exact div_nonneg (le_of_lt ha) (le_of_lt (dos_zpow_pos _))
  have hm : (0 : ℚ) ≤ (redondearAPar (a / (2 : ℚ) ^ (max (Int.log 2 a) (-1022) - 52)) : ℚ) := by
    exact_mod_cast le_redondearAPar _ 0 hx
  exact mul_nonneg hm (le_of_lt (dos_zpow_pos _))

theorem numberValue_neg (q : ℚ) (hq : q < 0) :
    numberValue q = (numberValue (-q)).map (fun r => -r) := by
  have hpos : 0 < -q := by linarith
  rw [numberValue_pos (-q) hpos]
  unfold numberValue
  rw [if_neg (ne_of_lt hq)]
  simp only [abs_of_neg hq, if_pos hq]
  split_ifs <;> rfl

/-- The range test of the coordinate checks on the Number value of `q`, for a bound as in
`numberValue_pos_le_iff`: it passes exactly when `|q| ≤ B + 2^(eB-53)`. -/
theorem numberValue_en_rango_iff (q B : ℚ) (eB M : ℤ) (hB : 0 < B)
    (he1 : -1022 ≤ eB) (he2 : eB ≤ 1022)
    (hB1 : (2 : ℚ) ^ eB ≤ B) (hB2 : B < (2 : ℚ) ^ (eB + 1))
    (hM : (M : ℚ) * (2 : ℚ) ^ (eB - 52) = B) (hMe : M % 2 = 0) :
    (∃ x, numberValue q = some x ∧ -B ≤ x ∧ x ≤ B) ↔ |q| ≤ B + (2 : ℚ) ^ (eB - 53) := by
  have hp := dos_zpow_pos (eB - 53)
  rcases lt_trichotomy q 0 with hq | hq | hq
  · have hpos : 0 < -q := by linarith
    rw [abs_of_neg hq, ← numberValue_pos_le_iff (-q) hpos B eB M he1 he2 hB1 hB2 hM hMe,
      numberValue_neg q hq]
    constructor
    · rintro ⟨x, hx, h1, _⟩
      cases hr : numberValue (-q) with
      | none => rw [hr] at hx; cases hx
      | some r =>
        rw [hr] at hx
        have : x = -r := (Option.some.inj hx).symm
        exact ⟨r, rfl, by linarith⟩
    · rintro ⟨r, hr, hle⟩
      have h0 := numberValue_pos_nonneg (-q) hpos r hr
      rw [hr]
      exact ⟨-r, rfl, by linarith, by linarith⟩
  · subst hq
    have h0 : numberValue 0 = some 0 := by simp [numberValue]
    rw [h0, abs_zero]
    constructor
    · intro _
      linarith
    · intro _
      exact ⟨0, rfl, by linarith, by linarith⟩
  · rw [abs_of_pos hq, ← numberValue_pos_le_iff q hq B eB M he1 he2 hB1 hB2 hM hMe]
    constructor
    · rintro ⟨x, hx, _, h2⟩
      exact ⟨x, hx, h2⟩
    · rintro ⟨r, hr, hle⟩
      have h0 := numberValue_pos_nonneg q hq r hr
      exact ⟨r, hr, by linarith, hle⟩

/-- `validarLatitud` with the `parseFloat` of the browser: the pattern and the threshold. -/
theorem validarLatitud_iff_umbral (h : Host) (hp : h.parseFloat = parseFloatJS) (v : JSString) :
    validarLatitud h v = true ↔
      RegExp.test patronCoordenadas v = true ∧ |valorDecimal v| ≤ 90 + (2 : ℚ) ^ (-47 : ℤ) := by
  have hkey := numberValue_en_rango_iff (valorDecimal v) 90 6 (90 * 2 ^ 46) (by norm_num)
    (by norm_num) (by norm_num) (by norm_num) (by norm_num) (by norm_num) (by norm_num)
  have he : (6 : ℤ) - 53 = -47 := by norm_num
  rw [he] at hkey
  unfold validarLatitud
  rw [hp]
  by_cases ht : RegExp.test patronCoordenadas v = true
  · simp only [ht, Bool.not_true, Bool.false_eq_true, if_false, true_and, parseFloatJS, if_true]
    rw [← hkey]
    cases hn : numberValue (valorDecimal v) with
    | none => simp
    | some x => simp
  · simp [ht]

/-- `validarLongitud` with the `parseFloat` of the browser: the pattern and the threshold. -/
theorem validarLongitud_iff_umbral (h : Host) (hp : h.parseFloat = parseFloatJS) (v : JSString) :
    validarLongitud h v = true ↔
      RegExp.test patronCoordenadas v = true ∧ |valorDecimal v| ≤ 180 + (2 : ℚ) ^ (-46 : ℤ) := by
  have hkey := numberValue_en_rango_iff (valorDecimal v) 180 7 (180 * 2 ^ 45) (by norm_num)
    (by norm_num) (by norm_num) (by norm_num) (by norm_num) (by norm_num) (by norm_num)
  have he : (7 : ℤ) - 53 = -46 := by norm_num
  rw [he] at hkey
  unfold validarLongitud
  rw [hp]
  by_cases ht : RegExp.test patronCoordenadas v = true
  · simp only [ht, Bool.not_true, Bool.false_eq_true, if_false, true_and, parseFloatJS, if_true]
    rw [← hkey]
    cases hn : numberValue (valorDecimal v) with
    | none => simp
    | some x => simp
  · simp [ht]

/-- C18, as stated, fails: the numeral `90.00000000000000001` denotes a value above 90 and
`validarLatitud` accepts it, because `parseFloat` rounds it to 90; likewise
`-180.000000000000001` is below -180 and `validarLongitud` accepts it. -/
theorem coordenadas_aceptan_fuera_del_rango :
    validarLatitud hostNavegador "90.00000000000000001".toList = true ∧
    valorDecimal "90.00000000000000001".toList > 90 ∧
    validarLongitud hostNavegador "-180.000000000000001".toList = true ∧
    valorDecimal "-180.000000000000001".toList < -180 := by
  have hd1 : digitosDecimal "90.00000000000000001".toList = (false, 9000000000000000001, 17) := by
    decide
  have hd2 : digitosDecimal "-180.000000000000001".toList = (true, 180000000000000001, 15) := by
    decide
  have hv1 : valorDecimal "90.00000000000000001".toList = 9000000000000000001 / 10 ^ 17 := by
    unfold valorDecimal
    rw [hd1]
    norm_num
  have hv2 : valorDecimal "-180.000000000000001".toList = -(180000000000000001 / 10 ^ 15) := by
    unfold valorDecimal
    rw [hd2]
    norm_num
  refine ⟨?_, ?_, ?_, ?_⟩
  · rw [validarLatitud_iff_umbral hostNavegador rfl, hv1]
    refine ⟨by decide, ?_⟩
    rw [abs_of_pos (by norm_num)]
    norm_num
  · rw [hv1]
    norm_num
  · rw [validarLongitud_iff_umbral hostNavegador rfl, hv2]
    refine ⟨by decide, ?_⟩
    rw [abs_of_neg (by norm_num)]
    norm_num
  · rw [hv2]
    norm_num

/-- C18, amended. With the `parseFloat` of the browser, `validarLatitud(v)` returns true
exactly when `v` matches `-?\d*\.?\d+` (an optional minus sign, digits, and an optional
point that digits must follow and need not precede) and its value rounded to a double lies
in [-90, 90], that is when its absolute value is at most 90 + 2^-47; `validarLongitud(v)`
likewise with [-180, 180] and 180 + 2^-46. So every such numeral with a value in the
range, the bounds included, is accepted, and every value beyond the threshold is rejected. -/
theorem coordenadas_con_redondeo (ahora : Instante) (dateParse : JSString → Option Int)
    (v : JSString) :
    (validarLatitud ⟨ahora, dateParse, parseFloatJS⟩ v = true ↔
      RegExp.test patronCoordenadas v = true ∧ |valorDecimal v| ≤ 90 + (2 : ℚ) ^ (-47 : ℤ)) ∧
    (validarLongitud ⟨ahora, dateParse, parseFloatJS⟩ v = true ↔
      RegExp.test patronCoordenadas v = true ∧ |valorDecimal v| ≤ 180 + (2 : ℚ) ^ (-46 : ℤ)) ∧
    (RegExp.test patronCoordenadas v = true → -90 ≤ valorDecimal v → valorDecimal v ≤ 90 →
      validarLatitud ⟨ahora, dateParse, parseFloatJS⟩ v = true) ∧
    (RegExp.test patronCoordenadas v = true → -180 ≤ valorDecimal v → valorDecimal v ≤ 180 →
      validarLongitud ⟨ahora, dateParse, parseFloatJS⟩ v = true) := by
  have h47 := dos_zpow_pos (-47)
  have h46 := dos_zpow_pos (-46)
  refine ⟨validarLatitud_iff_umbral _ rfl v, validarLongitud_iff_umbral _ rfl v, ?_, ?_⟩
  · intro ht h1 h2
    rw [validarLatitud_iff_umbral _ rfl v]
    exact ⟨ht, by rw [abs_le]; constructor <;> linarith⟩
  · intro ht h1 h2
    rw [validarLongitud_iff_umbral _ rfl v]
    exact ⟨ht, by rw [abs_le]; constructor <;> linarith⟩

/-- C18 amended, on the bounds: `90` and `-90` as latitudes, `-180` as a longitude. -/
theorem coordenadas_con_redondeo_witness :
    validarLatitud ⟨⟨2026, 11, 6, 0⟩, fun _ => none, parseFloatJS⟩ "90".toList = true ∧
    validarLatitud ⟨⟨2026, 11, 6, 0⟩, fun _ => none, parseFloatJS⟩ "-90".toList = true ∧
    validarLongitud ⟨⟨2026, 11, 6, 0⟩, fun _ => none, parseFloatJS⟩ "-180".toList = true := by
  have hd1 : digitosDecimal "90".toList = (false, 90, 0) := by decide
  have hd2 : digitosDecimal "-90".toList = (true, 90, 0) := by decide
  have hd3 : digitosDecimal "-180".toList = (true, 180, 0) := by decide
  have hv1 : valorDecimal "90".toList = 90 := by
    unfold valorDecimal
    rw [hd1]
    norm_num
  have hv2 : valorDecimal "-90".toList = -90 := by
    unfold valorDecimal
    rw [hd2]
    norm_num
  have hv3 : valorDecimal "-180".toList = -180 := by
    unfold valorDecimal
    rw [hd3]
    norm_num
  exact ⟨(coordenadas_con_redondeo ⟨2026, 11, 6, 0⟩ (fun _ => none) "90".toList).2.2.1
      (by decide) (by rw [hv1]; norm_num) (by rw [hv1]),
    (coordenadas_con_redondeo ⟨2026, 11, 6, 0⟩ (fun _ => none) "-90".toList).2.2.1
      (by decide) (by rw [hv2]) (by rw [hv2]; norm_num),
    (coordenadas_con_redondeo ⟨2026, 11, 6, 0⟩ (fun _ => none) "-180".toList).2.2.2
      (by decide) (by rw [hv3]) (by rw [hv3]; norm_num)⟩

end Sway

namespace Sway

/-! ## Card numbers while typing -/

/-- The pieces of `trozosDeCuatro`, put together again, are the string. -/
theorem trozosDeCuatro_flatten (s : JSString) : (trozosDeCuatro s).flatten = s := by
  induction s using trozosDeCuatro.induct with
  | case1 a b c d resto ih => simp [trozosDeCuatro, ih]
  | case2 => simp [trozosDeCuatro]
  | case3 s h1 h2 =>
    rw [trozosDeCuatro]
    · simp
    · exact h1
    · intro h; exact h2 h

/-- Every piece of `trozosDeCuatro` has between one and four characters. -/
theorem trozosDeCuatro_length (s : JSString) :
    ∀ g ∈ trozosDeCuatro s, 1 ≤ g.length ∧ g.length ≤ 4 := by
  induction s using trozosDeCuatro.induct with
  | case1 a b c d resto ih =>
    intro g hg
    simp only [trozosDeCuatro, List.mem_cons] at hg
    rcases hg with rfl | hg
    · simp
    · exact ih g hg
  | case2 => simp [trozosDeCuatro]
  | case3 s h1 h2 =>
    intro g hg
    rw [trozosDeCuatro] at hg
    · simp only [List.mem_singleton] at hg
      subst hg
      match g, h1, h2 with
      | [], _, h2 => exact absurd rfl h2
      | [_], _, _ => simp
      | [_, _], _, _ => simp
      | [_, _, _], _, _ => simp
      | a :: b :: c :: d :: r, h1, _ => exact absurd rfl (h1 a b c d r)
    · exact h1
    · intro h; exact h2 h

/-- Every piece of `trozosDeCuatro` but the last has four characters. -/
theorem trozosDeCuatro_dropLast (s : JSString) :
    ∀ g ∈ (trozosDeCuatro s).dropLast, g.length = 4 := by
  induction s using trozosDeCuatro.induct with
  | case1 a b c d resto ih =>
    intro g hg
    rw [trozosDeCuatro] at hg
    cases hr : trozosDeCuatro resto with
    | nil => simp [hr] at hg
    | cons x xs =>
      rw [hr, List.dropLast_cons₂, List.mem_cons] at hg
      rcases hg with rfl | hg
      · simp
      · exact ih g (hr ▸ hg)
  | case2 => simp [trozosDeCuatro]
  | case3 s h1 h2 =>
    intro g hg
    rw [trozosDeCuatro] at hg
    · simp at hg
    · exact h1
    · intro h; exact h2 h

/-- The method `join` with a blank is the list operation `intercalate`. -/
theorem joinEspacio_eq_intercalate (gs : List JSString) :
    joinEspacio gs = List.intercalate [' '] gs := by
  induction gs with
  | nil => rfl
  | cons g resto ih =>
    cases resto with
    | nil => simp [joinEspacio, List.intercalate]
    | cons t r =>
      rw [joinEspacio, ih]
      simp [List.intercalate, List.intersperse]

/-- A filter that drops the blank sees the joined groups as their concatenation. -/
theorem filter_joinEspacio (p : Char → Bool) (hp : p ' ' = false) (gs : List JSString) :
    (joinEspacio gs).filter p = gs.flatten.filter p := by
  induction gs with
  | nil => rfl
  | cons g resto ih =>
    cases resto with
    | nil => simp [joinEspacio]
    | cons t r =>
      rw [joinEspacio, List.filter_append, List.filter_cons, hp, ih]
      simp

/-- Joining adds characters and removes none. -/
theorem length_flatten_le_joinEspacio (gs : List JSString) :
    gs.flatten.length ≤ (joinEspacio gs).length := by
  induction gs with
  | nil => simp [joinEspacio]
  | cons g resto ih =>
    cases resto with
    | nil => simp [joinEspacio]
    | cons t r =>
      rw [joinEspacio]
      simp only [List.flatten_cons, List.length_append, List.length_cons] at ih ⊢
      omega

/-- The two replacements of `formatearTarjeta` keep the decimal digits and nothing else. -/
theorem filter_esDigito_sin_espacios (v : JSString) :
    (v.filter (fun c => !esEspacio c)).filter (fun c => esDigito c) =
      v.filter (fun c => esDigito c) := by
  rw [List.filter_filter]
  congr 1
  funext c
  cases h : esDigito c with
  | false => simp
  | true => simp [esEspacio_of_esDigito c h]

/-- The value that `formatearTarjeta` leaves in the field. -/
theorem formatearTarjeta_value (campo : Campo) :
    (formatearTarjeta campo).value =
      joinEspacio (trozosDeCuatro (campo.value.filter (fun c => esDigito c))) := by
  unfold formatearTarjeta
  rw [filter_esDigito_sin_espacios]
  generalize hd : campo.value.filter (fun c => esDigito c) = d
  have hfmt : (match (matchTrozos d).map joinEspacio with
      | some unido => if unido.isEmpty then d else unido
      | none => d) = joinEspacio (trozosDeCuatro d) := by
    unfold matchTrozos
    cases d with
    | nil => simp [trozosDeCuatro, joinEspacio]
    | cons a r =>
      simp only [List.isEmpty_cons, Bool.false_eq_true, if_false, Option.map_some']
      split_ifs with he
      · have h1 := length_flatten_le_joinEspacio (trozosDeCuatro (a :: r))
        rw [trozosDeCuatro_flatten, List.isEmpty_iff.1 he] at h1
        simp at h1
      · rfl
  simp only [hfmt]
  split_ifs with hne
  · rfl
  · simpa using Eq.symm (by simpa using hne)

/-- The method `formatearTarjeta` changes nothing but the value of the field. -/
theorem formatearTarjeta_eq (campo : Campo) :
    formatearTarjeta campo = { campo with value := (formatearTarjeta campo).value } := by
  unfold formatearTarjeta
  simp only
  split_ifs with hne
  · rfl
  · rfl

/-- C21. For every field, `formatearTarjeta` rewrites the value to the decimal digits of the
input in their order, in groups separated by one blank: the groups have one to four
characters, all but the last have four, removing the blanks from the result gives the digits
of the input, and formatting the formatted field again changes nothing. -/
theorem formatearTarjeta_grupos (campo : Campo) :
    ∃ grupos : List JSString,
      formatearTarjeta campo = { campo with value := List.intercalate [' '] grupos } ∧
      grupos.flatten = campo.value.filter (fun c => esDigito c) ∧
      (∀ g ∈ grupos, 1 ≤ g.length ∧ g.length ≤ 4) ∧
      (∀ g ∈ grupos.dropLast, g.length = 4) ∧
      (formatearTarjeta campo).value.filter (fun c => c != ' ') =
        campo.value.filter (fun c => esDigito c) ∧
      formatearTarjeta (formatearTarjeta campo) = formatearTarjeta campo := by
  have hsin : (formatearTarjeta campo).value.filter (fun c => esDigito c) =
      campo.value.filter (fun c => esDigito c) := by
    rw [formatearTarjeta_value, filter_joinEspacio _ (by decide), trozosDeCuatro_flatten,
      List.filter_filter]
    simp
  refine ⟨trozosDeCuatro (campo.value.filter (fun c => esDigito c)), ?_,
    trozosDeCuatro_flatten _, trozosDeCuatro_length _, trozosDeCuatro_dropLast _, ?_, ?_⟩
  · rw [← joinEspacio_eq_intercalate, ← formatearTarjeta_value]
    exact formatearTarjeta_eq campo
  · rw [formatearTarjeta_value, filter_joinEspacio _ (by decide), trozosDeCuatro_flatten,
      List.filter_filter]
    apply List.filter_congr
    intro c _
    cases h : esDigito c with
    | false => simp
    | true =>
      have : c ≠ ' ' := by
        rintro rfl
        exact absurd h (by decide)
      simp [this]
  · have hv : (formatearTarjeta (formatearTarjeta campo)).value =
        (formatearTarjeta campo).value := by
      rw [formatearTarjeta_value, hsin, ← formatearTarjeta_value]
    rw [formatearTarjeta_eq (formatearTarjeta campo), hv]

end Sway

namespace Sway

/-! ## Pages of the product list -/

/-- The slice between two indices that are not negative. -/
theorem slice_nat {α : Type} (l : List α) (a b : Nat) :
    slice l (a : Int) ((a : Int) + (b : Int)) = (l.drop a).take b := by
  unfold slice
  have ha : ¬ ((a : Int) < 0) := by omega
  have hb : ¬ ((a : Int) + (b : Int) < 0) := by omega
  simp only [ha, hb, if_false]
  by_cases h : a ≤ l.length
  · have hk : (min (a : Int) (l.length : Int)).toNat = a := by omega
    rw [hk]
    apply List.take_eq_take.2
    rw [List.length_drop]
    omega
  · have hk : (min (a : Int) (l.length : Int)).toNat = l.length := by omega
    rw [hk, List.drop_eq_nil_of_le (le_refl _), List.drop_eq_nil_of_le (by omega)]
    simp

/-- The products shown on page `p + 1` are page `p` of the filtered list. -/
theorem productsToShow_pagina (s : Tienda) (p : Nat) (hp : s.currentPage = (p : Int) + 1) :
    productsToShow s = paginaDe 6 s.filteredProducts p := by
  unfold productsToShow paginaDe productsPerPage
  rw [hp]
  have h := slice_nat s.filteredProducts (p * 6) 6
  have e1 : ((p : Int) + 1 - 1) * 6 = ((p * 6 : Nat) : Int) := by push_cast; ring
  rw [e1]
  exact h

/-- The first `t` pages, one after the other, are the first `t * pageSize` items. -/
theorem paginas_flatten {α : Type} (n : Nat) (l : List α) (t : Nat) :
    ((List.range t).map (paginaDe n l)).flatten = l.take (t * n) := by
  induction t with
  | zero => simp
  | succ t ih =>
    rw [List.range_succ, List.map_append, List.flatten_append, ih, Nat.succ_mul, List.take_add]
    simp [paginaDe]

/-- The cards of a list of products show these products. -/
theorem productosEnGrid_tarjetas (l : List Product) :
    productosEnGrid (l.enum.map (fun ip => NodoGrid.tarjeta ip.2 ip.1)) = l := by
  unfold productosEnGrid
  rw [List.filterMap_map]
  have : ((fun n => match n with
      | NodoGrid.tarjeta p _ => some p
      | NodoGrid.html _ => none) ∘ fun (ip : Nat × Product) => NodoGrid.tarjeta ip.2 ip.1) =
      fun ip => some ip.2 := rfl
  rw [this]
  have h2 : List.filterMap (fun (ip : Nat × Product) => some ip.2) l.enum =
      List.map Prod.snd l.enum := by
    rw [← List.filterMap_eq_map]
    rfl
  rw [h2, List.enum_map_snd]

/-- The function `updateShowMoreButton` leaves the grid as it is. -/
theorem updateShowMoreButton_productGrid (s : Tienda) :
    (updateShowMoreButton s).productGrid = s.productGrid := by
  unfold updateShowMoreButton
  simp only
  split_ifs <;> rfl

/-- The function `updateShowMoreButton` leaves the page as it is. -/
theorem updateShowMoreButton_currentPage (s : Tienda) :
    (updateShowMoreButton s).currentPage = s.currentPage := by
  unfold updateShowMoreButton
  simp only
  split_ifs <;> rfl

/-- The function `updateShowMoreButton` leaves the filtered list as it is. -/
theorem updateShowMoreButton_filteredProducts (s : Tienda) :
    (updateShowMoreButton s).filteredProducts = s.filteredProducts := by
  unfold updateShowMoreButton
  simp only
  split_ifs <;> rfl

/-- What `renderProducts` leaves in the grid when the filtered list is not empty. -/
theorem renderProducts_grid (s : Tienda) (h : s.filteredProducts ≠ []) :
    (renderProducts s).productGrid =
      (if s.currentPage = 1 then [] else s.productGrid) ++
        (productsToShow s).enum.map (fun ip => NodoGrid.tarjeta ip.2 ip.1) := by
  have hl : ¬ (s.filteredProducts.length = 0) := by
    rw [List.length_eq_zero]; exact h
  unfold renderProducts
  rw [if_neg hl]
  simp only [updateShowMoreButton_productGrid]

/-- What `renderProducts` leaves in the grid when the filtered list is empty. -/
theorem renderProducts_grid_vacio (s : Tienda) (h : s.filteredProducts = []) :
    (renderProducts s).productGrid = [NodoGrid.html marcadoSinProductos] := by
  unfold renderProducts
  rw [if_pos (by rw [h]; rfl)]
  simp only [updateShowMoreButton_productGrid]

/-- The function `renderProducts` changes neither the page nor the filtered list. -/
theorem renderProducts_conserva (s : Tienda) :
    (renderProducts s).currentPage = s.currentPage ∧
    (renderProducts s).filteredProducts = s.filteredProducts := by
  unfold renderProducts
  by_cases h : s.filteredProducts.length = 0
  · rw [if_pos h]
    simp only [updateShowMoreButton_currentPage, updateShowMoreButton_filteredProducts,
      and_self]
  · rw [if_neg h]
    simp only [updateShowMoreButton_currentPage, updateShowMoreButton_filteredProducts,
      and_self]

/-- The click on the load-more button moves to the next page of the same filtered list. -/
theorem alMostrarMas_conserva (s : Tienda) :
    (alMostrarMas s).currentPage = s.currentPage + 1 ∧
    (alMostrarMas s).filteredProducts = s.filteredProducts := by
  unfold alMostrarMas
  rw [updateShowMoreButton_currentPage, updateShowMoreButton_filteredProducts]
  exact renderProducts_conserva _

/-- The cards of the first `t` pages show the first `t * 6` products. -/
theorem productosEnGrid_paginas (l : List Product) (t : Nat) :
    productosEnGrid ((List.range t).map (tarjetasDePagina l)).flatten = l.take (t * 6) := by
  induction t with
  | zero => simp [productosEnGrid]
  | succ t ih =>
    rw [List.range_succ, List.map_append, List.flatten_append]
    unfold productosEnGrid at ih ⊢
    rw [List.filterMap_append, ih, Nat.succ_mul, List.take_add]
    have h := productosEnGrid_tarjetas (paginaDe 6 l t)
    unfold productosEnGrid at h
    simp only [List.map_cons, List.map_nil, List.flatten_cons, List.flatten_nil,
      List.append_nil, tarjetasDePagina]
    rw [h]
    rfl

/-- After the rendering of page 1 and `k` clicks on the load-more button, the page is
`k + 1`, the filtered list is the same, and the grid holds the cards of the pages 1 to
`k + 1` when the filtered list is not empty, and the empty-state block when it is. -/
theorem paginas_en_secuencia_aux (s : Tienda) (k : Nat) :
    (alMostrarMas^[k] (renderProducts { s with currentPage := 1 })).currentPage = (k : Int) + 1 ∧
    (alMostrarMas^[k] (renderProducts { s with currentPage := 1 })).filteredProducts =
      s.filteredProducts ∧
    (s.filteredProducts ≠ [] →
      (alMostrarMas^[k] (renderProducts { s with currentPage := 1 })).productGrid =
        ((List.range (k + 1)).map (tarjetasDePagina s.filteredProducts)).flatten) ∧
    (s.filteredProducts = [] →
      (alMostrarMas^[k] (renderProducts { s with currentPage := 1 })).productGrid =
        [NodoGrid.html marcadoSinProductos]) := by
  induction k with
  | zero =>
    simp only [Function.iterate_zero, id_eq]
    have hc := renderProducts_conserva { s with currentPage := 1 }
    refine ⟨by rw [hc.1]; rfl, hc.2, ?_, ?_⟩
    · intro hne
      rw [renderProducts_grid { s with currentPage := 1 } hne, if_pos rfl, List.nil_append,
        productsToShow_pagina _ 0 rfl]
      show _ = ((List.range (0 + 1)).map (tarjetasDePagina s.filteredProducts)).flatten
      rw [List.range_succ]
      simp [tarjetasDePagina]
    · intro he
      exact renderProducts_grid_vacio { s with currentPage := 1 } he
  | succ k ih =>
    rw [Function.iterate_succ_apply']
    generalize alMostrarMas^[k] (renderProducts { s with currentPage := 1 }) = t at ih ⊢
    obtain ⟨hp, hf, hg, hv⟩ := ih
    have hc := alMostrarMas_conserva t
    refine ⟨by rw [hc.1, hp]; push_cast; ring, by rw [hc.2, hf], ?_, ?_⟩
    · intro hne
      have hne2 : ({ t with currentPage := t.currentPage + 1 } : Tienda).filteredProducts ≠ [] := by
        show t.filteredProducts ≠ []
        rw [hf]; exact hne
      have hpag : ({ t with currentPage := t.currentPage + 1 } : Tienda).currentPage ≠ 1 := by
        show t.currentPage + 1 ≠ 1
        rw [hp]; omega
      have hshow : productsToShow { t with currentPage := t.currentPage + 1 } =
          paginaDe 6 s.filteredProducts (k + 1) := by
        rw [productsToShow_pagina _ (k + 1) (by show t.currentPage + 1 = _; rw [hp]; push_cast; ring)]
        show paginaDe 6 t.filteredProducts (k + 1) = _
        rw [hf]
      unfold alMostrarMas
      rw [updateShowMoreButton_productGrid, renderProducts_grid _ hne2, if_neg hpag, hshow]
      show t.productGrid ++ _ = _
      rw [hg hne, List.range_succ (k + 1), List.map_append, List.flatten_append]
      simp [tarjetasDePagina]
    · intro he
      unfold alMostrarMas
      rw [updateShowMoreButton_productGrid]
      exact renderProducts_grid_vacio _ (by show t.filteredProducts = []; rw [hf]; exact he)

/-- C22. Page `p + 1` of the product list shows the slice of the filtered list from index
`p * 6` up to `(p + 1) * 6`; the slices of the pages 1 to `totalPages`, one after the other
and in their order, are the filtered list; and after the rendering of page 1 followed by `k`
clicks on the load-more button the grid holds the cards of the pages 1 to `k + 1` in this
order, which are those of the first `min ((k + 1) * 6) n` products of the `n` filtered ones,
each once and in the order of the list, or the empty-state block alone when `n` is 0. -/
theorem paginas_en_secuencia (s : Tienda) (p k : Nat) :
    productsToShow { s with currentPage := (p : Int) + 1 } = paginaDe 6 s.filteredProducts p ∧
    ((List.range (totalPages s).toNat).map (paginaDe 6 s.filteredProducts)).flatten =
      s.filteredProducts ∧
    (alMostrarMas^[k] (renderProducts { s with currentPage := 1 })).productGrid =
      (if s.filteredProducts = [] then [NodoGrid.html marcadoSinProductos]
       else ((List.range (k + 1)).map (tarjetasDePagina s.filteredProducts)).flatten) ∧
    productosEnGrid (alMostrarMas^[k] (renderProducts { s with currentPage := 1 })).productGrid =
      s.filteredProducts.take (min ((k + 1) * 6) s.filteredProducts.length) := by
  have hgrid : (alMostrarMas^[k] (renderProducts { s with currentPage := 1 })).productGrid =
      (if s.filteredProducts = [] then [NodoGrid.html marcadoSinProductos]
       else ((List.range (k + 1)).map (tarjetasDePagina s.filteredProducts)).flatten) := by
    by_cases he : s.filteredProducts = []
    · rw [if_pos he]; exact (paginas_en_secuencia_aux s k).2.2.2 he
    · rw [if_neg he]; exact (paginas_en_secuencia_aux s k).2.2.1 he
  refine ⟨productsToShow_pagina _ p rfl, ?_, hgrid, ?_⟩
  · rw [paginas_flatten]
    apply List.take_of_length_le
    unfold totalPages productsPerPage
    omega
  · have htake : s.filteredProducts.take (min ((k + 1) * 6) s.filteredProducts.length) =
        s.filteredProducts.take ((k + 1) * 6) := by
      apply List.take_eq_take.2
      omega
    rw [htake, hgrid]
    by_cases he : s.filteredProducts = []
    · rw [if_pos he, he]
      rfl
    · rw [if_neg he]
      exact productosEnGrid_paginas _ _

end Sway

namespace Sway

/-! ## Search without a match -/

/-- Every string includes the empty string. -/
theorem incluye_nil (s : List Char) : incluye s [] = true := by
  cases s with
  | nil => rfl
  | cons c cs => simp [incluye, empiezaCon]

/-- What `filtrarSiPuede` returns when the callback throws on no element and keeps none. -/
theorem filtrarSiPuede_ninguno {α : Type} (f : α → Option Bool) (l : List α)
    (h : ∀ a ∈ l, f a = some false) : filtrarSiPuede f l = some [] := by
  induction l with
  | nil => rfl
  | cons a resto ih =>
    have h1 := h a (List.mem_cons_self _ _)
    have h2 := ih (fun x hx => h x (List.mem_cons_of_mem _ hx))
    simp [filtrarSiPuede, h1, h2]

/-- For every catalog in which each product carries a description, and every search term that
occurs neither in the name nor in the description of any product, both sides in lower case,
the search handler leaves an empty filtered list and page 1, and the grid then holds the
empty-state block alone, without any product card, whatever the page and the grid were
before. -/
theorem busqueda_sin_coincidencias (toLowerCase : String → String) (valor : String) (s : Tienda)
    (h : ∀ p ∈ s.productos,
      includes (toLowerCase p.name) (toLowerCase valor) = false ∧
      ∃ d, p.description = some d ∧ includes (toLowerCase d) (toLowerCase valor) = false) :
    (alBuscar toLowerCase valor s).filteredProducts = [] ∧
    (alBuscar toLowerCase valor s).currentPage = 1 ∧
    (alBuscar toLowerCase valor s).productGrid = [NodoGrid.html marcadoSinProductos] ∧
    productosEnGrid (alBuscar toLowerCase valor s).productGrid = [] := by
  have hfil : (if toLowerCase valor = "" then some s.productos
      else filtrarSiPuede (coincideConBusqueda toLowerCase (toLowerCase valor)) s.productos) =
      some [] := by
    split_ifs with he
    · cases hp : s.productos with
      | nil => rfl
      | cons p ps =>
        have h1 := (h p (by rw [hp]; exact List.mem_cons_self _ _)).1
        rw [he] at h1
        unfold includes at h1
        rw [show ("" : String).data = [] from rfl, incluye_nil] at h1
        exact absurd h1 (by decide)
    · apply filtrarSiPuede_ninguno
      intro p hp
      obtain ⟨h1, d, hd, h2⟩ := h p hp
      simp [coincideConBusqueda, h1, hd, h2]
  have hrun : alBuscar toLowerCase valor s =
      updateShowMoreButton (renderProducts { s with filteredProducts := [], currentPage := 1 }) := by
    unfold alBuscar
    simp only [hfil]
  have hgrid : (alBuscar toLowerCase valor s).productGrid =
      [NodoGrid.html marcadoSinProductos] := by
    rw [hrun, updateShowMoreButton_productGrid]
    exact renderProducts_grid_vacio _ rfl
  refine ⟨?_, ?_, hgrid, by rw [hgrid]; rfl⟩
  · rw [hrun, updateShowMoreButton_filteredProducts, (renderProducts_conserva _).2]
  · rw [hrun, updateShowMoreButton_currentPage, (renderProducts_conserva _).1]

/-- The search without a match on a catalog of eight bottles shown up to page 2, each with
its description: the term `Coral` leaves the empty-state block alone in the grid. -/
theorem busqueda_sin_coincidencias_en_pagina_2 :
    tiendaEnPagina2.productGrid.length = 8 ∧
    (alBuscar minusculasLatinas "Coral" tiendaEnPagina2).productGrid =
      [NodoGrid.html marcadoSinProductos] ∧
    (alBuscar minusculasLatinas "Coral" tiendaEnPagina2).currentPage = 1 :=
  ⟨by decide,
   (busqueda_sin_coincidencias minusculasLatinas "Coral" tiendaEnPagina2 (by decide)).2.2.1,
   (busqueda_sin_coincidencias minusculasLatinas "Coral" tiendaEnPagina2 (by decide)).2.1⟩

/-- C23. A search term that occurs in no name and in no description should leave the
empty-state block and page 1, and the search handler breaks it on a catalog with a product
that has no description: on the eight bottles shown up to page 2, the third of which has no
description, the term `Coral` matches nothing, and the handler leaves the page as it was,
with its eight cards, its eight filtered products and page 2. -/
theorem alBuscar_sin_descripcion :
    (tiendaSinDescripcion.productos.all (fun p =>
      !includes (minusculasLatinas p.name) (minusculasLatinas "Coral") &&
      p.description.all (fun d =>
        !includes (minusculasLatinas d) (minusculasLatinas "Coral")))) = true ∧
    alBuscar minusculasLatinas "Coral" tiendaSinDescripcion = tiendaSinDescripcion ∧
    (alBuscar minusculasLatinas "Coral" tiendaSinDescripcion).filteredProducts.length = 8 ∧
    (alBuscar minusculasLatinas "Coral" tiendaSinDescripcion).currentPage = 2 ∧
    productosEnGrid (alBuscar minusculasLatinas "Coral" tiendaSinDescripcion).productGrid =
      tiendaSinDescripcion.productos ∧
    (alBuscar minusculasLatinas "Coral" tiendaSinDescripcion).productGrid ≠
      [NodoGrid.html marcadoSinProductos] := by
  decide

end Sway

namespace Sway

/-! ## The checkout form with an empty cart -/

/-- C29. With zero cart lines no order should be requested, and `handleCheckoutSubmit` breaks
it: with a user logged in, an empty cart and a form that `validateCheckoutForm` admits, it
sends the request that creates the order, with an empty list of products, while
`proceedToCheckout`, in the same state, sends nothing and shows the notice of the empty
cart. -/
theorem handleCheckoutSubmit_carrito_vacio :
    tiendaConSesion.carrito = [] ∧
    (handleCheckoutSubmit formularioCompleto RespuestaPedido.falla tiendaConSesion).peticiones =
      ["/api/pedidos/crear"] ∧
    ((handleCheckoutSubmit formularioCompleto RespuestaPedido.falla tiendaConSesion).pedidos.map
      (fun formData => formData.productos)) = [[]] ∧
    (proceedToCheckout tiendaConSesion).peticiones = [] ∧
    (proceedToCheckout tiendaConSesion).notificaciones = ["Tu carrito está vacío"] := by
  decide

end Sway

namespace Sway

/-! ## The two expiry dates of the scenarios -/

/-- The expiry `12/99` is compared with the clock as the first instant of December 2099. -/
theorem validarFechaVencimiento_12_99_eq (ahora : Instante) :
    validarFechaVencimiento ahora "12/99".toList =
      decide (nuevaFecha 2099 (((12 : Nat) : Int) - 1) > timeValue ahora) := by
  unfold validarFechaVencimiento
  have ht : RegExp.test patronFechaVencimiento "12/99".toList = true := by decide
  rw [ht]
  rfl

/-- The expiry `01/20` is compared with the clock as the first instant of January 2020. -/
theorem validarFechaVencimiento_01_20_eq (ahora : Instante) :
    validarFechaVencimiento ahora "01/20".toList =
      decide (nuevaFecha 2020 (((1 : Nat) : Int) - 1) > timeValue ahora) := by
  unfold validarFechaVencimiento
  have ht : RegExp.test patronFechaVencimiento "01/20".toList = true := by decide
  rw [ht]
  rfl

/-- C25, as stated, fails: on 15 December 2099, before year 2099 has passed,
`validarFechaVencimiento("12/99")` returns false. -/
theorem vencimiento_12_99_en_diciembre_2099 :
    Instante.valido ⟨2099, 12, 15, 0⟩ ∧
    validarFechaVencimiento ⟨2099, 12, 15, 0⟩ "12/99".toList = false := by
  decide

/-- C25, amended. For every current instant, `validarFechaVencimiento("01/20")` returns true
exactly before 1 January 2020, hence false from January 2020 on, and
`validarFechaVencimiento("12/99")` returns true exactly before 1 December 2099: the month
of expiry itself is rejected. -/
theorem vencimiento_de_los_ejemplos (ahora : Instante) (hv : ahora.valido) :
    (validarFechaVencimiento ahora "01/20".toList = true ↔ ahora.anio < 2020) ∧
    (validarFechaVencimiento ahora "12/99".toList = true ↔
      (ahora.anio < 2099 ∨ (ahora.anio = 2099 ∧ ahora.mes < 12))) := by
  constructor
  · rw [validarFechaVencimiento_01_20_eq, decide_eq_true_eq,
      nuevaFecha_gt_iff ahora hv 2020 1 (by decide) (by decide)]
    have h1 := hv.1
    constructor
    · rintro (h | ⟨_, h⟩)
      · exact h
      · omega
    · intro h; exact Or.inl h
  · rw [validarFechaVencimiento_12_99_eq, decide_eq_true_eq,
      nuevaFecha_gt_iff ahora hv 2099 12 (by decide) (by decide)]

/-- C25 amended, at the last millisecond of November 2099, when `12/99` is still accepted
and `01/20` is rejected. -/
theorem vencimiento_de_los_ejemplos_witness :
    Instante.valido ⟨2099, 11, 30, 86399999⟩ ∧
    validarFechaVencimiento ⟨2099, 11, 30, 86399999⟩ "12/99".toList = true ∧
    ¬ (validarFechaVencimiento ⟨2099, 11, 30, 86399999⟩ "01/20".toList = true) :=
  ⟨by decide,
   (vencimiento_de_los_ejemplos ⟨2099, 11, 30, 86399999⟩ (by decide)).2.2
     (Or.inr ⟨by decide, by decide⟩),
   fun h => absurd ((vencimiento_de_los_ejemplos ⟨2099, 11, 30, 86399999⟩ (by decide)).1.1 h)
     (by decide)⟩

end Sway

namespace Sway

/-! ## The month of the calendar -/

/-- The year that `yearFromDay` returns is the one in which the day falls. -/
theorem yearFromDay_spec (d : Int) :
    dayFromYear (yearFromDay d) ≤ d ∧ d < dayFromYear (yearFromDay d + 1) := by
  unfold yearFromDay
  simp only
  split_ifs with h1 h2
  · rw [sub_add_cancel]
    refine ⟨?_, by omega⟩
    unfold dayFromYear
    omega
  · refine ⟨h2, ?_⟩
    unfold dayFromYear
    omega
  · exact ⟨by omega, by omega⟩

/-- A day falls in one year only. -/
theorem yearFromDay_unique (d y : Int) (h1 : dayFromYear y ≤ d) (h2 : d < dayFromYear (y + 1)) :
    yearFromDay d = y := by
  obtain ⟨h3, h4⟩ := yearFromDay_spec d
  generalize yearFromDay d = z at h3 h4
  by_contra hne
  rcases lt_or_gt_of_ne hne with h | h
  · have := dayFromYear_mono (z + 1) y (by omega)
    omega
  · have := dayFromYear_mono (y + 1) z (by omega)
    omega

/-- Days before month `mn` of year `Y`, as a number. -/
theorem diasAntesDeMes_cotas (Y mn : Int) (hm0 : 0 ≤ mn) (hm1 : mn < 12) :
    0 ≤ diasAntesDeMes Y mn ∧ diasAntesDeMes Y mn + 28 ≤ 365 + inLeapYear Y := by
  rcases inLeapYear_cases Y with hl | hl <;> interval_cases mn <;>
    simp [diasAntesDeMes, hl]

/-- One of the first 28 days of month `mn` falls in month `mn`. -/
theorem monthFromDayWithinYear_antes (Y mn k : Int) (hm0 : 0 ≤ mn) (hm1 : mn < 12)
    (hk0 : 0 ≤ k) (hk : k < 28) :
    monthFromDayWithinYear (inLeapYear Y) (diasAntesDeMes Y mn + k) = mn := by
  rcases inLeapYear_cases Y with hl | hl <;> interval_cases mn <;>
    simp [diasAntesDeMes, hl] <;>
    (unfold monthFromDayWithinYear
     repeat (first | rw [if_pos (by omega)] | rw [if_neg (by omega)]))

/-- The calendar fields of a day of the month up to the 28th, written with a month index that
may lie beyond 0..11: the month index is carried into the year and the day is kept. -/
theorem instanteDeDia_makeDay (y month : Int) (dia ms : Nat) (h1 : 1 ≤ dia) (h2 : dia ≤ 28) :
    instanteDeDia (makeDay y month dia) ms =
      ⟨y + month / 12, (month % 12 + 1).toNat, dia, ms⟩ := by
  have hm0 : 0 ≤ month % 12 := Int.emod_nonneg _ (by decide)
  have hm1 : month % 12 < 12 := Int.emod_lt_of_pos _ (by decide)
  generalize hY : y + month / 12 = Y
  generalize hM : month % 12 = mn at hm0 hm1
  have hday : makeDay y month dia = dayFromYear Y + diasAntesDeMes Y mn + dia - 1 := by
    simp only [makeDay, hY, hM]
  have hleap := inLeapYear_cases Y
  obtain ⟨hb0, hb1⟩ := diasAntesDeMes_cotas Y mn hm0 hm1
  have hmes := monthFromDayWithinYear_antes Y mn ((dia : Int) - 1) hm0 hm1 (by omega) (by omega)
  have hyear : yearFromDay (makeDay y month dia) = Y := by
    apply yearFromDay_unique
    · rw [hday]; omega
    · rw [hday, dayFromYear_succ]; omega
  unfold instanteDeDia
  simp only [hyear]
  have hdw : makeDay y month dia - dayFromYear Y = diasAntesDeMes Y mn + ((dia : Int) - 1) := by
    rw [hday]; ring
  rw [hdw, hmes]
  congr 1
  omega

end Sway

namespace Sway

/-! ## Failed loads of a catalog -/

/-- After a load of the species that fails by a network error, by a status that is not 2xx
or by an error in the body, the page holds no species. -/
theorem cargarEspecies_fallida (toLowerCase : JSString → JSString) (s : Especies)
    (status : Nat) (e : String) (he : e ≠ "") (especies : Option (List Especie))
    (total_pages total : Option Int) (r : RespuestaEspecies)
    (hr : r = RespuestaEspecies.falla ∨ r = RespuestaEspecies.http status ∨
      r = RespuestaEspecies.cuerpo (some e) especies total_pages total) :
    (cargarEspecies toLowerCase r s).especiesData = [] ∧
    (cargarEspecies toLowerCase r s).filteredEspecies = [] := by
  rcases hr with rfl | rfl | rfl
  · exact ⟨rfl, rfl⟩
  · exact ⟨rfl, rfl⟩
  · have h : esVerdadero ((some e).map Valor.texto) = true := by
      simp [esVerdadero, he]
    unfold cargarEspecies
    simp only [h, if_true]
    exact ⟨rfl, rfl⟩

/-- C24. A failed load should leave the list of items empty, and the initialisation of the
events page breaks it: when the load of the events fails, by a failed request or by a body
without `success`, whatever its status, the page holds the two sample events of
`generarEventosEjemplo` as its events and as its filtered events, and the calendar shows the
first of them on its day. -/
theorem alCargarDOM_datos_de_ejemplo (s : Eventos) (status : Nat)
    (eventos : List EventoServidor) :
    (alCargarDOM RespuestaEventos.falla s).eventosData = generarEventosEjemplo ∧
    (alCargarDOM RespuestaEventos.falla s).filteredEventos = generarEventosEjemplo ∧
    (alCargarDOM (RespuestaEventos.cuerpo status false eventos) s).eventosData =
      generarEventosEjemplo ∧
    (alCargarDOM (RespuestaEventos.cuerpo status false eventos) s).filteredEventos =
      generarEventosEjemplo ∧
    generarEventosEjemplo.length = 2 ∧
    (getEventosDelDia "2025-08-15" (alCargarDOM RespuestaEventos.falla s)).map
      (fun evento => evento.titulo) = ["Crisis de los Arrecifes de Coral"] := by
  have h1 : ∀ r, (cargarEventos r s).1 = false →
      (alCargarDOM r s).eventosData = generarEventosEjemplo ∧
      (alCargarDOM r s).filteredEventos = generarEventosEjemplo := by
    intro r hr
    unfold alCargarDOM
    simp only [hr, Bool.not_false, if_true]
    unfold renderCalendario updateMonthYear
    simp only
    split_ifs <;> exact ⟨rfl, rfl⟩
  have ha := h1 RespuestaEventos.falla rfl
  have hb := h1 (RespuestaEventos.cuerpo status false eventos) rfl
  refine ⟨ha.1, ha.2, hb.1, hb.2, rfl, ?_⟩
  unfold getEventosDelDia
  rw [ha.2]
  decide

/-! ## The month after the 28th -/

/-- With the current date on one of the first 28 days of a month, `cambiarMes` moves the
calendar by `direccion` months and keeps the day. -/
theorem cambiarMes_hasta_el_28 (direccion : Int) (s : Eventos)
    (h1 : 1 ≤ s.currentDate.dia) (h2 : s.currentDate.dia ≤ 28) :
    (cambiarMes direccion s).currentDate =
      ⟨s.currentDate.anio + (getMonth s.currentDate + direccion) / 12,
       ((getMonth s.currentDate + direccion) % 12 + 1).toNat,
       s.currentDate.dia, s.currentDate.msDelDia⟩ := by
  unfold cambiarMes renderCalendario updateMonthYear setMonth
  simp only
  exact instanteDeDia_makeDay _ _ _ _ h1 h2

/-- C27. The calendar should move by one month whatever the day of the current date, and
`cambiarMes` breaks it on the 31st: with the current date on 31 January 2026 `cambiarMes(1)`
shows March 2026 and not February; with 31 March 2026 `cambiarMes(-1)` stays in March; and
from 31 October 2026 `cambiarMes(1)` followed by `cambiarMes(-1)` ends in November, not in
October. -/
theorem cambiarMes_dia_31 :
    (renderCalendario { currentDate := ⟨2026, 1, 31, 0⟩ }).tituloMes = some "Enero 2026" ∧
    (cambiarMes 1 (renderCalendario { currentDate := ⟨2026, 1, 31, 0⟩ })).mesDelCalendario =
      some (2026, 2) ∧
    (cambiarMes 1 (renderCalendario { currentDate := ⟨2026, 1, 31, 0⟩ })).tituloMes =
      some "Marzo 2026" ∧
    (cambiarMes (-1) (renderCalendario { currentDate := ⟨2026, 3, 31, 0⟩ })).tituloMes =
      some "Marzo 2026" ∧
    (cambiarMes (-1) (cambiarMes 1
      (renderCalendario { currentDate := ⟨2026, 10, 31, 0⟩ }))).tituloMes =
      some "Noviembre 2026" := by
  decide

/-! ## The stored view -/

/-- Without a stored preference `obtenerVistaActual` returns `'grid'`. -/
theorem obtenerVistaActual_por_defecto (s : Especies)
    (h : getItem "sway-especies-vista-preferida" s.localStorage = none) :
    obtenerVistaActual s = Valor.texto "grid" := by
  unfold obtenerVistaActual
  simp [h, esVerdadero]

/-- C28. The view returned should be one of `grid`, `list` and `mapa`, the one that
`cargarPreferenciaVista` applies, and `obtenerVistaActual` breaks it: with the text `tabla`
under the key of the view preference it returns `tabla`, while `cargarPreferenciaVista`
applies the view `grid`. -/
theorem obtenerVistaActual_sin_validar :
    obtenerVistaActual especiesConVistaTabla = Valor.texto "tabla" ∧
    (cargarPreferenciaVista minusculasJS especiesConVistaTabla).botonesActivos = ["grid"] ∧
    (cargarPreferenciaVista minusculasJS especiesConVistaTabla).gridDisplay = "grid" ∧
    (cargarPreferenciaVista minusculasJS especiesConVistaTabla).mapaDisplay = "none" ∧
    cargarPreferenciaVista minusculasJS especiesConVistaTabla =
      aplicarVista minusculasJS "grid" (actualizarBotonesVista "grid" especiesConVistaTabla) := by
  decide

/-! ## The species of the map -/

/-- The functions that draw the map leave `mapSpeciesData` as it is. -/
theorem dibujo_mapSpeciesData (s : Especies) :
    (updateLegendCounts (updateMapStats (renderMapMarkers s))).mapSpeciesData =
      s.mapSpeciesData := rfl

/-- A filter that is applied or not leaves a sublist. -/
theorem filtro_opcional_sublist (c : Bool) (p : MapSpecies → Bool) (l : List MapSpecies) :
    (if c then l.filter p else l).Sublist l := by
  split_ifs
  · exact List.filter_sublist _
  · exact List.Sublist.refl _

/-- The species that `applyMapFilters` stores are a sublist of those it started from. -/
theorem applyMapFilters_sublist (toLowerCase : JSString → JSString) (s : Especies) :
    (applyMapFilters toLowerCase s).mapSpeciesData.Sublist s.mapSpeciesData := by
  unfold applyMapFilters
  simp only [dibujo_mapSpeciesData]
  exact (filtro_opcional_sublist _ _ _).trans
    ((filtro_opcional_sublist _ _ _).trans (filtro_opcional_sublist _ _ _))

/-- Without a search term, a conservation state or a habitat, `applyMapFilters` stores the
species it started from. -/
theorem applyMapFilters_sin_filtros (toLowerCase : JSString → JSString) (s : Especies)
    (h1 : (toLowerCase s.searchInput).isEmpty = true) (h2 : s.conservationSelect.isEmpty = true)
    (h3 : s.habitatSelect.isEmpty = true) :
    (applyMapFilters toLowerCase s).mapSpeciesData = s.mapSpeciesData := by
  unfold applyMapFilters
  simp only [dibujo_mapSpeciesData, h1, h2, h3, Bool.not_true, Bool.false_eq_true, if_false]

/-- A run of calls of `applyMapFilters`, with any inputs and any catalog before each call,
stores a sublist of the species it started from. -/
theorem llamadas_sublist (toLowerCase : JSString → JSString) (entornos : List Entorno)
    (s : Especies) :
    (entornos.foldl (llamadaConEntorno toLowerCase) s).mapSpeciesData.Sublist
      s.mapSpeciesData := by
  induction entornos generalizing s with
  | nil => exact List.Sublist.refl _
  | cons e es ih =>
    simp only [List.foldl_cons]
    exact (ih _).trans (applyMapFilters_sublist toLowerCase _)

/-- C30. The species that `applyMapFilters` stores in `mapSpeciesData` are a sublist of those
it started from, the same list when the search term in lower case, the habitat and the
conservation state are all empty; and after any run of later calls, whatever the inputs and
the catalog before each of them, the stored species are a sublist of those stored by the
first call, so that a species that the first call dropped is absent after all of them. -/
theorem applyMapFilters_nunca_agrega (toLowerCase : JSString → JSString) (s : Especies)
    (entornos : List Entorno) :
    (applyMapFilters toLowerCase s).mapSpeciesData.Sublist s.mapSpeciesData ∧
    ((toLowerCase s.searchInput).isEmpty = true ∧ s.conservationSelect.isEmpty = true ∧
        s.habitatSelect.isEmpty = true →
      (applyMapFilters toLowerCase s).mapSpeciesData = s.mapSpeciesData) ∧
    (entornos.foldl (llamadaConEntorno toLowerCase)
        (applyMapFilters toLowerCase s)).mapSpeciesData.Sublist
      (applyMapFilters toLowerCase s).mapSpeciesData ∧
    (∀ species ∈ s.mapSpeciesData, species ∉ (applyMapFilters toLowerCase s).mapSpeciesData →
      species ∉ (entornos.foldl (llamadaConEntorno toLowerCase)
        (applyMapFilters toLowerCase s)).mapSpeciesData) := by
  refine ⟨applyMapFilters_sublist toLowerCase s,
    fun h => applyMapFilters_sin_filtros toLowerCase s h.1 h.2.1 h.2.2,
    llamadas_sublist toLowerCase entornos _, ?_⟩
  intro species _ hno hsi
  exact hno ((llamadas_sublist toLowerCase entornos _).subset hsi)

/-- C30 on a map with a coral of the reef and a whale of the open sea: the call with the
habitat `arrecife` drops the whale, and the whale is still absent after a later call with
all filters empty. -/
theorem applyMapFilters_nunca_agrega_witness :
    (especiesConMapa.mapSpeciesData.map (fun species => species.species_id)) = [1, 2] ∧
    ((applyMapFilters minusculasJS especiesConMapa).mapSpeciesData.map
      (fun species => species.species_id)) = [1] ∧
    (([(⟨[], [], [], especiesEjemplo⟩ : Entorno)].foldl (llamadaConEntorno minusculasJS)
      (applyMapFilters minusculasJS especiesConMapa)).mapSpeciesData.map
      (fun species => species.species_id)) = [1] ∧
    (∀ species ∈ especiesConMapa.mapSpeciesData,
      species ∉ (applyMapFilters minusculasJS especiesConMapa).mapSpeciesData →
      species ∉ ([(⟨[], [], [], especiesEjemplo⟩ : Entorno)].foldl
        (llamadaConEntorno minusculasJS)
        (applyMapFilters minusculasJS especiesConMapa)).mapSpeciesData) :=
  ⟨by decide, by decide, by decide,
   (applyMapFilters_nunca_agrega minusculasJS especiesConMapa
     [⟨[], [], [], especiesEjemplo⟩]).2.2.2⟩

end Sway

namespace Sway

/-! ## The debounced search -/

/-- The function `debouncedSearch` leaves the new timer alone, whatever was pending. -/
theorem debouncedSearch_un_solo (s : Buscador) (h : UnSoloTemporizador s) :
    (debouncedSearch s).pendientes = [⟨s.siguienteId, s.reloj + s.retraso⟩] ∧
    (debouncedSearch s).searchTimeout = some s.siguienteId ∧
    (debouncedSearch s).reloj = s.reloj ∧
    (debouncedSearch s).retraso = s.retraso ∧
    (debouncedSearch s).aplicaciones = s.aplicaciones := by
  rcases h with h | ⟨id, v, h, hid⟩
  · simp [debouncedSearch, clearTimeout, setTimeout, h]
  · simp [debouncedSearch, clearTimeout, setTimeout, h, hid]

/-- The clock moving on keeps the invariant of the single timer. -/
theorem avanzar_un_solo (t : Nat) (s : Buscador) (h : UnSoloTemporizador s) :
    UnSoloTemporizador (avanzar t s) := by
  rcases h with h | ⟨id, v, h, hid⟩
  · left
    simp [avanzar, h]
  · by_cases hv : v ≤ t
    · left
      simp [avanzar, h, hv]
    · right
      exact ⟨id, v, by simp [avanzar, h, hv], hid⟩

/-- Every event keeps the invariant of the single timer. -/
theorem suceder_un_solo (s : Buscador) (e : Suceso) (h : UnSoloTemporizador s) :
    UnSoloTemporizador (suceder s e) := by
  cases e with
  | tecla t =>
    right
    have h2 := debouncedSearch_un_solo (avanzar t s) (avanzar_un_solo t s h)
    exact ⟨_, _, h2.1, h2.2.1⟩
  | espera t => exact avanzar_un_solo t s h

/-- After every run of events the invariant of the single timer holds. -/
theorem sucesos_un_solo (sucesos : List Suceso) (s : Buscador) (h : UnSoloTemporizador s) :
    UnSoloTemporizador (sucesos.foldl suceder s) := by
  induction sucesos generalizing s with
  | nil => exact h
  | cons e es ih => exact ih _ (suceder_un_solo s e h)

/-- A keystroke at `t`, on a page whose pending timer, if any, is due after `t`: no filter
is applied, and the timer of this keystroke is the one that is pending. -/
theorem teclear_reinicia (s : Buscador) (t : Nat) (ha : s.aplicaciones = [])
    (hr : s.reloj ≤ t)
    (hp : s.pendientes = [] ∨ ∃ id v, s.pendientes = [⟨id, v⟩] ∧ s.searchTimeout = some id ∧ t < v) :
    (teclear s t).retraso = s.retraso ∧ (teclear s t).aplicaciones = [] ∧
    (teclear s t).reloj = t ∧
    ∃ id, (teclear s t).pendientes = [⟨id, t + s.retraso⟩] ∧
      (teclear s t).searchTimeout = some id := by
  have hav : (avanzar t s).pendientes = s.pendientes ∧ (avanzar t s).aplicaciones = [] ∧
      (avanzar t s).reloj = t ∧ (avanzar t s).retraso = s.retraso ∧
      (avanzar t s).searchTimeout = s.searchTimeout := by
    rcases hp with h | ⟨id, v, h, _, hv⟩
    · simp [avanzar, h, ha, hr]
    · have hv2 : ¬ v ≤ t := by omega
      simp [avanzar, h, ha, hr, hv2]
  obtain ⟨h1, h2, h3, h4, h5⟩ := hav
  have hun : UnSoloTemporizador (avanzar t s) := by
    rcases hp with h | ⟨id, v, h, hid, _⟩
    · left; rw [h1]; exact h
    · right; exact ⟨id, v, by rw [h1]; exact h, by rw [h5]; exact hid⟩
  have hd := debouncedSearch_un_solo (avanzar t s) hun
  unfold teclear
  refine ⟨by rw [hd.2.2.2.1, h4], by rw [hd.2.2.2.2, h2], by rw [hd.2.2.1, h3], _, ?_, hd.2.1⟩
  rw [hd.1, h3, h4]

/-- A run of keystrokes, each less than the delay after the one before it: when the last
one has been handled no filter has been applied, the clock is at the last keystroke, and
the one pending timer is due one delay after it. -/
theorem teclas_reinician (brechas : List Nat) :
    ∀ (s : Buscador) (t0 : Nat), (∀ g ∈ brechas, g < s.retraso) → s.aplicaciones = [] →
      s.reloj ≤ t0 →
      (s.pendientes = [] ∨
        ∃ id v, s.pendientes = [⟨id, v⟩] ∧ s.searchTimeout = some id ∧ t0 < v) →
      ((instantes t0 brechas).foldl teclear s).aplicaciones = [] ∧
      ((instantes t0 brechas).foldl teclear s).reloj = ultimoInstante t0 brechas ∧
      ∃ id, ((instantes t0 brechas).foldl teclear s).pendientes =
        [⟨id, ultimoInstante t0 brechas + s.retraso⟩] := by
  induction brechas with
  | nil =>
    intro s t0 _ ha hr hp
    obtain ⟨_, h2, h3, id, h4, _⟩ := teclear_reinicia s t0 ha hr hp
    simp only [instantes, List.foldl_cons, List.foldl_nil, ultimoInstante, List.sum_nil,
      add_zero]
    exact ⟨h2, h3, id, h4⟩
  | cons g gs ih =>
    intro s t0 hg ha hr hp
    obtain ⟨h1, h2, h3, id, h4, h5⟩ := teclear_reinicia s t0 ha hr hp
    have hg0 : g < s.retraso := hg g (List.mem_cons_self _ _)
    have hrec := ih (teclear s t0) (t0 + g)
      (by intro x hx; rw [h1]; exact hg x (List.mem_cons_of_mem _ hx)) h2
      (by rw [h3]; omega)
      (Or.inr ⟨id, t0 + s.retraso, h4, h5, by omega⟩)
    simp only [instantes, List.foldl_cons]
    have hu : ultimoInstante t0 (g :: gs) = ultimoInstante (t0 + g) gs := by
      simp [ultimoInstante, add_assoc]
    rw [hu, ← h1]
    exact hrec

/-- C26. On a page with a debounced search box at most one timer of the search is pending
after every run of keystrokes and waits; and after a run of keystrokes each of which follows
the one before it by less than the delay of the page, the filter is applied by a timer once,
one delay after the last keystroke, and not before. -/
theorem debounce_ultima_tecla (retraso t0 T : Nat) (brechas : List Nat) (sucesos : List Suceso)
    (h : ∀ g ∈ brechas, g < retraso) :
    (sucesos.foldl suceder { retraso := retraso }).pendientes.length ≤ 1 ∧
    (avanzar T ((instantes t0 brechas).foldl teclear { retraso := retraso })).aplicaciones =
      (if ultimoInstante t0 brechas + retraso ≤ T then [ultimoInstante t0 brechas + retraso]
       else []) := by
  constructor
  · rcases sucesos_un_solo sucesos { retraso := retraso } (Or.inl rfl) with h1 | ⟨_, _, h1, _⟩
    · rw [h1]; simp
    · rw [h1]; simp
  · obtain ⟨h1, _, id, h3⟩ := teclas_reinician brechas { retraso := retraso } t0 h rfl
      (Nat.zero_le _) (Or.inl rfl)
    unfold avanzar
    simp only [h1, h3, List.nil_append]
    by_cases hT : ultimoInstante t0 brechas + retraso ≤ T
    · simp [hT]
    · simp [hT]

/-- C26 on the word `coral`, typed from the instant 1000 with gaps of 120, 90, 200 and 150
ms: with the delay of 300 ms the filter is applied once, at 1860, and with the delay of 500
ms once, at 2060. -/
theorem debounce_ultima_tecla_witness :
    (∀ g ∈ [120, 90, 200, 150], g < 300) ∧
    (avanzar 5000 ((instantes 1000 [120, 90, 200, 150]).foldl teclear
      { retraso := 300 })).aplicaciones = [1860] ∧
    (avanzar 5000 ((instantes 1000 [120, 90, 200, 150]).foldl teclear
      { retraso := 500 })).aplicaciones = [2060] :=
  ⟨by decide,
   (debounce_ultima_tecla 300 1000 5000 [120, 90, 200, 150] [] (by decide)).2,
   (debounce_ultima_tecla 500 1000 5000 [120, 90, 200, 150] [] (by decide)).2⟩

end Sway

namespace Sway

/-! ## The total of the cart in binary64 -/

/-- An integer rounds to itself. -/
theorem redondearAPar_entero (M : ℤ) : redondearAPar (M : ℚ) = M := by
  unfold redondearAPar
  simp

/-- Half way between two integers the even one is taken. -/
theorem redondearAPar_medio (F : ℤ) :
    redondearAPar ((F : ℚ) + 1 / 2) = if F % 2 = 0 then F else F + 1 := by
  have hf : ⌊(F : ℚ) + 1 / 2⌋ = F := by
    rw [Int.floor_eq_iff]
    constructor <;> norm_num
  unfold redondearAPar
  rw [hf]
  have h : (F : ℚ) + 1 / 2 - (F : ℚ) = 1 / 2 := by ring
  rw [h]
  simp

/-- A rational whose magnitude is a whole number of units in the last place, and lies in
the finite range, is a number. -/
theorem numberValue_exacto (q : ℚ) (M : ℤ)
    (hM : |q| / (2 : ℚ) ^ (max (Int.log 2 |q|) (-1022) - 52) = M)
    (hfin : |q| < (2 : ℚ) ^ (1024 : ℤ)) : numberValue q = some q := by
  unfold numberValue
  by_cases h0 : q = 0
  · simp [h0]
  · rw [if_neg h0]
    simp only
    rw [hM, redondearAPar_entero]
    have hpos := dos_zpow_pos (max (Int.log 2 |q|) (-1022) - 52)
    have hr : (M : ℚ) * (2 : ℚ) ^ (max (Int.log 2 |q|) (-1022) - 52) = |q| := by
      rw [← hM]
      field_simp
    rw [hr, if_neg (not_le.2 hfin)]
    congr 1
    split_ifs with hneg
    · rw [abs_of_neg hneg]; ring
    · rw [abs_of_nonneg (not_lt.1 hneg)]

/-- Every integer of magnitude up to `2^53`, scaled by a power of two from `2^(-1074)` on,
is a number as long as it lies in the finite range. -/
theorem numberValue_mantisa (n z : ℤ) (hn : |n| ≤ 2 ^ 53) (hz : -1074 ≤ z)
    (hfin : |(n : ℚ)| * (2 : ℚ) ^ z < (2 : ℚ) ^ (1024 : ℤ)) :
    numberValue ((n : ℚ) * (2 : ℚ) ^ z) = some ((n : ℚ) * (2 : ℚ) ^ z) := by
  by_cases hn0 : n = 0
  · subst hn0
    simp [numberValue]
  have hz2 := dos_zpow_pos z
  have hnq : (n : ℚ) ≠ 0 := by exact_mod_cast hn0
  have ha : (0 : ℚ) < |(n : ℚ)| := abs_pos.2 hnq
  have hnle : |(n : ℚ)| ≤ (2 : ℚ) ^ (53 : ℤ) := by
    have : ((|n| : ℤ) : ℚ) ≤ ((2 ^ 53 : ℤ) : ℚ) := by exact_mod_cast hn
    rw [Int.cast_abs] at this
    norm_num at this ⊢
    exact this
  have habs : |(n : ℚ) * (2 : ℚ) ^ z| = |(n : ℚ)| * (2 : ℚ) ^ z := by
    rw [abs_mul, abs_of_pos hz2]
  have hqpos : 0 < |(n : ℚ) * (2 : ℚ) ^ z| := by
    rw [habs]; positivity
  have h1 : (2 : ℚ) ^ (Int.log 2 |(n : ℚ) * (2 : ℚ) ^ z|) ≤ |(n : ℚ) * (2 : ℚ) ^ z| :=
    Int.zpow_log_le_self (by norm_num) hqpos
  generalize hL : Int.log 2 |(n : ℚ) * (2 : ℚ) ^ z| = L at h1
  have hpow : (2 : ℚ) ^ (53 : ℤ) * (2 : ℚ) ^ z = (2 : ℚ) ^ (z + 53) := by
    rw [← zpow_add₀ (by norm_num : (2 : ℚ) ≠ 0)]
    congr 1
    ring
  have hLle : L ≤ z + 53 := by
    have h2 : (2 : ℚ) ^ L ≤ (2 : ℚ) ^ (z + 53) := by
      calc (2 : ℚ) ^ L ≤ |(n : ℚ)| * (2 : ℚ) ^ z := by rw [← habs]; exact h1
        _ ≤ (2 : ℚ) ^ (53 : ℤ) * (2 : ℚ) ^ z := by
          exact mul_le_mul_of_nonneg_right hnle (le_of_lt hz2)
        _ = (2 : ℚ) ^ (z + 53) := hpow
    by_contra hcon
    have : (2 : ℚ) ^ (z + 53) < (2 : ℚ) ^ L :=
      zpow_lt_zpow_right₀ (by norm_num) (by omega)
    linarith
  by_cases hT : max L (-1022) - 52 ≤ z
  · -- the magnitude is a whole number of units
    obtain ⟨j, hj⟩ : ∃ j : ℕ, z - (max L (-1022) - 52) = (j : ℤ) :=
      ⟨(z - (max L (-1022) - 52)).toNat, by omega⟩
    apply numberValue_exacto _ (|n| * 2 ^ j)
    · rw [hL, habs]
      have hsplit : (2 : ℚ) ^ z = (2 : ℚ) ^ (j : ℤ) * (2 : ℚ) ^ (max L (-1022) - 52) := by
        rw [← zpow_add₀ (by norm_num : (2 : ℚ) ≠ 0)]
        congr 1
        omega
      rw [hsplit, zpow_natCast]
      have hpos := dos_zpow_pos (max L (-1022) - 52)
      field_simp
      ring
    · rw [habs]; exact hfin
  · -- the magnitude is `2^53` times the scale
    have hLeq : L = z + 53 := by omega
    have hmax : max L (-1022) - 52 = z + 1 := by omega
    have hn53 : |(n : ℚ)| = (2 : ℚ) ^ (53 : ℤ) := by
      apply le_antisymm hnle
      have h3 : (2 : ℚ) ^ (53 : ℤ) * (2 : ℚ) ^ z ≤ |(n : ℚ)| * (2 : ℚ) ^ z := by
        rw [hpow, ← hLeq, ← habs]; exact h1
      exact le_of_mul_le_mul_right h3 hz2
    apply numberValue_exacto _ (2 ^ 52)
    · rw [hL, hmax, habs, hn53]
      have hsplit : (2 : ℚ) ^ (z + 1) = (2 : ℚ) ^ z * 2 := by
        rw [zpow_add₀ (by norm_num : (2 : ℚ) ≠ 0)]
        norm_num
      rw [hsplit]
      field_simp
      norm_num
      ring
    · rw [habs]; exact hfin

/-- A number that is a whole number of units `2^(-k)`, at most `2^53` of them, rounds to
itself. -/
theorem redondear_diadico (x : ℚ) (k : ℕ) (hk : k ≤ 1074) (m : ℤ)
    (hm : x * (2 : ℚ) ^ k = m) (hle : |x| * (2 : ℚ) ^ k ≤ (2 : ℚ) ^ 53) :
    redondear x = Numero.finito x := by
  have h2k : (0 : ℚ) < (2 : ℚ) ^ k := by positivity
  have hx : x = (m : ℚ) * (2 : ℚ) ^ (-(k : ℤ)) := by
    rw [← hm, zpow_neg, zpow_natCast]
    field_simp
  have hmabs : |(m : ℚ)| = |x| * (2 : ℚ) ^ k := by
    rw [← hm, abs_mul, abs_of_pos h2k]
  have hmle : |m| ≤ 2 ^ 53 := by
    have : |(m : ℚ)| ≤ (2 : ℚ) ^ 53 := by rw [hmabs]; exact hle
    rw [← Int.cast_abs] at this
    exact_mod_cast this
  have hfin : |(m : ℚ)| * (2 : ℚ) ^ (-(k : ℤ)) < (2 : ℚ) ^ (1024 : ℤ) := by
    have h1 : (2 : ℚ) ^ (-(k : ℤ)) ≤ 1 := by
      rw [zpow_neg, zpow_natCast]
      exact inv_le_one_of_one_le₀ (one_le_pow₀ (by norm_num))
    have h2 : |(m : ℚ)| ≤ (2 : ℚ) ^ 53 := by rw [hmabs]; exact hle
    have h3 : |(m : ℚ)| * (2 : ℚ) ^ (-(k : ℤ)) ≤ (2 : ℚ) ^ 53 * 1 :=
      mul_le_mul h2 h1 (le_of_lt (dos_zpow_pos _)) (by positivity)
    have h4 : (2 : ℚ) ^ 53 * 1 < (2 : ℚ) ^ (1024 : ℤ) := by norm_num
    linarith
  have h := numberValue_mantisa m (-(k : ℤ)) hmle (by omega) hfin
  unfold redondear
  rw [hx, h]

/-- On a field that holds a safe integer, `parseInt(x) || 0` is the integer. -/
theorem parseIntEntero_seguro (q : ℤ) (h : |q| ≤ 2 ^ 53) :
    (parseIntEntero q).oCero = Numero.finito (q : ℚ) := by
  have hq : |(q : ℚ)| ≤ (2 : ℚ) ^ 53 := by
    rw [← Int.cast_abs]
    exact_mod_cast h
  have hr : redondear (q : ℚ) = Numero.finito (q : ℚ) :=
    redondear_diadico (q : ℚ) 0 (by norm_num) q (by simp) (by simpa using hq)
  have hlt : |(q : ℚ)| < 10 ^ 21 := lt_of_le_of_lt hq (by norm_num)
  unfold parseIntEntero
  rw [hr]
  simp only [hlt, if_true, Numero.oCero]

/-- On a field that holds a number, `parseFloat(x) || 0` is the number. -/
theorem precio_de_numero (p : ℚ) (h : numberValue p = some p) :
    (redondear p).oCero = Numero.finito p := by
  unfold redondear
  rw [h]
  rfl

/-- A loop that adds one number for each line, from a total that, like every product and
every partial sum to come, is a whole number of units `2^(-k)`, at most `2^53` of them: when
the number of a line is the rounded product of its price and its quantity, nothing is
rounded. -/
theorem foldl_total_exacto (k : ℕ) (hk : k ≤ 1074) (f : CartItem → Numero)
    (carrito : List CartItem) :
    ∀ (acc : ℚ) (A : ℤ), acc * (2 : ℚ) ^ k = A →
      (∀ item ∈ carrito, f item = redondear (item.price * (item.quantity : ℚ))) →
      (∀ item ∈ carrito, ∃ n : ℤ, item.price * (2 : ℚ) ^ k = n) →
      (|acc| + (carrito.map (fun item => |item.price * (item.quantity : ℚ)|)).sum) *
        (2 : ℚ) ^ k ≤ (2 : ℚ) ^ 53 →
      carrito.foldl (fun total item => total.add (f item)) (Numero.finito acc) =
      Numero.finito (acc + (carrito.map (fun item => item.price * (item.quantity : ℚ))).sum) := by
  induction carrito with
  | nil =>
    intro acc A _ _ _ _
    simp
  | cons item resto ih =>
    intro acc A hA hf hp hs
    have h2k : (0 : ℚ) < (2 : ℚ) ^ k := by positivity
    obtain ⟨n, hn⟩ := hp item (List.mem_cons_self _ _)
    have hfi := hf item (List.mem_cons_self _ _)
    simp only [List.map_cons, List.sum_cons] at hs
    have hresto_nonneg : 0 ≤ (resto.map (fun item => |item.price * (item.quantity : ℚ)|)).sum := by
      apply List.sum_nonneg
      intro x hx
      obtain ⟨i, _, rfl⟩ := List.mem_map.1 hx
      exact abs_nonneg _
    have hprod_le : |item.price * (item.quantity : ℚ)| * (2 : ℚ) ^ k ≤ (2 : ℚ) ^ 53 := by
      have : |item.price * (item.quantity : ℚ)| ≤
          |acc| + (|item.price * (item.quantity : ℚ)| +
            (resto.map (fun item => |item.price * (item.quantity : ℚ)|)).sum) := by
        have := abs_nonneg acc
        linarith
      exact le_trans (mul_le_mul_of_nonneg_right this (le_of_lt h2k)) hs
    have hprod : redondear (item.price * (item.quantity : ℚ)) =
        Numero.finito (item.price * (item.quantity : ℚ)) :=
      redondear_diadico _ k hk (n * item.quantity)
        (by push_cast; rw [← hn]; ring) hprod_le
    have hsum_le : |acc + item.price * (item.quantity : ℚ)| * (2 : ℚ) ^ k ≤ (2 : ℚ) ^ 53 := by
      have : |acc + item.price * (item.quantity : ℚ)| ≤
          |acc| + (|item.price * (item.quantity : ℚ)| +
            (resto.map (fun item => |item.price * (item.quantity : ℚ)|)).sum) := by
        have := abs_add acc (item.price * (item.quantity : ℚ))
        linarith
      exact le_trans (mul_le_mul_of_nonneg_right this (le_of_lt h2k)) hs
    have hsum : redondear (acc + item.price * (item.quantity : ℚ)) =
        Numero.finito (acc + item.price * (item.quantity : ℚ)) :=
      redondear_diadico _ k hk (A + n * item.quantity)
        (by push_cast; rw [← hn, ← hA]; ring) hsum_le
    have hstep : (Numero.finito acc).add (f item) =
        Numero.finito (acc + item.price * (item.quantity : ℚ)) := by
      rw [hfi, hprod]
      show redondear (acc + item.price * (item.quantity : ℚ)) = _
      rw [hsum]
    simp only [List.foldl_cons, hstep]
    rw [ih (acc + item.price * (item.quantity : ℚ)) (A + n * item.quantity)
      (by push_cast; rw [← hn, ← hA]; ring)
      (fun x hx => hf x (List.mem_cons_of_mem _ hx))
      (fun x hx => hp x (List.mem_cons_of_mem _ hx))
      (by
        have := abs_add acc (item.price * (item.quantity : ℚ))
        have h5 : (|acc + item.price * (item.quantity : ℚ)| +
            (resto.map (fun item => |item.price * (item.quantity : ℚ)|)).sum) ≤
            |acc| + (|item.price * (item.quantity : ℚ)| +
              (resto.map (fun item => |item.price * (item.quantity : ℚ)|)).sum) := by
          linarith
        exact le_trans (mul_le_mul_of_nonneg_right h5 (le_of_lt h2k)) hs)]
    simp only [List.map_cons, List.sum_cons]
    congr 1
    ring

/-- Below the middle between two integers the lower one is taken. -/
theorem redondearAPar_abajo (x : ℚ) (F : ℤ) (h1 : (F : ℚ) ≤ x) (h2 : x < (F : ℚ) + 1 / 2) :
    redondearAPar x = F := by
  have hf : ⌊x⌋ = F := by
    rw [Int.floor_eq_iff]
    exact ⟨h1, by linarith⟩
  unfold redondearAPar
  rw [hf, if_pos (by linarith)]

/-- Above the middle between two integers the upper one is taken. -/
theorem redondearAPar_arriba (x : ℚ) (F : ℤ) (h1 : (F : ℚ) + 1 / 2 < x) (h2 : x < (F : ℚ) + 1) :
    redondearAPar x = F + 1 := by
  have hf : ⌊x⌋ = F := by
    rw [Int.floor_eq_iff]
    exact ⟨by linarith, h2⟩
  unfold redondearAPar
  rw [hf, if_neg (by linarith), if_pos (by linarith)]

/-- The number for a positive rational in the normal range, from its binade: with
`2^L ≤ q < 2^(L+1)` it is the multiple of `2^(L-52)` that `redondearAPar` picks. -/
theorem numberValue_con_log (q : ℚ) (hq : 0 < q) (L N : ℤ) (h1 : (2 : ℚ) ^ L ≤ q)
    (h2 : q < (2 : ℚ) ^ (L + 1)) (hL : -1022 ≤ L)
    (hN : redondearAPar (q / (2 : ℚ) ^ (L - 52)) = N)
    (hfin : (N : ℚ) * (2 : ℚ) ^ (L - 52) < (2 : ℚ) ^ (1024 : ℤ)) :
    numberValue q = some ((N : ℚ) * (2 : ℚ) ^ (L - 52)) := by
  have habs : |q| = q := abs_of_pos hq
  have hlog : Int.log 2 q = L := by
    have ha : L ≤ Int.log 2 q := (Int.zpow_le_iff_le_log (by norm_num) hq).1 h1
    have hb : Int.log 2 q < L + 1 := (Int.lt_zpow_iff_log_lt (by norm_num) hq).1 h2
    omega
  unfold numberValue
  rw [if_neg (ne_of_gt hq)]
  simp only [habs, hlog, max_eq_left hL, hN]
  rw [if_neg (not_le.2 hfin), if_neg (not_lt.2 (le_of_lt hq))]

/-- The number nearest to a rational, from the value of `numberValue`. -/
theorem redondear_de_numberValue (q r : ℚ) (h : numberValue q = some r) :
    redondear q = Numero.finito r := by
  unfold redondear
  rw [h]

/-- The numeral `0.1` denotes the number `precioDecimo`. -/
theorem redondear_decimo : redondear (1 / 10) = Numero.finito precioDecimo := by
  have h := numberValue_con_log (1 / 10) (by norm_num) (-4) 7205759403792794
    (by norm_num) (by norm_num) (by norm_num)
    (by
      have := redondearAPar_arriba ((1 / 10 : ℚ) / (2 : ℚ) ^ ((-4 : ℤ) - 52)) 7205759403792793
        (by norm_num) (by norm_num)
      simpa using this)
    (by norm_num)
  have hv : ((7205759403792794 : ℤ) : ℚ) * (2 : ℚ) ^ ((-4 : ℤ) - 52) = precioDecimo := by
    norm_num [precioDecimo]
  rw [hv] at h
  exact redondear_de_numberValue _ _ h

/-- Three times the number 0.1, rounded: the exact product lies half way between two numbers,
and the one with the even significand is the upper one. -/
theorem redondear_tres_decimos :
    redondear (precioDecimo * 3) = Numero.finito (1351079888211149 / 4503599627370496) := by
  have h := numberValue_con_log (precioDecimo * 3) (by norm_num [precioDecimo]) (-2)
    5404319552844596
    (by norm_num [precioDecimo]) (by norm_num [precioDecimo]) (by norm_num)
    (by
      have h5 : precioDecimo * 3 / (2 : ℚ) ^ ((-2 : ℤ) - 52) =
          ((5404319552844595 : ℤ) : ℚ) + 1 / 2 := by
        norm_num [precioDecimo]
      rw [h5, redondearAPar_medio]
      decide)
    (by norm_num)
  have hv : ((5404319552844596 : ℤ) : ℚ) * (2 : ℚ) ^ ((-2 : ℤ) - 52) =
      1351079888211149 / 4503599627370496 := by
    norm_num
  rw [hv] at h
  exact redondear_de_numberValue _ _ h

/-- A rational that is a whole number of units `2^(-k)`, at most `2^53` of them, is a
number. -/
theorem numberValue_diadico (x : ℚ) (k : ℕ) (hk : k ≤ 1074) (m : ℤ)
    (hm : x * (2 : ℚ) ^ k = m) (hle : |x| * (2 : ℚ) ^ k ≤ (2 : ℚ) ^ 53) :
    numberValue x = some x := by
  have h := redondear_diadico x k hk m hm hle
  unfold redondear at h
  cases hv : numberValue x with
  | none => rw [hv] at h; cases h
  | some r =>
    rw [hv] at h
    injection h with h
    rw [h]

/-- The total that `updateCartModal` shows is the result of its loop, on every cart. -/
theorem cartTotal_updateCartModal (s : Tienda) :
    (updateCartModal s).cartTotal =
      s.carrito.foldl (fun total item =>
        total.add ((redondear item.price).mul (redondear item.quantity))) (Numero.finito 0) := by
  unfold updateCartModal
  split_ifs with h
  · rw [List.length_eq_zero.1 h]
    rfl
  · rfl

/-- One turn of the loop of `getTotalCart` on a line with a number as price and a safe integer
as quantity: the product is rounded, and then the sum. -/
theorem paso_getTotalCart (acc p r t : ℚ) (q : ℤ) (hp : numberValue p = some p)
    (hq : |q| ≤ 2 ^ 53) (hr : redondear (p * (q : ℚ)) = Numero.finito r)
    (ht : redondear (acc + r) = Numero.finito t) :
    (Numero.finito acc).add (((redondear p).oCero).mul ((parseIntEntero q).oCero)) =
      Numero.finito t := by
  rw [precio_de_numero _ hp, parseIntEntero_seguro _ hq]
  show (Numero.finito acc).add (redondear (p * (q : ℚ))) = _
  rw [hr]
  exact ht

/-- One turn of the loop of `updateCartModal` on a line with a number as price and a safe
integer as quantity. -/
theorem paso_updateCartModal (acc p r t : ℚ) (q : ℤ) (hp : numberValue p = some p)
    (hq : |q| ≤ 2 ^ 53) (hr : redondear (p * (q : ℚ)) = Numero.finito r)
    (ht : redondear (acc + r) = Numero.finito t) :
    (Numero.finito acc).add ((redondear p).mul (redondear (q : ℚ))) = Numero.finito t := by
  have hq2 : redondear (q : ℚ) = Numero.finito (q : ℚ) := by
    have hq3 : |(q : ℚ)| ≤ (2 : ℚ) ^ 53 := by
      rw [← Int.cast_abs]
      exact_mod_cast hq
    exact redondear_diadico (q : ℚ) 0 (by norm_num) q (by simp) (by simpa using hq3)
  have hp2 : redondear p = Numero.finito p := by
    unfold redondear
    rw [hp]
  rw [hp2, hq2]
  show (Numero.finito acc).add (redondear (p * (q : ℚ))) = _
  rw [hr]
  exact ht

/-- The number 0.1 is a number. -/
theorem numberValue_precioDecimo : numberValue precioDecimo = some precioDecimo :=
  numberValue_diadico precioDecimo 55 (by norm_num) 3602879701896397
    (by norm_num [precioDecimo])
    (by rw [abs_of_pos (by norm_num [precioDecimo])]; norm_num [precioDecimo])

/-- Adding 1 to `2^53` gives `2^53`: the exact sum lies half way between two numbers, and
the one with the even significand is the lower one. -/
theorem redondear_2_53_mas_1 :
    redondear (9007199254740992 + 1) = Numero.finito 9007199254740992 := by
  have h := numberValue_con_log (9007199254740992 + 1) (by norm_num) 53 4503599627370496
    (by norm_num) (by norm_num) (by norm_num)
    (by
      have h5 : ((9007199254740992 : ℚ) + 1) / (2 : ℚ) ^ ((53 : ℤ) - 52) =
          ((4503599627370496 : ℤ) : ℚ) + 1 / 2 := by
        norm_num
      rw [h5, redondearAPar_medio]
      decide)
    (by norm_num)
  have hv : ((4503599627370496 : ℤ) : ℚ) * (2 : ℚ) ^ ((53 : ℤ) - 52) = 9007199254740992 := by
    norm_num
  rw [hv] at h
  exact redondear_de_numberValue _ _ h

/-- Adding `2^53` to 2 is exact. -/
theorem redondear_2_mas_2_53 :
    redondear (2 + 9007199254740992) = Numero.finito 9007199254740994 := by
  have h := numberValue_mantisa 4503599627370497 1 (by norm_num) (by norm_num) (by norm_num)
  have h5 : ((4503599627370497 : ℤ) : ℚ) * (2 : ℚ) ^ (1 : ℤ) = 2 + 9007199254740992 := by
    norm_num
  have h6 : ((4503599627370497 : ℤ) : ℚ) * (2 : ℚ) ^ (1 : ℤ) = 9007199254740994 := by
    norm_num
  nth_rewrite 1 [h5] at h
  rw [h6] at h
  exact redondear_de_numberValue _ _ h

/-- The first digit of a number that a power of ten denotes is 1. -/
theorem primerDigito_de_potencia (m : ℚ) (n : ℕ)
    (hn : (Nat.digits 10 ⌊m⌋.toNat).length = n + 1)
    (h : numberValue ((10 : ℚ) ^ n) = some m) : primerDigito m = 1 := by
  have hrange : List.range 9 = 0 :: [1, 2, 3, 4, 5, 6, 7, 8] := by decide
  have hfind : (List.range 9).find?
      (fun (d : Nat) => numberValue (((d : ℚ) + 1) * 10 ^ (n + 1 - 1)) == some m) =
      some 0 := by
    rw [hrange, List.find?_cons_of_pos]
    simp [h]
  unfold primerDigito
  simp only [hn, hfind]
  norm_num

/-- The call `parseInt` on a positive number of `10^21` or more returns the first digit of
its text. -/
theorem parseIntEntero_grande (q : ℤ) (v : ℚ) (hr : redondear (q : ℚ) = Numero.finito v)
    (hpos : 0 < v) (hv : (10 : ℚ) ^ 21 ≤ v) :
    parseIntEntero q = Numero.finito (primerDigito v) := by
  unfold parseIntEntero
  rw [hr]
  have habs : |v| = v := abs_of_pos hpos
  simp only [habs, if_neg (not_lt.2 hv), if_neg (not_lt.2 (le_of_lt hpos)), one_mul]

/-- The integer `10^21` is a number. -/
theorem numberValue_10_21 : numberValue ((10 : ℚ) ^ 21) = some ((10 : ℚ) ^ 21) := by
  have h := numberValue_mantisa 476837158203125 21 (by norm_num) (by norm_num) (by norm_num)
  have h5 : ((476837158203125 : ℤ) : ℚ) * (2 : ℚ) ^ (21 : ℤ) = (10 : ℚ) ^ 21 := by
    norm_num
  rw [h5] at h
  exact h

/-- A power of ten with exponent `n` has `n + 1` digits. -/
theorem digitos_de_potencia (n : ℕ) :
    (Nat.digits 10 ⌊(10 : ℚ) ^ n⌋.toNat).length = n + 1 := by
  have h : (10 : ℚ) ^ n = ((((10 ^ n : ℕ)) : ℤ) : ℚ) := by
    push_cast
    rfl
  rw [h, Int.floor_intCast, Int.toNat_natCast, Nat.digits_len 10 _ (by norm_num) (by positivity),
    Nat.log_pow (by norm_num)]

/-- The call `parseInt` on the number `10^21` returns 1: the text of the number is `1e+21`. -/
theorem parseIntEntero_10_21 : parseIntEntero (10 ^ 21) = Numero.finito 1 := by
  have hr : redondear (((10 ^ 21 : ℤ)) : ℚ) = Numero.finito ((10 : ℚ) ^ 21) := by
    have h := redondear_de_numberValue _ _ numberValue_10_21
    have h5 : (((10 ^ 21 : ℤ)) : ℚ) = (10 : ℚ) ^ 21 := by push_cast; rfl
    rw [h5]
    exact h
  rw [parseIntEntero_grande _ _ hr (by positivity) (le_refl _),
    primerDigito_de_potencia _ 21 (digitos_de_potencia 21) numberValue_10_21]

/-- A rational equal to an integer of magnitude at most `2^53` rounds to itself. -/
theorem redondear_entero (x y : ℚ) (m : ℤ) (hx : x = m) (hy : y = m) (hle : |m| ≤ 2 ^ 53) :
    redondear x = Numero.finito y := by
  have h : |(m : ℚ)| ≤ (2 : ℚ) ^ 53 := by
    rw [← Int.cast_abs]
    exact_mod_cast hle
  rw [hx, hy]
  exact redondear_diadico (m : ℚ) 0 (by norm_num) m (by simp) (by simpa using h)

/-- The loop of `getTotalCart` over one more line with a number as price and a safe integer as
quantity. -/
theorem foldl_getTotalCart_cons (acc r t : ℚ) (item : CartItem) (resto : List CartItem)
    (hp : numberValue item.price = some item.price) (hq : |item.quantity| ≤ 2 ^ 53)
    (hr : redondear (item.price * (item.quantity : ℚ)) = Numero.finito r)
    (ht : redondear (acc + r) = Numero.finito t) :
    (item :: resto).foldl (fun total item =>
      total.add (((redondear item.price).oCero).mul ((parseIntEntero item.quantity).oCero)))
      (Numero.finito acc) =
    resto.foldl (fun total item =>
      total.add (((redondear item.price).oCero).mul ((parseIntEntero item.quantity).oCero)))
      (Numero.finito t) := by
  rw [List.foldl_cons, paso_getTotalCart acc _ r t _ hp hq hr ht]

/-- The loop of `updateCartModal` over one more line with a number as price and a safe
integer as quantity. -/
theorem foldl_updateCartModal_cons (acc r t : ℚ) (item : CartItem) (resto : List CartItem)
    (hp : numberValue item.price = some item.price) (hq : |item.quantity| ≤ 2 ^ 53)
    (hr : redondear (item.price * (item.quantity : ℚ)) = Numero.finito r)
    (ht : redondear (acc + r) = Numero.finito t) :
    (item :: resto).foldl (fun total item =>
      total.add ((redondear item.price).mul (redondear item.quantity))) (Numero.finito acc) =
    resto.foldl (fun total item =>
      total.add ((redondear item.price).mul (redondear item.quantity))) (Numero.finito t) := by
  rw [List.foldl_cons, paso_updateCartModal acc _ r t _ hp hq hr ht]

/-- The integer 1 is a number. -/
theorem numberValue_uno : numberValue 1 = some 1 :=
  numberValue_diadico 1 0 (by norm_num) 1 (by norm_num) (by norm_num)

/-- The integer `2^53` is a number. -/
theorem numberValue_2_53 : numberValue 9007199254740992 = some 9007199254740992 :=
  numberValue_diadico 9007199254740992 0 (by norm_num) 9007199254740992 (by norm_num)
    (by rw [abs_of_pos (by norm_num)]; norm_num)

/-- The total of the cart with the prices `2^53`, 1 and 1: each 1 is lost. -/
theorem total_carritoGrande :
    getTotalCart carritoGrande = Numero.finito 9007199254740992 := by
  have e1 := foldl_getTotalCart_cons 0 9007199254740992 9007199254740992
    ⟨7, "Velero", 9007199254740992, "velero.png", 1⟩
    [⟨8, "Pegatina", 1, "pegatina.png", 1⟩, ⟨9, "Postal", 1, "postal.png", 1⟩]
    numberValue_2_53 (by norm_num)
    (redondear_entero _ _ 9007199254740992 (by norm_num) (by norm_num) (by norm_num))
    (redondear_entero _ _ 9007199254740992 (by norm_num) (by norm_num) (by norm_num))
  have e2 := foldl_getTotalCart_cons 9007199254740992 1 9007199254740992
    ⟨8, "Pegatina", 1, "pegatina.png", 1⟩ [⟨9, "Postal", 1, "postal.png", 1⟩]
    numberValue_uno (by norm_num)
    (redondear_entero _ _ 1 (by norm_num) (by norm_num) (by norm_num))
    redondear_2_53_mas_1
  have e3 := foldl_getTotalCart_cons 9007199254740992 1 9007199254740992
    ⟨9, "Postal", 1, "postal.png", 1⟩ []
    numberValue_uno (by norm_num)
    (redondear_entero _ _ 1 (by norm_num) (by norm_num) (by norm_num))
    redondear_2_53_mas_1
  exact e1.trans (e2.trans e3)

/-- The total of the same lines in the opposite order: nothing is lost. -/
theorem total_carritoGrande_reverse :
    getTotalCart carritoGrande.reverse = Numero.finito 9007199254740994 := by
  have e1 := foldl_getTotalCart_cons 0 1 1
    ⟨9, "Postal", 1, "postal.png", 1⟩
    [⟨8, "Pegatina", 1, "pegatina.png", 1⟩, ⟨7, "Velero", 9007199254740992, "velero.png", 1⟩]
    numberValue_uno (by norm_num)
    (redondear_entero _ _ 1 (by norm_num) (by norm_num) (by norm_num))
    (redondear_entero _ _ 1 (by norm_num) (by norm_num) (by norm_num))
  have e2 := foldl_getTotalCart_cons 1 1 2
    ⟨8, "Pegatina", 1, "pegatina.png", 1⟩ [⟨7, "Velero", 9007199254740992, "velero.png", 1⟩]
    numberValue_uno (by norm_num)
    (redondear_entero _ _ 1 (by norm_num) (by norm_num) (by norm_num))
    (redondear_entero _ _ 2 (by norm_num) (by norm_num) (by norm_num))
  have e3 := foldl_getTotalCart_cons 2 9007199254740992 9007199254740994
    ⟨7, "Velero", 9007199254740992, "velero.png", 1⟩ []
    numberValue_2_53 (by norm_num)
    (redondear_entero _ _ 9007199254740992 (by norm_num) (by norm_num) (by norm_num))
    redondear_2_mas_2_53
  exact e1.trans (e2.trans e3)

/-- The total that the cart modal shows for the prices `2^53`, 1 and 1. -/
theorem cartTotal_carritoGrande (s : Tienda) (h : s.carrito = carritoGrande) :
    (updateCartModal s).cartTotal = Numero.finito 9007199254740992 := by
  have e1 := foldl_updateCartModal_cons 0 9007199254740992 9007199254740992
    ⟨7, "Velero", 9007199254740992, "velero.png", 1⟩
    [⟨8, "Pegatina", 1, "pegatina.png", 1⟩, ⟨9, "Postal", 1, "postal.png", 1⟩]
    numberValue_2_53 (by norm_num)
    (redondear_entero _ _ 9007199254740992 (by norm_num) (by norm_num) (by norm_num))
    (redondear_entero _ _ 9007199254740992 (by norm_num) (by norm_num) (by norm_num))
  have e2 := foldl_updateCartModal_cons 9007199254740992 1 9007199254740992
    ⟨8, "Pegatina", 1, "pegatina.png", 1⟩ [⟨9, "Postal", 1, "postal.png", 1⟩]
    numberValue_uno (by norm_num)
    (redondear_entero _ _ 1 (by norm_num) (by norm_num) (by norm_num))
    redondear_2_53_mas_1
  have e3 := foldl_updateCartModal_cons 9007199254740992 1 9007199254740992
    ⟨9, "Postal", 1, "postal.png", 1⟩ []
    numberValue_uno (by norm_num)
    (redondear_entero _ _ 1 (by norm_num) (by norm_num) (by norm_num))
    redondear_2_53_mas_1
  rw [cartTotal_updateCartModal, h]
  exact e1.trans (e2.trans e3)

/-- The total of three units at the price 0.1 is the number 0.30000000000000004. -/
theorem total_carritoDeDecimos :
    getTotalCart carritoDeDecimos =
      Numero.finito (1351079888211149 / 4503599627370496) := by
  have e1 := foldl_getTotalCart_cons 0 (1351079888211149 / 4503599627370496)
    (1351079888211149 / 4503599627370496)
    ⟨7, "Botella reutilizable", precioDecimo, "botella.png", 3⟩ []
    numberValue_precioDecimo (by norm_num)
    (by
      have h3 : (((3 : ℤ)) : ℚ) = 3 := by norm_num
      show redondear (precioDecimo * (((3 : ℤ)) : ℚ)) = _
      rw [h3]
      exact redondear_tres_decimos)
    (by
      rw [zero_add]
      exact redondear_diadico _ 52 (by norm_num) 1351079888211149 (by norm_num)
        (by rw [abs_of_pos (by norm_num)]; norm_num))
  exact e1

/-- The loop of `getTotalCart` over one more line with a number as price, from the number
that `parseInt(item.quantity) || 0` gives. -/
theorem foldl_getTotalCart_cons_cantidad (acc c r t : ℚ) (item : CartItem)
    (resto : List CartItem) (hp : numberValue item.price = some item.price)
    (hc : (parseIntEntero item.quantity).oCero = Numero.finito c)
    (hr : redondear (item.price * c) = Numero.finito r)
    (ht : redondear (acc + r) = Numero.finito t) :
    (item :: resto).foldl (fun total item =>
      total.add (((redondear item.price).oCero).mul ((parseIntEntero item.quantity).oCero)))
      (Numero.finito acc) =
    resto.foldl (fun total item =>
      total.add (((redondear item.price).oCero).mul ((parseIntEntero item.quantity).oCero)))
      (Numero.finito t) := by
  have hstep : (Numero.finito acc).add (((redondear item.price).oCero).mul
      ((parseIntEntero item.quantity).oCero)) = Numero.finito t := by
    rw [precio_de_numero _ hp, hc]
    show (Numero.finito acc).add (redondear (item.price * c)) = _
    rw [hr]
    exact ht
  rw [List.foldl_cons, hstep]

/-- The total of `10^21` units at the price 1 is 1. -/
theorem total_carritoDeMuchasUnidades :
    getTotalCart carritoDeMuchasUnidades = Numero.finito 1 := by
  have hc : (parseIntEntero (10 ^ 21)).oCero = Numero.finito 1 := by
    rw [parseIntEntero_10_21]
    rfl
  exact foldl_getTotalCart_cons_cantidad 0 1 1 1 ⟨8, "Pegatina", 1, "pegatina.png", 10 ^ 21⟩ []
    numberValue_uno hc
    (redondear_entero _ _ 1 (by norm_num) (by norm_num) (by norm_num))
    (redondear_entero _ _ 1 (by norm_num) (by norm_num) (by norm_num))

/-- C8, as stated, fails: on a cart whose prices are numbers and whose quantities are integers
the total is computed in binary64, where every product and every partial sum is rounded, and
`parseInt` reads the quantity from its text. Three lines of one unit at the prices `2^53`, 1
and 1 add up to `2^53 + 2`, and `getTotalCart` returns `2^53`, as does the total of
`updateCartModal`; with the lines in the opposite order `getTotalCart` returns `2^53 + 2`.
Three units at the price 0.1, the number `precioDecimo`, cost `3 * precioDecimo`, and
`getTotalCart` returns the number 0.30000000000000004. For `10^21` units at the price 1,
`parseInt` reads the text `1e+21` as 1 and the total is 1. -/
theorem getTotalCart_no_es_la_suma :
    (∀ item ∈ carritoGrande, numberValue item.price = some item.price) ∧
    (carritoGrande.map (fun item => item.price * (item.quantity : ℚ))).sum =
      9007199254740994 ∧
    getTotalCart carritoGrande = Numero.finito 9007199254740992 ∧
    getTotalCart carritoGrande ≠
      Numero.finito ((carritoGrande.map (fun item => item.price * (item.quantity : ℚ))).sum) ∧
    getTotalCart carritoGrande.reverse = Numero.finito 9007199254740994 ∧
    (∀ s : Tienda, s.carrito = carritoGrande →
      (updateCartModal s).cartTotal = Numero.finito 9007199254740992) ∧
    redondear (1 / 10) = Numero.finito precioDecimo ∧
    numberValue precioDecimo = some precioDecimo ∧
    (carritoDeDecimos.map (fun item => item.price * (item.quantity : ℚ))).sum =
      10808639105689191 / 36028797018963968 ∧
    getTotalCart carritoDeDecimos = Numero.finito (10808639105689192 / 36028797018963968) ∧
    (carritoDeMuchasUnidades.map (fun item => item.price * (item.quantity : ℚ))).sum =
      10 ^ 21 ∧
    getTotalCart carritoDeMuchasUnidades = Numero.finito 1 := by
  have hsuma : (carritoGrande.map (fun item => item.price * (item.quantity : ℚ))).sum =
      9007199254740994 := by
    norm_num [carritoGrande]
  refine ⟨?_, hsuma, total_carritoGrande, ?_, total_carritoGrande_reverse,
    cartTotal_carritoGrande, redondear_decimo, numberValue_precioDecimo, ?_, ?_, ?_,
    total_carritoDeMuchasUnidades⟩
  · intro item hitem
    simp only [carritoGrande, List.mem_cons, List.mem_singleton, List.not_mem_nil,
      or_false] at hitem
    rcases hitem with h | h | h
    · rw [h]
      exact numberValue_2_53
    · rw [h]
      exact numberValue_uno
    · rw [h]
      exact numberValue_uno
  · rw [total_carritoGrande, hsuma]
    intro h
    injection h with h
    norm_num at h
  · norm_num [carritoDeDecimos, precioDecimo]
  · rw [total_carritoDeDecimos]
    norm_num
  · norm_num [carritoDeMuchasUnidades]

/-- C8, amended. On a cart whose prices are numbers that are whole multiples of one unit
`2^(-k)` with `k ≤ 1074`, whose quantities are integers of magnitude at most `2^53`, and
for which the magnitudes of the products price times quantity add up to at most `2^53` of
these units, nothing is rounded: `getTotalCart` returns the sum over the lines of price times
quantity, and so does the total of `updateCartModal`; for the empty cart both return 0. -/
theorem getTotalCart_suma_exacta (carrito : List CartItem) (k : ℕ) (hk : k ≤ 1074)
    (hprecio : ∀ item ∈ carrito, numberValue item.price = some item.price ∧
      ∃ n : ℤ, item.price * (2 : ℚ) ^ k = n)
    (hcantidad : ∀ item ∈ carrito, |item.quantity| ≤ 2 ^ 53)
    (hsuma : (carrito.map (fun item => |item.price * (item.quantity : ℚ)|)).sum *
      (2 : ℚ) ^ k ≤ (2 : ℚ) ^ 53) :
    getTotalCart carrito =
      Numero.finito ((carrito.map (fun item => item.price * (item.quantity : ℚ))).sum) ∧
    (∀ s : Tienda, s.carrito = carrito → (updateCartModal s).cartTotal =
      Numero.finito ((carrito.map (fun item => item.price * (item.quantity : ℚ))).sum)) ∧
    getTotalCart [] = Numero.finito 0 ∧
    (∀ s : Tienda, s.carrito = [] → (updateCartModal s).cartTotal = Numero.finito 0) := by
  have hs : (|(0 : ℚ)| + (carrito.map (fun item => |item.price * (item.quantity : ℚ)|)).sum) *
      (2 : ℚ) ^ k ≤ (2 : ℚ) ^ 53 := by
    rw [abs_zero, zero_add]
    exact hsuma
  have hgrid : ∀ item ∈ carrito, ∃ n : ℤ, item.price * (2 : ℚ) ^ k = n :=
    fun item hitem => (hprecio item hitem).2
  have hcast : ∀ q : ℤ, |q| ≤ 2 ^ 53 → redondear (q : ℚ) = Numero.finito (q : ℚ) :=
    fun q hq => redondear_entero _ _ q rfl rfl hq
  refine ⟨?_, ?_, rfl, ?_⟩
  · have h := foldl_total_exacto k hk
      (fun item => ((redondear item.price).oCero).mul ((parseIntEntero item.quantity).oCero))
      carrito 0 0 (by simp)
      (by
        intro item hitem
        show ((redondear item.price).oCero).mul ((parseIntEntero item.quantity).oCero) = _
        rw [precio_de_numero _ (hprecio item hitem).1,
          parseIntEntero_seguro _ (hcantidad item hitem)]
        rfl)
      hgrid hs
    rw [zero_add] at h
    exact h
  · intro s hcarrito
    have h := foldl_total_exacto k hk
      (fun item => (redondear item.price).mul (redondear item.quantity))
      carrito 0 0 (by simp)
      (by
        intro item hitem
        show (redondear item.price).mul (redondear item.quantity) = _
        rw [redondear_de_numberValue _ _ (hprecio item hitem).1,
          hcast _ (hcantidad item hitem)]
        rfl)
      hgrid hs
    rw [zero_add] at h
    rw [cartTotal_updateCartModal, hcarrito]
    exact h
  · intro s hcarrito
    rw [cartTotal_updateCartModal, hcarrito]
    rfl

/-- C8 amended, on the cart with two units at 120.50 and one at 35.25, whose prices are whole
numbers of quarters: the total is 276.25. -/
theorem getTotalCart_suma_exacta_witness :
    (carritoDeCuartos.map (fun item => item.price * (item.quantity : ℚ))).sum = 1105 / 4 ∧
    (getTotalCart carritoDeCuartos =
      Numero.finito
        ((carritoDeCuartos.map (fun item => item.price * (item.quantity : ℚ))).sum) ∧
    (∀ s : Tienda, s.carrito = carritoDeCuartos → (updateCartModal s).cartTotal =
      Numero.finito
        ((carritoDeCuartos.map (fun item => item.price * (item.quantity : ℚ))).sum)) ∧
    getTotalCart [] = Numero.finito 0 ∧
    (∀ s : Tienda, s.carrito = [] → (updateCartModal s).cartTotal = Numero.finito 0)) := by
  refine ⟨by norm_num [carritoDeCuartos],
    getTotalCart_suma_exacta carritoDeCuartos 2 (by norm_num) ?_ ?_ ?_⟩
  · intro item hitem
    simp only [carritoDeCuartos, List.mem_cons, List.mem_singleton, List.not_mem_nil,
      or_false] at hitem
    rcases hitem with h | h
    · rw [h]
      exact ⟨numberValue_diadico (241 / 2) 1 (by norm_num) 241 (by norm_num)
        (by rw [abs_of_pos (by norm_num)]; norm_num), 482, by norm_num⟩
    · rw [h]
      exact ⟨numberValue_diadico (141 / 4) 2 (by norm_num) 141 (by norm_num)
        (by rw [abs_of_pos (by norm_num)]; norm_num), 141, by norm_num⟩
  · intro item hitem
    simp only [carritoDeCuartos, List.mem_cons, List.mem_singleton, List.not_mem_nil,
      or_false] at hitem
    rcases hitem with h | h
    · rw [h]
      norm_num
    · rw [h]
      norm_num
  · norm_num [carritoDeCuartos, abs_of_pos]

end Sway
